import Mathlib

/-!
# SGCT configuration reader: a shallow embedding of `readconfig.cpp`

The JSON half of `src/sgct/readconfig.cpp` is translated function by function.
A C++ function that throws becomes a function into `Res α = Except Exn α`; the
statements of a `from_json` body become the lines of a `do` block in the same
order, so the first failing statement decides the exception that escapes.

JSON documents are values of `Json`.  An object is an association list and
`Json.find` returns the value of the first entry with the given key, which is how
a `std::map` keyed by strings answers `find`.  Numbers of C++ type `float` and
`double` are rationals.
-/

namespace sgct

/-! ## JSON values and the exceptions that can escape the reader -/

/-- A parsed JSON document (`nlohmann::json`). -/
inductive Json where
  | null
  | bool (b : Bool)
  | int (i : Int)
  | float (q : ℚ)
  | str (s : String)
  | arr (xs : List Json)
  | obj (kvs : List (String × Json))

/-- The exceptions thrown while reading a configuration.
* `runtime_error msg` is `std::runtime_error(msg)`;
* `Error code msg` is `Err(code, msg)`, i.e. `sgct::Error(Component::ReadConfig, code, msg)`;
* `json_exception id` is an exception of the JSON library with its numeric id
  (302 type error, 304 `at` on a non-object, 401 and 403 out of range);
* `c_string msg` is `throw "..."` of a string literal. -/
inductive Exn where
  | runtime_error (msg : String)
  | Error (code : Nat) (msg : String)
  | json_exception (id : Nat)
  | c_string (msg : String)
  deriving DecidableEq, Repr

/-- Result of a function that may throw. -/
abbrev Res (α : Type) := Except Exn α

/-- True when the computation returned normally. -/
def Res.succeeds {α : Type} : Res α → Bool
  | .ok _ => true
  | .error _ => false

/-- Modelled from the spec: `sgct::Error::what()` (error.cpp is not among the sources).
The messages the tests expect have the shape
`[ReadConfig] (code): message`; a `std::runtime_error` and a thrown literal report their
text unchanged, and the text of a JSON library exception is abbreviated to its id. -/
def Exn.what : Exn → String
  | .runtime_error msg => msg
  | .Error code msg => "[ReadConfig] (" ++ toString code ++ "): " ++ msg
  | .json_exception id => "[json.exception] " ++ toString id
  | .c_string msg => msg

/-- Is the escaping exception a `std::runtime_error` (which `sgct::Error` derives from)? -/
def Exn.isRuntimeError : Exn → Bool
  | .runtime_error _ => true
  | .Error _ _ => true
  | _ => false

/-- The call `j.find(key)`: the value stored under `key`, `none` standing for `j.end()`.
On anything but an object the library returns `end()`. -/
def Json.find (j : Json) (key : String) : Option Json :=
  match j with
  | .obj kvs => kvs.lookup key
  | _ => none

/-- The call `j.at(key)`: like `find`, but throws out-of-range 403 when the key is missing and
type error 304 when `j` is not an object. -/
def Json.atKey (j : Json) (key : String) : Res Json :=
  match j with
  | .obj kvs =>
    match kvs.lookup key with
    | some v => .ok v
    | none => .error (.json_exception 403)
  | _ => .error (.json_exception 304)

/-- The test `j.is_null()`. -/
def Json.is_null : Json → Bool
  | .null => true
  | _ => false

/-- Conversion of a 64-bit JSON integer to C++ `int` by `static_cast`: the value is
reduced modulo `2^32` into the range `-2^31 .. 2^31 - 1`. -/
def toInt32 (i : Int) : Int := (i + 2147483648) % 4294967296 - 2147483648

/-- Truncation of a rational towards zero, the value of `static_cast<int>` on a
floating point number. -/
def truncate (q : ℚ) : Int := Int.tdiv q.num q.den

/-- The conversion `j.get<std::string>()`: only a JSON string converts. -/
def get_string : Json → Res String
  | .str s => .ok s
  | _ => .error (.json_exception 302)

/-- The conversion `j.get<bool>()`: only a JSON boolean converts. -/
def get_bool : Json → Res Bool
  | .bool b => .ok b
  | _ => .error (.json_exception 302)

/-- The conversion `j.get<int>()`: any JSON number or boolean converts, everything else is type error 302. -/
def get_int : Json → Res Int
  | .int i => .ok (toInt32 i)
  | .float q => .ok (toInt32 (truncate q))
  | .bool b => .ok (if b then 1 else 0)
  | _ => .error (.json_exception 302)

/-- The conversion `j.get<float>()`: any JSON number or boolean converts, everything else is type error 302. -/
def get_float : Json → Res ℚ
  | .int i => .ok i
  | .float q => .ok q
  | .bool b => .ok (if b then 1 else 0)
  | _ => .error (.json_exception 302)

/-- The conversion `j.get<double>()`: `double` is the library's own float type, for which only numbers
convert. -/
def get_double : Json → Res ℚ
  | .int i => .ok i
  | .float q => .ok q
  | _ => .error (.json_exception 302)

/-- Element-wise conversion of the items of a JSON array, in order. -/
def get_items {α : Type} (get : Json → Res α) : List Json → Res (List α)
  | [] => .ok []
  | x :: xs => do
    let a ← get x
    let as ← get_items get xs
    pure (a :: as)

/-- The conversion `j.get_to(v)` for a `std::vector`: `j` must be an array (type error 302 otherwise) and
its items are converted in order. -/
def get_vector {α : Type} (get : Json → Res α) : Json → Res (List α)
  | .arr xs => get_items get xs
  | _ => .error (.json_exception 302)

/-- The template `parseValue(j, key, res)` for a plain `T` (neither optional nor vector): the key is
required. -/
def parseValue {α : Type} (get : Json → Res α) (j : Json) (key : String) : Res α :=
  match j.find key with
  | some v => get v
  | none => .error (.runtime_error ("Could not find required key '" ++ key ++ "'"))

/-- The template `parseValue(j, key, res)` for `T = std::optional<U>`: a missing key
gives `std::nullopt`. -/
def parseValueOpt {α : Type} (get : Json → Res α) (j : Json) (key : String) :
    Res (Option α) :=
  match j.find key with
  | some v => do
    let a ← get v
    pure (some a)
  | none => .ok none

/-- The template `parseValue(j, key, res)` for `T = std::vector<U>`: a missing key gives
the empty vector. -/
def parseValueVec {α : Type} (get : Json → Res α) (j : Json) (key : String) :
    Res (List α) :=
  match j.find key with
  | some v => get_vector get v
  | none => .ok []

/-- The call `j.value(key, dflt)`: the converted value under `key`, `dflt` when the key is missing,
type error 306 when `j` is not an object. -/
def Json.value {α : Type} (j : Json) (get : Json → Res α) (key : String) (dflt : α) :
    Res α :=
  match j with
  | .obj kvs =>
    match kvs.lookup key with
    | some v => get v
    | none => .ok dflt
  | _ => .error (.json_exception 306)

/-- The idiom `if (auto it = j.find(key); it != j.end()) { field = f(*it); }` for an
optional field that is empty before the statement. -/
def ifFound {α : Type} (j : Json) (key : String) (f : Json → Res α) : Res (Option α) :=
  match j.find key with
  | some it => do
    let a ← f it
    pure (some a)
  | none => .ok none

/-! ## Vector and matrix types (`sgct/math.h`) -/

structure ivec2 where
  x : Int
  y : Int
  deriving DecidableEq, Repr

structure vec2 where
  x : ℚ
  y : ℚ
  deriving DecidableEq, Repr

structure vec3 where
  x : ℚ
  y : ℚ
  z : ℚ
  deriving DecidableEq, Repr

structure vec4 where
  x : ℚ
  y : ℚ
  z : ℚ
  w : ℚ
  deriving DecidableEq, Repr

structure quat where
  x : ℚ
  y : ℚ
  z : ℚ
  w : ℚ
  deriving DecidableEq, Repr

/-- A 4x4 matrix, its sixteen `values` in storage order. -/
structure mat4 where
  values : List ℚ
  deriving DecidableEq, Repr

/-! ## Configuration types (`sgct/config.h`), as the reader and the writer use them -/

namespace config

structure Scene where
  offset : Option vec3
  orientation : Option quat
  scale : Option ℚ
  deriving DecidableEq, Repr

structure User.Tracking where
  tracker : String
  device : String
  deriving DecidableEq, Repr

structure User where
  name : Option String
  eyeSeparation : Option ℚ
  position : Option vec3
  transformation : Option mat4
  tracking : Option User.Tracking
  deriving DecidableEq, Repr

inductive Settings.BufferFloatPrecision where
  | Float16Bit
  | Float32Bit
  deriving DecidableEq, Repr

structure Settings.Display where
  swapInterval : Option Int
  refreshRate : Option Int
  deriving DecidableEq, Repr

structure Settings where
  useDepthTexture : Option Bool
  useNormalTexture : Option Bool
  usePositionTexture : Option Bool
  bufferFloatPrecision : Option Settings.BufferFloatPrecision
  display : Option Settings.Display
  deriving DecidableEq, Repr

inductive Capture.Format where
  | PNG
  | TGA
  | JPG
  deriving DecidableEq, Repr

structure Capture.ScreenShotRange where
  first : Int
  last : Int
  deriving DecidableEq, Repr

structure Capture where
  path : Option String
  format : Option Capture.Format
  range : Option Capture.ScreenShotRange
  deriving DecidableEq, Repr

structure Device.Sensors where
  vrpnAddress : String
  identifier : Int
  deriving DecidableEq, Repr

structure Device.Buttons where
  vrpnAddress : String
  count : Int
  deriving DecidableEq, Repr

structure Device.Axes where
  vrpnAddress : String
  count : Int
  deriving DecidableEq, Repr

structure Device where
  name : String
  sensors : List Device.Sensors
  buttons : List Device.Buttons
  axes : List Device.Axes
  offset : Option vec3
  transformation : Option mat4
  deriving DecidableEq, Repr

structure Tracker where
  name : String
  devices : List Device
  offset : Option vec3
  scale : Option ℚ
  transformation : Option mat4
  deriving DecidableEq, Repr

structure PlanarProjection.FOV where
  down : ℚ
  left : ℚ
  right : ℚ
  up : ℚ
  distance : Option ℚ
  deriving DecidableEq, Repr

structure PlanarProjection where
  fov : PlanarProjection.FOV
  orientation : Option quat
  offset : Option vec3
  deriving DecidableEq, Repr

inductive FisheyeProjection.Interpolation where
  | Linear
  | Cubic
  deriving DecidableEq, Repr

structure FisheyeProjection.Crop where
  left : ℚ
  right : ℚ
  bottom : ℚ
  top : ℚ
  deriving DecidableEq, Repr

structure FisheyeProjection where
  fov : Option ℚ
  quality : Option Int
  interpolation : Option FisheyeProjection.Interpolation
  diameter : Option ℚ
  tilt : Option ℚ
  crop : Option FisheyeProjection.Crop
  keepAspectRatio : Option Bool
  offset : Option vec3
  background : Option vec4
  deriving DecidableEq, Repr

structure SphericalMirrorProjection.Mesh where
  bottom : String
  left : String
  right : String
  top : String
  deriving DecidableEq, Repr

structure SphericalMirrorProjection where
  quality : Option Int
  tilt : Option ℚ
  background : Option vec4
  mesh : SphericalMirrorProjection.Mesh
  deriving DecidableEq, Repr

inductive SpoutOutputProjection.Mapping where
  | Fisheye
  | Equirectangular
  | Cubemap
  deriving DecidableEq, Repr

structure SpoutOutputProjection.Channels where
  right : Bool
  zLeft : Bool
  bottom : Bool
  top : Bool
  left : Bool
  zRight : Bool
  deriving DecidableEq, Repr

structure SpoutOutputProjection where
  quality : Option Int
  drawMain : Option Bool
  mapping : Option SpoutOutputProjection.Mapping
  mappingSpoutName : String
  background : Option vec4
  channels : Option SpoutOutputProjection.Channels
  orientation : Option vec3
  deriving DecidableEq, Repr

structure SpoutFlatProjection where
  width : Option Int
  height : Option Int
  mappingSpoutName : String
  background : Option vec4
  drawMain : Option Bool
  proj : PlanarProjection
  deriving DecidableEq, Repr

structure CylindricalProjection where
  quality : Option Int
  rotation : Option ℚ
  heightOffset : Option ℚ
  radius : Option ℚ
  deriving DecidableEq, Repr

structure EquirectangularProjection where
  quality : Option Int
  deriving DecidableEq, Repr

structure ProjectionPlane where
  lowerLeft : vec3
  upperLeft : vec3
  upperRight : vec3
  deriving DecidableEq, Repr

/-- The alternatives of the `std::variant` stored in `Viewport::projection`. -/
inductive Projection where
  | NoProjection
  | Planar (p : PlanarProjection)
  | Fisheye (p : FisheyeProjection)
  | SphericalMirror (p : SphericalMirrorProjection)
  | SpoutOutput (p : SpoutOutputProjection)
  | SpoutFlat (p : SpoutFlatProjection)
  | Cylindrical (p : CylindricalProjection)
  | Equirectangular (p : EquirectangularProjection)
  | Plane (p : ProjectionPlane)
  deriving DecidableEq, Repr

inductive Viewport.Eye where
  | Mono
  | StereoLeft
  | StereoRight
  deriving DecidableEq, Repr

structure Viewport where
  user : Option String
  overlayTexture : Option String
  blendMaskTexture : Option String
  blackLevelMaskTexture : Option String
  correctionMeshTexture : Option String
  isTracked : Option Bool
  eye : Option Viewport.Eye
  position : Option vec2
  size : Option vec2
  projection : Projection
  deriving DecidableEq, Repr

inductive Window.StereoMode where
  | NoStereo
  | Active
  | Checkerboard
  | CheckerboardInverted
  | AnaglyphRedCyan
  | AnaglyphAmberBlue
  | AnaglyphRedCyanWimmer
  | VerticalInterlaced
  | VerticalInterlacedInverted
  | Dummy
  | SideBySide
  | SideBySideInverted
  | TopBottom
  | TopBottomInverted
  deriving DecidableEq, Repr

inductive Window.ColorBitDepth where
  | Depth8
  | Depth16
  | Depth16Float
  | Depth32Float
  | Depth16Int
  | Depth32Int
  | Depth16UInt
  | Depth32UInt
  deriving DecidableEq, Repr

structure Window where
  id : Int
  name : Option String
  tags : List String
  bufferBitDepth : Option Window.ColorBitDepth
  isFullScreen : Option Bool
  shouldAutoiconify : Option Bool
  hideMouseCursor : Option Bool
  isFloating : Option Bool
  alwaysRender : Option Bool
  isHidden : Option Bool
  doubleBuffered : Option Bool
  msaa : Option Int
  hasAlpha : Option Bool
  useFxaa : Option Bool
  isDecorated : Option Bool
  isResizable : Option Bool
  isMirrored : Option Bool
  draw2D : Option Bool
  draw3D : Option Bool
  blitWindowId : Option Int
  monitor : Option Int
  mpcdi : Option String
  stereo : Option Window.StereoMode
  pos : Option ivec2
  size : ivec2
  resolution : Option ivec2
  viewports : List Viewport
  deriving DecidableEq, Repr

structure Node where
  address : String
  port : Int
  dataTransferPort : Option Int
  swapLock : Option Bool
  windows : List Window
  deriving DecidableEq, Repr

structure Cluster where
  success : Bool
  masterAddress : String
  setThreadAffinity : Option Int
  debugLog : Option Bool
  externalControlPort : Option Int
  firmSync : Option Bool
  scene : Option Scene
  users : List User
  settings : Option Settings
  capture : Option Capture
  trackers : List Tracker
  nodes : List Node
  deriving DecidableEq, Repr

end config

open config

/-! ## What the reader takes from outside this file

Library calls and declarations of headers that are not among the sources. -/

/-- The library functions the reader calls and the default values of types declared in
`config.h` and `math.h`:
* `parse` is `nlohmann::json::parse`;
* `absolute p` is `std::filesystem::absolute(p).string()`;
* `eulerQuat x y z` is the unit quaternion rotated by `glm::rotate` about the Y axis by
  `radians(y)`, the X axis by `radians(x)` and the Z axis by `radians(z)`, after `fromGLM`;
* `mat4_cast q` is `fromGLM(glm::mat4_cast(glm::make_quat(&q.x)))`;
* `formatFloat` is how `fmt::format` prints a `float`;
* `quat0`, `vec4_0`, `range0`, `crop0`, `proj0` are the default-constructed `quat`, `vec4`,
  `Capture::ScreenShotRange`, `FisheyeProjection::Crop` and `PlanarProjection`. -/
structure Ext where
  parse : String → Res Json
  absolute : String → String
  eulerQuat : ℚ → ℚ → ℚ → quat
  mat4_cast : quat → mat4
  formatFloat : ℚ → String
  quat0 : quat
  vec4_0 : vec4
  range0 : Capture.ScreenShotRange
  crop0 : FisheyeProjection.Crop
  proj0 : PlanarProjection

/-! ## Helpers of the anonymous namespace -/

def parseStereoType (t : String) : Res Window.StereoMode :=
  if t = "none" ∨ t = "no_stereo" then .ok .NoStereo
  else if t = "active" ∨ t = "quadbuffer" then .ok .Active
  else if t = "checkerboard" then .ok .Checkerboard
  else if t = "checkerboard_inverted" then .ok .CheckerboardInverted
  else if t = "anaglyph_red_cyan" then .ok .AnaglyphRedCyan
  else if t = "anaglyph_amber_blue" then .ok .AnaglyphAmberBlue
  else if t = "anaglyph_wimmer" then .ok .AnaglyphRedCyanWimmer
  else if t = "vertical_interlaced" then .ok .VerticalInterlaced
  else if t = "vertical_interlaced_inverted" then .ok .VerticalInterlacedInverted
  else if t = "test" ∨ t = "dummy" then .ok .Dummy
  else if t = "side_by_side" then .ok .SideBySide
  else if t = "side_by_side_inverted" then .ok .SideBySideInverted
  else if t = "top_bottom" then .ok .TopBottom
  else if t = "top_bottom_inverted" then .ok .TopBottomInverted
  else .error (.Error 6085 ("Unkonwn stereo mode " ++ t))

def parseBufferColorBitDepth (type : String) : Res Window.ColorBitDepth :=
  if type = "8" then .ok .Depth8
  else if type = "16" then .ok .Depth16
  else if type = "16f" then .ok .Depth16Float
  else if type = "32f" then .ok .Depth32Float
  else if type = "16i" then .ok .Depth16Int
  else if type = "32i" then .ok .Depth32Int
  else if type = "16ui" then .ok .Depth16UInt
  else if type = "32ui" then .ok .Depth32UInt
  else .error (.Error 6086 ("Unknown color bit depth " ++ type))

def cubeMapResolutionForQuality (quality : String) : Res Int :=
  if quality = "low" ∨ quality = "256" then .ok 256
  else if quality = "medium" ∨ quality = "512" then .ok 512
  else if quality = "high" ∨ quality = "1k" ∨ quality = "1024" then .ok 1024
  else if quality = "1.5k" ∨ quality = "1536" then .ok 1536
  else if quality = "2k" ∨ quality = "2048" then .ok 2048
  else if quality = "4k" ∨ quality = "4096" then .ok 4096
  else if quality = "8k" ∨ quality = "8192" then .ok 8192
  else if quality = "16k" ∨ quality = "16384" then .ok 16384
  else if quality = "32k" ∨ quality = "32768" then .ok 32768
  else if quality = "64k" ∨ quality = "65536" then .ok 65536
  else .error (.Error 6087 ("Unknown resolution " ++ quality ++ " for cube map"))

def parseImageFormat (format : String) : Res Capture.Format :=
  if format = "png" ∨ format = "PNG" then .ok .PNG
  else if format = "tga" ∨ format = "TGA" then .ok .TGA
  else if format = "jpg" ∨ format = "JPG" then .ok .JPG
  else .error (.Error 6060 "Unknown capturing format")

def parseEye (eye : String) : Res Viewport.Eye :=
  if eye = "center" then .ok .Mono
  else if eye = "left" then .ok .StereoLeft
  else if eye = "right" then .ok .StereoRight
  else .error (.Error 6020 "Unrecognized eye position")

def parseInterpolation (i : String) : Res FisheyeProjection.Interpolation :=
  if i = "cubic" then .ok .Cubic
  else if i = "linear" then .ok .Linear
  else .error (.Error 6023 "Unregnozed interpolation")

def parseMapping (mapping : String) : Res SpoutOutputProjection.Mapping :=
  if mapping = "fisheye" then .ok .Fisheye
  else if mapping = "equirectangular" then .ok .Equirectangular
  else if mapping = "cubemap" then .ok .Cubemap
  else .error (.Error 6086 ("Unknown spout output mapping: " ++ mapping))

/-- The constant `InvalidWindowIndex`. -/
def InvalidWindowIndex : Int := -128

/-! ## `from_json` for the math types -/

def from_json_ivec2 (j : Json) : Res ivec2 := do
  let x ← (← j.atKey "x") |> get_int
  let y ← (← j.atKey "y") |> get_int
  pure { x := x, y := y }

def from_json_vec2 (j : Json) : Res vec2 := do
  let x ← (← j.atKey "x") |> get_float
  let y ← (← j.atKey "y") |> get_float
  pure { x := x, y := y }

def from_json_vec3 (j : Json) : Res vec3 := do
  let x ← (← j.atKey "x") |> get_float
  let y ← (← j.atKey "y") |> get_float
  let z ← (← j.atKey "z") |> get_float
  pure { x := x, y := y, z := z }

/-- The statement of `from_json(vec4)` and `from_json(quat)` that assigns the four
components from the values found under four keys, when all four keys are there. -/
def assignFour (itX itY itZ itW : Option Json) (cur : ℚ × ℚ × ℚ × ℚ) : Res (ℚ × ℚ × ℚ × ℚ) :=
  match itX, itY, itZ, itW with
  | some vx, some vy, some vz, some vw => do
    let x ← get_float vx
    let y ← get_float vy
    let z ← get_float vz
    let w ← get_float vw
    pure (x, y, z, w)
  | _, _, _, _ => .ok cur

/-- The reader of a `vec4`, started from the value `v` the caller holds: the keys x, y, z, w
are used when all four are there, then r, g, b, a when all four are there. -/
def from_json_vec4 (j : Json) (v : vec4) : Res vec4 := do
  let c ← assignFour (j.find "x") (j.find "y") (j.find "z") (j.find "w") (v.x, v.y, v.z, v.w)
  let c ← assignFour (j.find "r") (j.find "g") (j.find "b") (j.find "a") c
  pure { x := c.1, y := c.2.1, z := c.2.2.1, w := c.2.2.2 }

/-- The conversion `j.get<std::array<T, n>>()` on the items of an array: item `i` is
`j.at(i).get<T>()`, and a missing item is out-of-range 401. -/
def get_fixed {α : Type} (get : Json → Res α) : Nat → List Json → Res (List α)
  | 0, _ => .ok []
  | _ + 1, [] => .error (.json_exception 401)
  | n + 1, x :: xs => do
    let a ← get x
    let as ← get_fixed get n xs
    pure (a :: as)

def from_json_mat4 (j : Json) : Res mat4 :=
  match j with
  | .arr xs => do
    let vs ← get_fixed get_double 16 xs
    pure { values := vs }
  | _ => .error (.json_exception 302)

/-- The first statement of `from_json(quat)`: when pitch, yaw and roll are all there, the
quaternion is computed from them. -/
def from_json_quat_euler (ext : Ext) (itPitch itYaw itRoll : Option Json) (q : quat) :
    Res quat :=
  match itPitch, itYaw, itRoll with
  | some vp, some vy, some vr => do
    let x ← get_double vp
    let y ← get_double vy
    let z ← get_double vr
    pure (ext.eulerQuat x (-y) (-z))
  | _, _, _ => .ok q

/-- The reader of a `quat`, started from the value `q` the caller holds. -/
def from_json_quat (ext : Ext) (j : Json) (q : quat) : Res quat := do
  let q ← from_json_quat_euler ext (j.find "pitch") (j.find "yaw") (j.find "roll") q
  let c ← assignFour (j.find "x") (j.find "y") (j.find "z") (j.find "w") (q.x, q.y, q.z, q.w)
  pure { x := c.1, y := c.2.1, z := c.2.2.1, w := c.2.2.2 }

/-- The conversion `it->get<quat>()`: the reader run on a default-constructed value. -/
def get_quat (ext : Ext) (j : Json) : Res quat := from_json_quat ext j ext.quat0

/-- The conversion `it->get<vec4>()`: the reader run on a default-constructed value. -/
def get_vec4 (ext : Ext) (j : Json) : Res vec4 := from_json_vec4 j ext.vec4_0

/-! ## `from_json` for the configuration types

Each function starts from a default-constructed value, as `get<T>()` does, and returns
the value the C++ function leaves in its output parameter. -/

def from_json_Scene (ext : Ext) (j : Json) : Res Scene := do
  let offset ← parseValueOpt from_json_vec3 j "offset"
  let orientation ← parseValueOpt (get_quat ext) j "orientation"
  let scale ← parseValueOpt get_float j "scale"
  pure { offset := offset, orientation := orientation, scale := scale }

/-- The block of `from_json(User)` that reads the `tracking` object `it`. -/
def from_json_User_tracking (it : Json) : Res User.Tracking :=
  match it.find "tracker" with
  | none => .error (.runtime_error "Missing key 'tracker' in User")
  | some trackerIt =>
    match it.find "device" with
    | none => .error (.runtime_error "Missing key 'device' in User")
    | some deviceIt => do
      let tracker ← get_string trackerIt
      let device ← get_string deviceIt
      pure { tracker := tracker, device := device }

def from_json_User (ext : Ext) (j : Json) : Res User := do
  let name ← parseValueOpt get_string j "name"
  let eyeSeparation ← parseValueOpt get_float j "eyeseparation"
  let position ← parseValueOpt from_json_vec3 j "pos"
  let transformation ← parseValueOpt from_json_mat4 j "matrix"
  let orientation ← ifFound j "orientation" (get_quat ext)
  let transformation :=
    match orientation with
    | some q => some (ext.mat4_cast q)
    | none => transformation
  let tracking ← ifFound j "tracking" from_json_User_tracking
  pure { name := name, eyeSeparation := eyeSeparation, position := position,
         transformation := transformation, tracking := tracking }

/-- The block of `from_json(Settings)` that reads the `precision` value `it`. -/
def from_json_Settings_precision (ext : Ext) (it : Json) :
    Res Settings.BufferFloatPrecision := do
  let precision ← get_float it
  if precision = 16 then pure .Float16Bit
  else if precision = 32 then pure .Float32Bit
  else .error (.Error 6050 ("Wrong buffer precision value " ++ ext.formatFloat precision))

/-- The block of `from_json(Settings)` that reads the `display` object `it`. -/
def from_json_Settings_display (it : Json) : Res Settings.Display := do
  let swapInterval ← parseValueOpt get_int it "swapinterval"
  let refreshRate ← parseValueOpt get_int it "refreshrate"
  pure { swapInterval := swapInterval, refreshRate := refreshRate }

def from_json_Settings (ext : Ext) (j : Json) : Res Settings := do
  let useDepthTexture ← parseValueOpt get_bool j "depthbuffertexture"
  let useNormalTexture ← parseValueOpt get_bool j "normaltexture"
  let usePositionTexture ← parseValueOpt get_bool j "positiontexture"
  let bufferFloatPrecision ← ifFound j "precision" (from_json_Settings_precision ext)
  let display ← ifFound j "display" from_json_Settings_display
  pure { useDepthTexture := useDepthTexture, useNormalTexture := useNormalTexture,
         usePositionTexture := usePositionTexture,
         bufferFloatPrecision := bufferFloatPrecision, display := display }

def from_json_Capture (ext : Ext) (j : Json) : Res Capture := do
  let path ← parseValueOpt get_string j "path"
  let format ← ifFound j "format" (fun it => do
    let format ← get_string it
    parseImageFormat format)
  let rangeBeg ← parseValueOpt get_int j "rangebegin"
  let rangeEnd ← parseValueOpt get_int j "rangeend"
  let range : Option Capture.ScreenShotRange :=
    if rangeBeg.isSome ∨ rangeEnd.isSome then some ext.range0 else none
  let range : Option Capture.ScreenShotRange :=
    match rangeBeg with
    | some b => range.map (fun r => { r with first := b })
    | none => range
  let range : Option Capture.ScreenShotRange :=
    match rangeEnd with
    | some e => range.map (fun r => { r with last := e })
    | none => range
  pure { path := path, format := format, range := range }

def from_json_Device_Sensors (j : Json) : Res Device.Sensors := do
  let vrpnAddress ← (← j.atKey "vrpnaddress") |> get_string
  let identifier ← (← j.atKey "id") |> get_int
  pure { vrpnAddress := vrpnAddress, identifier := identifier }

def from_json_Device_Buttons (j : Json) : Res Device.Buttons := do
  let vrpnAddress ← (← j.atKey "vrpnaddress") |> get_string
  let count ← (← j.atKey "count") |> get_int
  pure { vrpnAddress := vrpnAddress, count := count }

def from_json_Device_Axes (j : Json) : Res Device.Axes := do
  let vrpnAddress ← (← j.atKey "vrpnaddress") |> get_string
  let count ← (← j.atKey "count") |> get_int
  pure { vrpnAddress := vrpnAddress, count := count }

def from_json_Device (j : Json) : Res Device := do
  let name ← parseValue get_string j "name"
  let sensors ← parseValueVec from_json_Device_Sensors j "sensors"
  let buttons ← parseValueVec from_json_Device_Buttons j "buttons"
  let axes ← parseValueVec from_json_Device_Axes j "axes"
  let offset ← parseValueOpt from_json_vec3 j "offset"
  let transformation ← parseValueOpt from_json_mat4 j "matrix"
  pure { name := name, sensors := sensors, buttons := buttons, axes := axes,
         offset := offset, transformation := transformation }

/-- The first statement of `from_json(Tracker)`: the required key `name`. -/
def parseTrackerName (j : Json) : Res String :=
  match j.find "name" with
  | some it => get_string it
  | none => .error (.Error 6070 "Tracker is missing 'name'")

def from_json_Tracker (ext : Ext) (j : Json) : Res Tracker := do
  let name ← parseTrackerName j
  let devices ← parseValueVec from_json_Device j "devices"
  let offset ← parseValueOpt from_json_vec3 j "offset"
  let orientation ← ifFound j "orientation" (get_quat ext)
  let _transformation : Option mat4 := orientation.map ext.mat4_cast
  let scale ← parseValueOpt get_double j "scale"
  -- the last statement assigns `t.transformation` again, also when `matrix` is missing
  let transformation ← parseValueOpt from_json_mat4 j "matrix"
  pure { name := name, devices := devices, offset := offset, scale := scale,
         transformation := transformation }

/-- The flag `hasHorizontal` of `from_json(PlanarProjection::FOV)`. -/
def hasHorizontal (j : Json) : Bool :=
  (j.find "hfov").isSome || ((j.find "left").isSome && (j.find "right").isSome)

/-- The flag `hasVertical` of `from_json(PlanarProjection::FOV)`. -/
def hasVertical (j : Json) : Bool :=
  (j.find "vfov").isSome || ((j.find "down").isSome && (j.find "up").isSome)

/-- The assignment `if (it != j.end()) { it->get_to(x); }` to a `float` that holds `x`. -/
def overrideFloat (it : Option Json) (x : ℚ) : Res ℚ :=
  match it with
  | some v => get_float v
  | none => .ok x

/-- The statement `if (it != j.end()) { float fov = it->get<float>(); a = fov / 2.f;
b = fov / 2.f; }` for the pair of fields that holds `cur`. -/
def halfFov (it : Option Json) (cur : ℚ × ℚ) : Res (ℚ × ℚ) :=
  match it with
  | some v => do
    let fov ← get_float v
    pure (fov / 2, fov / 2)
  | none => .ok cur

/-- The reader of a field of view, started from the value `f` the caller holds. -/
def from_json_FOV (j : Json) (f : PlanarProjection.FOV) : Res PlanarProjection.FOV :=
  if !hasHorizontal j || !hasVertical j then
    .error (.Error 6000 "Missing specification of field-of-view values")
  else do
    let horizontal ← halfFov (j.find "hfov") (f.left, f.right)
    let vertical ← halfFov (j.find "vfov") (f.down, f.up)
    let down ← overrideFloat (j.find "down") vertical.1
    let left ← overrideFloat (j.find "left") horizontal.1
    let right ← overrideFloat (j.find "right") horizontal.2
    let up ← overrideFloat (j.find "up") vertical.2
    let down := down * (-1)
    let left := left * (-1)
    let distance ← parseValueOpt get_float j "distance"
    pure { down := down, left := left, right := right, up := up, distance := distance }

/-- The reader of a planar projection, started from the value `p` the caller holds. -/
def from_json_PlanarProjection (ext : Ext) (j : Json) (p : PlanarProjection) :
    Res PlanarProjection :=
  if (j.find "fov").isNone then
    .error (.Error 6000 "Missing specification of field-of-view values")
  else do
    let fov ← parseValue (fun it => from_json_FOV it p.fov) j "fov"
    let distance ← parseValueOpt get_float j "distance"
    let orientation ← parseValueOpt (get_quat ext) j "orientation"
    let offset ← parseValueOpt from_json_vec3 j "offset"
    pure { fov := { fov with distance := distance }, orientation := orientation,
           offset := offset }

/-- The conversion `it->get<PlanarProjection>()`: the reader run on a default-constructed
value. -/
def get_PlanarProjection (ext : Ext) (j : Json) : Res PlanarProjection :=
  from_json_PlanarProjection ext j ext.proj0

/-- The statement `if (auto it = j.find("quality"); ...)` shared by the cube map
projections. -/
def parseQuality (j : Json) : Res (Option Int) :=
  ifFound j "quality" (fun it => do
    let quality ← get_string it
    cubeMapResolutionForQuality quality)

/-- One key of the crop block of `from_json(FisheyeProjection)`: the check that `key` is
there, then `it->value(key, dflt)`. -/
def cropValue (it : Json) (key : String) (dflt : ℚ) : Res ℚ :=
  if (it.find key).isNone then
    .error (.runtime_error ("Missing key '" ++ key ++ "' in FisheyeProjection/Crop"))
  else
    it.value get_float key dflt

/-- The block of `from_json(FisheyeProjection)` that reads the `crop` object `it`. -/
def from_json_FisheyeProjection_crop (ext : Ext) (it : Json) :
    Res FisheyeProjection.Crop := do
  let left ← cropValue it "left" ext.crop0.left
  let right ← cropValue it "right" ext.crop0.right
  let bottom ← cropValue it "bottom" ext.crop0.bottom
  let top ← cropValue it "top" ext.crop0.top
  pure { left := left, right := right, bottom := bottom, top := top }

def from_json_FisheyeProjection (ext : Ext) (j : Json) : Res FisheyeProjection := do
  let fov ← parseValueOpt get_float j "fov"
  let quality ← parseQuality j
  let interpolation ← ifFound j "interpolation" (fun it => do
    let interpolation ← get_string it
    parseInterpolation interpolation)
  let diameter ← parseValueOpt get_float j "diameter"
  let tilt ← parseValueOpt get_float j "tilt"
  let crop ← ifFound j "crop" (from_json_FisheyeProjection_crop ext)
  let keepAspectRatio ← parseValueOpt get_bool j "keepaspectratio"
  let offset ← parseValueOpt from_json_vec3 j "offset"
  let background ← parseValueOpt (get_vec4 ext) j "background"
  pure { fov := fov, quality := quality, interpolation := interpolation,
         diameter := diameter, tilt := tilt, crop := crop,
         keepAspectRatio := keepAspectRatio, offset := offset, background := background }

/-- The block that reads a `background` colour with `it->at("r")` ... `it->at("a")`. -/
def from_json_background (it : Json) : Res vec4 := do
  let x ← (← it.atKey "r") |> get_float
  let y ← (← it.atKey "g") |> get_float
  let z ← (← it.atKey "b") |> get_float
  let w ← (← it.atKey "a") |> get_float
  pure { x := x, y := y, z := z, w := w }

/-- The block of `from_json(SphericalMirrorProjection)` that reads the `geometry` object. -/
def from_json_SphericalMirrorProjection_mesh (it : Json) :
    Res SphericalMirrorProjection.Mesh := do
  let bottom ← (← it.atKey "bottom") |> get_string
  let left ← (← it.atKey "left") |> get_string
  let right ← (← it.atKey "right") |> get_string
  let top ← (← it.atKey "top") |> get_string
  pure { bottom := bottom, left := left, right := right, top := top }

/-- The last statement of `from_json(SphericalMirrorProjection)`: the required key
`geometry`. -/
def parseGeometry (j : Json) : Res SphericalMirrorProjection.Mesh :=
  match j.find "geometry" with
  | some it => from_json_SphericalMirrorProjection_mesh it
  | none => .error (.Error 6100 "Missing geometry paths")

def from_json_SphericalMirrorProjection (j : Json) : Res SphericalMirrorProjection := do
  let quality ← parseQuality j
  let tilt ← parseValueOpt get_float j "tilt"
  let background ← ifFound j "background" from_json_background
  let mesh ← parseGeometry j
  pure { quality := quality, tilt := tilt, background := background, mesh := mesh }

/-- The block of `from_json(SpoutOutputProjection)` that reads the `channels` object. -/
def from_json_SpoutOutputProjection_channels (it : Json) :
    Res SpoutOutputProjection.Channels := do
  let right ← parseValue get_bool it "right"
  let zLeft ← parseValue get_bool it "zleft"
  let bottom ← parseValue get_bool it "bottom"
  let top ← parseValue get_bool it "top"
  let left ← parseValue get_bool it "left"
  let zRight ← parseValue get_bool it "zright"
  pure { right := right, zLeft := zLeft, bottom := bottom, top := top, left := left,
         zRight := zRight }

/-- The block of `from_json(SpoutOutputProjection)` that reads the `orientation` object. -/
def from_json_SpoutOutputProjection_orientation (it : Json) : Res vec3 := do
  let x ← parseValue get_float it "pitch"
  let y ← parseValue get_float it "yaw"
  let z ← parseValue get_float it "roll"
  pure { x := x, y := y, z := z }

def from_json_SpoutOutputProjection (j : Json) : Res SpoutOutputProjection := do
  let quality ← parseQuality j
  let drawMain ← ifFound j "drawMain" get_bool
  let mapping ← ifFound j "mapping" (fun it => do
    let mapping ← get_string it
    parseMapping mapping)
  let mappingSpoutName ← parseValue get_string j "mappingspoutname"
  let background ← ifFound j "background" from_json_background
  let channels ← ifFound j "channels" from_json_SpoutOutputProjection_channels
  let orientation ← ifFound j "orientation" from_json_SpoutOutputProjection_orientation
  pure { quality := quality, drawMain := drawMain, mapping := mapping,
         mappingSpoutName := mappingSpoutName, background := background,
         channels := channels, orientation := orientation }

/-- The last statement of `from_json(SpoutFlatProjection)`: `it->get_to(p.proj)` when the
key `planarprojection` is there. -/
def parsePlanarOfSpoutFlat (ext : Ext) (j : Json) : Res PlanarProjection :=
  match j.find "planarprojection" with
  | some it => from_json_PlanarProjection ext it ext.proj0
  | none => .ok ext.proj0

def from_json_SpoutFlatProjection (ext : Ext) (j : Json) : Res SpoutFlatProjection := do
  let width ← ifFound j "width" get_int
  let height ← ifFound j "height" get_int
  let mappingSpoutName ← ifFound j "mappingSpoutName" get_string
  let background ← ifFound j "background" from_json_background
  let proj ← parsePlanarOfSpoutFlat ext j
  pure { width := width, height := height,
         mappingSpoutName := mappingSpoutName.getD "", background := background,
         drawMain := none, proj := proj }

def from_json_CylindricalProjection (j : Json) : Res CylindricalProjection := do
  let quality ← parseQuality j
  let rotation ← parseValueOpt get_float j "rotation"
  let heightOffset ← parseValueOpt get_float j "heightoffset"
  let radius ← parseValueOpt get_float j "radius"
  pure { quality := quality, rotation := rotation, heightOffset := heightOffset,
         radius := radius }

def from_json_EquirectangularProjection (j : Json) : Res EquirectangularProjection := do
  let quality ← parseQuality j
  pure { quality := quality }

def from_json_ProjectionPlane (j : Json) : Res ProjectionPlane :=
  if (j.find "lowerleft").isNone || (j.find "upperleft").isNone
      || (j.find "upperright").isNone then
    .error (.Error 6010 "Failed parsing coordinates. Missing elements")
  else do
    let lowerLeft ← (← j.atKey "lowerleft") |> from_json_vec3
    let upperLeft ← (← j.atKey "upperleft") |> from_json_vec3
    let upperRight ← (← j.atKey "upperright") |> from_json_vec3
    pure { lowerLeft := lowerLeft, upperLeft := upperLeft, upperRight := upperRight }

/-- The block of `from_json(Viewport)` that reads the `projection` value `it`. -/
def from_json_Viewport_projection (ext : Ext) (it : Json) : Res Projection :=
  if it.is_null then
    pure .NoProjection
  else do
    let type ← (← it.atKey "type") |> get_string
    if type = "PlanarProjection" then
      .Planar <$> get_PlanarProjection ext it
    else if type = "FisheyeProjection" then
      .Fisheye <$> from_json_FisheyeProjection ext it
    else if type = "SphericalMirrorProjection" then
      .SphericalMirror <$> from_json_SphericalMirrorProjection it
    else if type = "SpoutOutputProjection" then
      .SpoutOutput <$> from_json_SpoutOutputProjection it
    else if type = "SpoutFlatProjection" then
      .SpoutFlat <$> from_json_SpoutFlatProjection ext it
    else if type = "CylindricalProjection" then
      .Cylindrical <$> from_json_CylindricalProjection it
    else if type = "EquirectangularProjection" then
      .Equirectangular <$> from_json_EquirectangularProjection it
    else if type = "ProjectionPlane" then
      .Plane <$> from_json_ProjectionPlane it
    else
      .error (.c_string "Unknown type")

/-- The statement that reads a texture path: the string under `key` made absolute. -/
def parsePath (ext : Ext) (j : Json) (key : String) : Res (Option String) :=
  ifFound j key (fun it => do
    let path ← get_string it
    pure (ext.absolute path))

def from_json_Viewport (ext : Ext) (j : Json) : Res Viewport := do
  let user ← parseValueOpt get_string j "user"
  let overlayTexture ← parsePath ext j "overlay"
  let blendMaskTexture ← parsePath ext j "blendmask"
  let blackLevelMaskTexture ← parsePath ext j "blacklevelmask"
  let correctionMeshTexture ← parsePath ext j "mesh"
  let isTracked ← parseValueOpt get_bool j "tracked"
  let eye ← ifFound j "eye" (fun it => do
    let eye ← get_string it
    parseEye eye)
  let position ← parseValueOpt from_json_vec2 j "pos"
  let size ← parseValueOpt from_json_vec2 j "size"
  let projection ← ifFound j "projection" (from_json_Viewport_projection ext)
  pure { user := user, overlayTexture := overlayTexture,
         blendMaskTexture := blendMaskTexture,
         blackLevelMaskTexture := blackLevelMaskTexture,
         correctionMeshTexture := correctionMeshTexture, isTracked := isTracked,
         eye := eye, position := position, size := size,
         projection := projection.getD .NoProjection }

def from_json_Window (ext : Ext) (j : Json) : Res Window := do
  let id ← parseValueOpt get_int j "id"
  let name ← parseValueOpt get_string j "name"
  let tags ← parseValueVec get_string j "tags"
  let bufferBitDepth ← ifFound j "bufferbitdepth" (fun it => do
    let bbd ← get_string it
    parseBufferColorBitDepth bbd)
  let isFullScreen ← parseValueOpt get_bool j "fullscreen"
  let shouldAutoiconify ← parseValueOpt get_bool j "autoiconify"
  let hideMouseCursor ← parseValueOpt get_bool j "hidemousecursor"
  let isFloating ← parseValueOpt get_bool j "floating"
  let alwaysRender ← parseValueOpt get_bool j "alwaysrender"
  let isHidden ← parseValueOpt get_bool j "hidden"
  let doubleBuffered ← parseValueOpt get_bool j "doublebuffered"
  let msaa ← parseValueOpt get_int j "msaa"
  let hasAlpha ← parseValueOpt get_bool j "alpha"
  let useFxaa ← parseValueOpt get_bool j "fxaa"
  let isDecorated ← parseValueOpt get_bool j "border"
  let isResizable ← parseValueOpt get_bool j "resizable"
  let isMirrored ← parseValueOpt get_bool j "mirror"
  let draw2D ← parseValueOpt get_bool j "draw2d"
  let draw3D ← parseValueOpt get_bool j "draw3d"
  let blitWindowId ← parseValueOpt get_int j "blitwindowid"
  let monitor ← parseValueOpt get_int j "monitor"
  let mpcdi ← parsePath ext j "mpcdi"
  let stereo ← ifFound j "stereo" (fun it => do
    let t ← get_string it
    parseStereoType t)
  let pos ← parseValueOpt from_json_ivec2 j "pos"
  let size ← parseValue from_json_ivec2 j "size"
  let resolution ← parseValueOpt from_json_ivec2 j "res"
  let viewports ← parseValueVec (from_json_Viewport ext) j "viewports"
  pure { id := id.getD InvalidWindowIndex, name := name, tags := tags,
         bufferBitDepth := bufferBitDepth, isFullScreen := isFullScreen,
         shouldAutoiconify := shouldAutoiconify, hideMouseCursor := hideMouseCursor,
         isFloating := isFloating, alwaysRender := alwaysRender, isHidden := isHidden,
         doubleBuffered := doubleBuffered, msaa := msaa, hasAlpha := hasAlpha,
         useFxaa := useFxaa, isDecorated := isDecorated, isResizable := isResizable,
         isMirrored := isMirrored, draw2D := draw2D, draw3D := draw3D,
         blitWindowId := blitWindowId, monitor := monitor, mpcdi := mpcdi,
         stereo := stereo, pos := pos, size := size, resolution := resolution,
         viewports := viewports }

/-- The loop at the end of `from_json(Node)`, from index `i` on: a window whose id is
`InvalidWindowIndex` gets its position in the vector as id. -/
def assignWindowIds (i : Nat) : List Window → List Window
  | [] => []
  | w :: ws =>
    (if w.id = InvalidWindowIndex then { w with id := toInt32 i } else w)
      :: assignWindowIds (i + 1) ws

/-- The first statement of `from_json(Node)`: the required key `address`. -/
def parseNodeAddress (j : Json) : Res String :=
  match j.find "address" with
  | some it => get_string it
  | none => .error (.Error 6040 "Missing field address in node")

/-- The second statement of `from_json(Node)`: the required key `port`. -/
def parseNodePort (j : Json) : Res Int :=
  match j.find "port" with
  | some it => get_int it
  | none => .error (.Error 6041 "Missing field port in node")

def from_json_Node (ext : Ext) (j : Json) : Res Node := do
  let address ← parseNodeAddress j
  let port ← parseNodePort j
  let dataTransferPort ← parseValueOpt get_int j "datatransferport"
  let swapLock ← parseValueOpt get_bool j "swaplock"
  let windows ← parseValueVec (from_json_Window ext) j "windows"
  pure { address := address, port := port, dataTransferPort := dataTransferPort,
         swapLock := swapLock, windows := assignWindowIds 0 windows }

/-- The first statement of `from_json(Cluster)`: the required key `masteraddress`. -/
def parseMasterAddress (j : Json) : Res String :=
  match j.find "masteraddress" with
  | some it => get_string it
  | none => .error (.Error 6084 "Cannot find master address")

/-- The reader of a cluster; `success` keeps the value `false` of a default-constructed
cluster. -/
def from_json_Cluster (ext : Ext) (j : Json) : Res Cluster := do
  let masterAddress ← parseMasterAddress j
  let setThreadAffinity ← parseValueOpt get_int j "threadaffinity"
  let debugLog ← parseValueOpt get_bool j "debuglog"
  let externalControlPort ← parseValueOpt get_int j "externalcontrolport"
  let firmSync ← parseValueOpt get_bool j "firmsync"
  let scene ← parseValueOpt (from_json_Scene ext) j "scene"
  let users ← parseValueVec (from_json_User ext) j "users"
  let settings ← parseValueOpt (from_json_Settings ext) j "settings"
  let capture ← parseValueOpt (from_json_Capture ext) j "capture"
  let trackers ← parseValueVec (from_json_Tracker ext) j "trackers"
  let nodes ← parseValueVec (from_json_Node ext) j "nodes"
  pure { success := false, masterAddress := masterAddress,
         setThreadAffinity := setThreadAffinity, debugLog := debugLog,
         externalControlPort := externalControlPort, firmSync := firmSync,
         scene := scene, users := users, settings := settings, capture := capture,
         trackers := trackers, nodes := nodes }

def readJsonConfig (ext : Ext) (configuration : String) : Res Cluster := do
  let j ← ext.parse configuration
  if (j.find "version").isNone then
    .error (.runtime_error "Missing 'version' information")
  else do
    let cluster ← from_json_Cluster ext j
    pure { cluster with success := true }

/-! ## Sample documents

A concrete choice of the outside functions, so that the reader can be evaluated on
explicit documents. -/

/-- An environment whose parser knows exactly the documents `docs` (any other text is a
parse error 101), with simple values for the remaining outside functions. -/
def Ext.ofDocs (docs : List (String × Json)) : Ext where
  parse := fun text =>
    match docs.lookup text with
    | some j => .ok j
    | none => .error (.json_exception 101)
  absolute := fun path => path
  eulerQuat := fun x y z => { x := x, y := y, z := z, w := 1 }
  mat4_cast := fun q => { values := [q.x, q.y, q.z, q.w] }
  formatFloat := fun _ => "?"
  quat0 := { x := 0, y := 0, z := 0, w := 1 }
  vec4_0 := { x := 0, y := 0, z := 0, w := 0 }
  range0 := { first := -1, last := -1 }
  crop0 := { left := 0, right := 0, bottom := 0, top := 0 }
  proj0 := { fov := { down := 0, left := 0, right := 0, up := 0, distance := none },
             orientation := none, offset := none }

/-- The document `{}` of the test "Parse Required: Version". -/
def docEmpty : Json := .obj []

/-- The document of the test "Parse Required: Cluster/Master Address". -/
def docVersionOnly : Json := .obj [("version", .int 1)]

/-- The document of the test "Parse Required: Node/Address". -/
def docNodeWithoutAddress : Json :=
  .obj [("version", .int 1), ("masteraddress", .str "localhost"),
        ("nodes", .arr [.obj [("port", .int 1)]])]

/-- The document of the test "Parse Required: Node/Port". -/
def docNodeWithoutPort : Json :=
  .obj [("version", .int 1), ("masteraddress", .str "localhost"),
        ("nodes", .arr [.obj [("address", .str "localhost")]])]

/-- A node with an `address` that is a number and without `port`. -/
def docNodeAddressNumber : Json :=
  .obj [("version", .int 1), ("masteraddress", .str "localhost"),
        ("nodes", .arr [.obj [("address", .int 5)]])]

/-! ## How far the reader gets

The reader runs its statements in order, so whether a given node, window or projection
is looked at depends on everything that is read before it. -/

/-- Every statement of `from_json(Cluster)` before the one that reads `nodes` returns
normally on `j`. -/
def clusterHeadParses (ext : Ext) (j : Json) : Bool :=
  (parseMasterAddress j).succeeds
    && (parseValueOpt get_int j "threadaffinity").succeeds
    && (parseValueOpt get_bool j "debuglog").succeeds
    && (parseValueOpt get_int j "externalcontrolport").succeeds
    && (parseValueOpt get_bool j "firmsync").succeeds
    && (parseValueOpt (from_json_Scene ext) j "scene").succeeds
    && (parseValueVec (from_json_User ext) j "users").succeeds
    && (parseValueOpt (from_json_Settings ext) j "settings").succeeds
    && (parseValueOpt (from_json_Capture ext) j "capture").succeeds
    && (parseValueVec (from_json_Tracker ext) j "trackers").succeeds

/-- The cluster `j` has the array `pre ++ node :: post` under `nodes`, the sections read
before `nodes` are valid and so are the nodes `pre` in front of `node`. -/
def reachesNode (ext : Ext) (j : Json) (pre : List Json) (node : Json) (post : List Json) :
    Prop :=
  clusterHeadParses ext j = true
    ∧ j.find "nodes" = some (.arr (pre ++ node :: post))
    ∧ ∀ n ∈ pre, (from_json_Node ext n).succeeds = true

/-- Every statement of `from_json(Node)` before the one that reads `windows` returns
normally on `j`. -/
def nodeHeadParses (j : Json) : Bool :=
  (parseNodeAddress j).succeeds
    && (parseNodePort j).succeeds
    && (parseValueOpt get_int j "datatransferport").succeeds
    && (parseValueOpt get_bool j "swaplock").succeeds

/-- The node `node` has the array `wpre ++ w :: wpost` under `windows`, what is read
before `windows` is valid and so are the windows `wpre` in front of `w`. -/
def reachesWindow (ext : Ext) (node : Json) (wpre : List Json) (w : Json)
    (wpost : List Json) : Prop :=
  nodeHeadParses node = true
    ∧ node.find "windows" = some (.arr (wpre ++ w :: wpost))
    ∧ ∀ x ∈ wpre, (from_json_Window ext x).succeeds = true

/-- Every statement of `from_json(Window)` before the one that reads `size` returns
normally on `j`: each of the keys id, name, tags, bufferbitdepth, fullscreen, autoiconify,
hidemousecursor, floating, alwaysrender, hidden, doublebuffered, msaa, alpha, fxaa, border,
resizable, mirror, draw2d, draw3d, blitwindowid, monitor, mpcdi, stereo and pos is missing
or well-formed. -/
def windowHeadParses (ext : Ext) (j : Json) : Bool :=
  (parseValueOpt get_int j "id").succeeds
    && ((parseValueOpt get_string j "name").succeeds
    && ((parseValueVec get_string j "tags").succeeds
    && ((ifFound j "bufferbitdepth" (fun it => do
          let bbd ← get_string it
          parseBufferColorBitDepth bbd)).succeeds
    && ((parseValueOpt get_bool j "fullscreen").succeeds
    && ((parseValueOpt get_bool j "autoiconify").succeeds
    && ((parseValueOpt get_bool j "hidemousecursor").succeeds
    && ((parseValueOpt get_bool j "floating").succeeds
    && ((parseValueOpt get_bool j "alwaysrender").succeeds
    && ((parseValueOpt get_bool j "hidden").succeeds
    && ((parseValueOpt get_bool j "doublebuffered").succeeds
    && ((parseValueOpt get_int j "msaa").succeeds
    && ((parseValueOpt get_bool j "alpha").succeeds
    && ((parseValueOpt get_bool j "fxaa").succeeds
    && ((parseValueOpt get_bool j "border").succeeds
    && ((parseValueOpt get_bool j "resizable").succeeds
    && ((parseValueOpt get_bool j "mirror").succeeds
    && ((parseValueOpt get_bool j "draw2d").succeeds
    && ((parseValueOpt get_bool j "draw3d").succeeds
    && ((parseValueOpt get_int j "blitwindowid").succeeds
    && ((parseValueOpt get_int j "monitor").succeeds
    && ((parsePath ext j "mpcdi").succeeds
    && ((ifFound j "stereo" (fun it => do
          let t ← get_string it
          parseStereoType t)).succeeds
    && (parseValueOpt from_json_ivec2 j "pos").succeeds))))))))))))))))))))))

/-- The document of the test "Parse Required: Window/Size". -/
def docWindowWithoutSize : Json :=
  .obj [("version", .int 1), ("masteraddress", .str "localhost"),
        ("nodes", .arr [.obj [("address", .str "localhost"), ("port", .int 123),
                              ("windows", .arr [.obj []])]])]

/-- The only exceptions of the computation `r` are those of the JSON library. -/
def Res.onlyJson {α : Type} (r : Res α) : Prop :=
  ∀ e, r = .error e → ∃ id, e = .json_exception id

/-- The projection of the test "Parse Required: PlanarProjection/FOV/Down". -/
def projPlanarWithoutDown : Json :=
  .obj [("type", .str "PlanarProjection"),
        ("fov", .obj [("left", .float 1), ("right", .float 1), ("up", .float 1)])]

/-- The projection of the test "Parse Required: ProjectionPlane/LowerLeft". -/
def projPlaneWithoutLowerLeft : Json :=
  .obj [("type", .str "ProjectionPlane"),
        ("upperleft", .obj [("x", .float 1), ("y", .float 1), ("z", .float 1)]),
        ("upperright", .obj [("x", .float 1), ("y", .float 1), ("z", .float 1)])]

/-- A projection plane with its three corners. -/
def projPlaneComplete : Json :=
  .obj [("type", .str "ProjectionPlane"),
        ("lowerleft", .obj [("x", .float 0), ("y", .float 0), ("z", .float 1)]),
        ("upperleft", .obj [("x", .float 0), ("y", .float 2), ("z", .float 1)]),
        ("upperright", .obj [("x", .float 3), ("y", .float 2), ("z", .float 1)])]

/-- Every statement of `from_json(FisheyeProjection)` before the one that reads `crop`
returns normally on `j`: each of fov, quality, interpolation, diameter and tilt is missing
or well-formed. -/
def fisheyeHeadParses (j : Json) : Bool :=
  (parseValueOpt get_float j "fov").succeeds
    && ((parseQuality j).succeeds
    && ((ifFound j "interpolation" (fun it => do
          let interpolation ← get_string it
          parseInterpolation interpolation)).succeeds
    && ((parseValueOpt get_float j "diameter").succeeds
    && (parseValueOpt get_float j "tilt").succeeds)))

/-- Every statement of `from_json(FisheyeProjection)` after the one that reads `crop`
returns normally on `j`: each of keepaspectratio, offset and background is missing or
well-formed. -/
def fisheyeTailParses (ext : Ext) (j : Json) : Bool :=
  (parseValueOpt get_bool j "keepaspectratio").succeeds
    && ((parseValueOpt from_json_vec3 j "offset").succeeds
    && (parseValueOpt (get_vec4 ext) j "background").succeeds)

/-- A fisheye projection whose `crop` has a `left` that is a string, and no other key. -/
def projFisheyeCropLeftString : Json :=
  .obj [("type", .str "FisheyeProjection"), ("crop", .obj [("left", .str "abc")])]

/-- A fisheye projection with an empty `crop` and a `fov` that is a string. -/
def projFisheyeFovString : Json :=
  .obj [("type", .str "FisheyeProjection"), ("fov", .str "wide"), ("crop", .obj [])]

/-- A fisheye projection with a complete `crop` and a `keepaspectratio` that is a number. -/
def projFisheyeKeepAspectNumber : Json :=
  .obj [("type", .str "FisheyeProjection"),
        ("crop", .obj [("left", .float 1), ("right", .float 2), ("bottom", .float 3),
                       ("top", .float 4)]),
        ("keepaspectratio", .int 5)]

/-- The projection of the test "Parse Required: FisheyeProjection/Crop/Right". -/
def projFisheyeCropWithoutRight : Json :=
  .obj [("type", .str "FisheyeProjection"),
        ("crop", .obj [("left", .float 1), ("bottom", .float 1), ("top", .float 1)])]

/-- The window `w` has the array `vpre ++ v :: vpost` under `viewports`, what is read
before `viewports` is valid (the keys in front of `size`, then `size` and `res`) and so are
the viewports `vpre` in front of `v`. -/
def reachesViewport (ext : Ext) (w : Json) (vpre : List Json) (v : Json)
    (vpost : List Json) : Prop :=
  windowHeadParses ext w = true
    ∧ (parseValue from_json_ivec2 w "size").succeeds = true
    ∧ (parseValueOpt from_json_ivec2 w "res").succeeds = true
    ∧ w.find "viewports" = some (.arr (vpre ++ v :: vpost))
    ∧ ∀ x ∈ vpre, (from_json_Viewport ext x).succeeds = true

/-- Every statement of `from_json(Viewport)` before the one that reads `projection`
returns normally on `j`. -/
def viewportHeadParses (ext : Ext) (j : Json) : Bool :=
  (parseValueOpt get_string j "user").succeeds
    && ((parsePath ext j "overlay").succeeds
    && ((parsePath ext j "blendmask").succeeds
    && ((parsePath ext j "blacklevelmask").succeeds
    && ((parsePath ext j "mesh").succeeds
    && ((parseValueOpt get_bool j "tracked").succeeds
    && ((ifFound j "eye" (fun it => do
          let eye ← get_string it
          parseEye eye)).succeeds
    && ((parseValueOpt from_json_vec2 j "pos").succeeds
    && (parseValueOpt from_json_vec2 j "size").succeeds)))))))

/-- Reading the cluster `j` gets as far as the projection `proj` of some viewport of some
window of some node: everything that is read before it is valid. -/
def reachesProjection (ext : Ext) (j : Json) (proj : Json) : Prop :=
  ∃ pre node post wpre w wpost vpre v vpost,
    reachesNode ext j pre node post
      ∧ reachesWindow ext node wpre w wpost
      ∧ reachesViewport ext w vpre v vpost
      ∧ viewportHeadParses ext v = true
      ∧ v.find "projection" = some proj

/-- Every statement of `from_json(SphericalMirrorProjection)` before the one that reads
`geometry` returns normally on `j`: each of quality, tilt and background is missing or
well-formed. -/
def sphericalMirrorHeadParses (j : Json) : Bool :=
  (parseQuality j).succeeds
    && ((parseValueOpt get_float j "tilt").succeeds
    && (ifFound j "background" from_json_background).succeeds)

/-- A configuration with one node, one window of size 1 x 2 and one viewport whose
projection is `proj`, the shape of the documents of the projection tests. -/
def docWithProjection (proj : Json) : Json :=
  .obj [("version", .int 1), ("masteraddress", .str "localhost"),
        ("nodes", .arr [.obj [("address", .str "localhost"), ("port", .int 123),
          ("windows", .arr [.obj [("size", .obj [("x", .int 1), ("y", .int 2)]),
            ("viewports", .arr [.obj [("projection", proj)]])]])]])]

/-- The projection of the test "Parse Required: SphericalMirror/Mesh". -/
def projSphericalWithoutGeometry : Json :=
  .obj [("type", .str "SphericalMirrorProjection")]

/-- The projection of the test "Parse Required: SphericalMirror/Mesh/Bottom", with the three
paths under the key `geometry` that the reader looks for. -/
def projSphericalGeometryWithoutBottom : Json :=
  .obj [("type", .str "SphericalMirrorProjection"),
        ("geometry", .obj [("left", .str "abc"), ("right", .str "abc"),
                           ("top", .str "abc")])]

/-- A spherical mirror projection without `geometry` and with an unknown `quality`. -/
def projSphericalBadQuality : Json :=
  .obj [("type", .str "SphericalMirrorProjection"), ("quality", .str "bogus")]

/-- Every statement of `from_json(SpoutOutputProjection)` before the one that reads
`mappingspoutname` returns normally on `j`: each of quality, drawMain and mapping is missing
or well-formed. -/
def spoutOutputHeadParses (j : Json) : Bool :=
  (parseQuality j).succeeds
    && ((ifFound j "drawMain" get_bool).succeeds
    && (ifFound j "mapping" (fun it => do
          let mapping ← get_string it
          parseMapping mapping)).succeeds)

/-- The projection of the test "Parse Required: SpoutOutputProjection/MappingSpoutName". -/
def projSpoutOutputWithoutName : Json :=
  .obj [("type", .str "SpoutOutputProjection")]

/-- A spout output projection without `mappingspoutname`, `quality` and `mapping`, whose
`drawMain` is a number. -/
def projSpoutOutputDrawMainNumber : Json :=
  .obj [("type", .str "SpoutOutputProjection"), ("drawMain", .int 1)]

/-- Every statement of `from_json(User)` before the one that reads `tracking` returns
normally on `j`: each of name, eyeseparation, pos, matrix and orientation is missing or
well-formed. -/
def userHeadParses (ext : Ext) (j : Json) : Bool :=
  (parseValueOpt get_string j "name").succeeds
    && ((parseValueOpt get_float j "eyeseparation").succeeds
    && ((parseValueOpt from_json_vec3 j "pos").succeeds
    && ((parseValueOpt from_json_mat4 j "matrix").succeeds
    && (ifFound j "orientation" (get_quat ext)).succeeds)))

/-- The user of the test "Parse Required: User/Tracking/Tracker". -/
def userTrackingWithoutTracker : Json :=
  .obj [("tracking", .obj [("device", .str "abc")])]

/-- The user of the test "Parse Required: User/Tracking/Device". -/
def userTrackingWithoutDevice : Json :=
  .obj [("tracking", .obj [("tracker", .str "abc")])]

/-- A user with an empty `tracking` object and a `name` that is a number. -/
def userNameNumber : Json :=
  .obj [("name", .int 5), ("tracking", .obj [])]

/-- A user with a complete `tracking` object. -/
def userTrackingComplete : Json :=
  .obj [("name", .str "eve"),
        ("tracking", .obj [("tracker", .str "head"), ("device", .str "glasses")])]

/-- The tracker of the test "Parse Required: Tracker/Name". -/
def trackerEmpty : Json := .obj []

/-- A tracker without `name` whose other keys are all malformed. -/
def trackerMalformedWithoutName : Json :=
  .obj [("devices", .int 3), ("offset", .str "far"), ("orientation", .bool true),
        ("scale", .str "big"), ("matrix", .null)]

/-- The document of the test "Parse Required: Tracker/Name". -/
def docTrackerWithoutName : Json :=
  .obj [("version", .int 1), ("masteraddress", .str "localhost"),
        ("trackers", .arr [trackerEmpty])]

/-- A field of view given by `hfov` and `vfov` only. -/
def fovHalfAngles : Json := .obj [("hfov", .float 90), ("vfov", .float 60)]

/-- A field of view given by `hfov` and `vfov`, with `left` and `up` given as well. -/
def fovHalfAnglesOverridden : Json :=
  .obj [("hfov", .float 90), ("vfov", .float 60), ("left", .float 10), ("up", .float 20)]

/-! ## XML documents and the XML readers of `namespace xmlconfig` -/

/-- An element of an XML document (`tinyxml2::XMLElement`): its name, its attributes and
its child elements in document order. -/
inductive XMLElement where
  | mk (name : String) (attributes : List (String × String)) (children : List XMLElement)

/-- The name of an element. -/
def XMLElement.name : XMLElement → String
  | .mk name _ _ => name

/-- The attributes of an element. -/
def XMLElement.attributes : XMLElement → List (String × String)
  | .mk _ attributes _ => attributes

/-- The child elements of an element. -/
def XMLElement.children : XMLElement → List XMLElement
  | .mk _ _ children => children

/-- A pointer `XMLElement*` to a child of some element: the child together with the
siblings that follow it, `none` for `nullptr`. -/
abbrev XMLPtr := Option (XMLElement × List XMLElement)

/-- The first element of a list of siblings with the given name, as a pointer. -/
def firstNamed (name : String) : List XMLElement → XMLPtr
  | [] => none
  | c :: cs => if c.name = name then some (c, cs) else firstNamed name cs

/-- The call `e.FirstChildElement()`. -/
def XMLElement.FirstChildElement (e : XMLElement) : XMLPtr :=
  match e.children with
  | [] => none
  | c :: cs => some (c, cs)

/-- The call `e.FirstChildElement(name)`. -/
def XMLElement.FirstChildElementNamed (e : XMLElement) (name : String) : XMLPtr :=
  firstNamed name e.children

/-- The call `p->NextSiblingElement()` on a pointer that is not null. -/
def NextSiblingElement (p : XMLElement × List XMLElement) : XMLPtr :=
  match p.2 with
  | [] => none
  | c :: cs => some (c, cs)

/-- The call `e.Attribute(name)`: the text of the attribute, `none` for `nullptr`. -/
def XMLElement.Attribute (e : XMLElement) (name : String) : Option String :=
  e.attributes.lookup name

/-- The axis of a rotation. -/
inductive Axis where
  | X
  | Y
  | Z
  deriving DecidableEq, Repr

/-- The library functions the XML readers call:
* `ToFloat text` is the conversion of an attribute text by `XMLUtil::ToFloat`, `none` when
  the text is not a number;
* `rotate q angle axis` is `glm::rotate(q, glm::radians(angle), axis)` for the unit vector
  of the axis. -/
structure XmlExt where
  ToFloat : String → Option ℚ
  rotate : quat → ℚ → Axis → quat

/-- The call `e.QueryFloatAttribute(name, &value)`: `some value` for `XML_SUCCESS`, `none`
when the attribute is missing or is not a number. -/
def XMLElement.QueryFloatAttribute (x : XmlExt) (e : XMLElement) (name : String) :
    Option ℚ :=
  match e.Attribute name with
  | some text => x.ToFloat text
  | none => none

/-- How a call of an XML reader ends when it does not return: with a C++ exception, or in
the dereference of a null pointer, which is undefined behaviour and throws nothing. -/
inductive Fault where
  | thrown (e : Exn)
  | nullDereference
  deriving DecidableEq, Repr

/-- Result of an XML reader. -/
abbrev XRes (α : Type) := Except Fault α

namespace xmlconfig

/-- The statement `if (QueryFloatAttribute(name, &value) == XML_SUCCESS) { ... }` of
`parseOrientationNode`: `found v` when the attribute is a number, `cur` otherwise. -/
def onFloat {α : Type} (x : XmlExt) (element : XMLElement) (name : String)
    (found : ℚ → α) (cur : α) : α :=
  match element.QueryFloatAttribute x name with
  | some value => found value
  | none => cur

/-- The local variables of `parseOrientationNode`. -/
structure OrientationVars where
  x : ℚ
  y : ℚ
  z : ℚ
  w : ℚ
  eulerMode : Bool
  quatMode : Bool

def parseOrientationNode (x : XmlExt) (element : XMLElement) : quat :=
  let s : OrientationVars :=
    { x := 0, y := 0, z := 0, w := 1, eulerMode := false, quatMode := false }
  let s := onFloat x element "w" (fun v => { s with w := v, quatMode := true }) s
  let s := onFloat x element "y" (fun v => { s with y := v, eulerMode := true }) s
  let s := onFloat x element "yaw" (fun v => { s with y := -v }) s
  let s := onFloat x element "heading" (fun v => { s with y := -v }) s
  let s := onFloat x element "azimuth" (fun v => { s with y := -v }) s
  let s := onFloat x element "x" (fun v => { s with x := v, eulerMode := true }) s
  let s := onFloat x element "pitch" (fun v => { s with x := v }) s
  let s := onFloat x element "elevation" (fun v => { s with x := v }) s
  let s := onFloat x element "z" (fun v => { s with z := v, eulerMode := true }) s
  let s := onFloat x element "roll" (fun v => { s with z := -v }) s
  let s := onFloat x element "bank" (fun v => { s with z := -v }) s
  let q : quat := { x := 0, y := 0, z := 0, w := s.w }
  if s.quatMode then
    { x := s.x, y := s.y, z := s.z, w := s.w }
  else if s.eulerMode then
    x.rotate (x.rotate (x.rotate q s.x .X) s.y .Y) s.z .Z
  else
    x.rotate (x.rotate (x.rotate q s.y .Y) s.x .X) s.z .Z

def parseValueVec3 (x : XmlExt) (e : XMLElement) : Option vec3 :=
  match e.QueryFloatAttribute x "x", e.QueryFloatAttribute x "y",
      e.QueryFloatAttribute x "z" with
  | some vx, some vy, some vz => some { x := vx, y := vy, z := vz }
  | _, _, _ => none

/-- The template `parseValue<float>(e, name)`: `std::nullopt` when the attribute is missing,
and, after an error message, when it is not a number. -/
def parseValueFloat (x : XmlExt) (e : XMLElement) (name : String) : Option ℚ :=
  match e.Attribute name with
  | none => none
  | some _ => e.QueryFloatAttribute x name

/-- The part of `parsePlanarProjection` after the `FOV` element has been found. -/
def parsePlanarProjectionFrom (ext : Ext) (x : XmlExt) (element fovElement : XMLElement) :
    XRes PlanarProjection :=
  match parseValueFloat x fovElement "down", parseValueFloat x fovElement "left",
      parseValueFloat x fovElement "right", parseValueFloat x fovElement "up" with
  | some down, some left, some right, some up =>
    .ok { fov := { down := -down, left := -left, right := right, up := up,
                   distance := parseValueFloat x fovElement "distance" },
          orientation :=
            match element.FirstChildElementNamed "Orientation" with
            | some e => some (parseOrientationNode x e.1)
            | none => ext.proj0.orientation
          offset :=
            match element.FirstChildElementNamed "Offset" with
            | some e => parseValueVec3 x e.1
            | none => ext.proj0.offset }
  | _, _, _, _ => .error (.thrown (.Error 6001 "Failed to parse planar projection FOV"))

/-- The reader of a planar projection; `ext.proj0` is the default-constructed `proj`. -/
def parsePlanarProjection (ext : Ext) (x : XmlExt) (element : XMLElement) :
    XRes PlanarProjection :=
  match element.FirstChildElementNamed "FOV" with
  | none =>
    .error (.thrown (.Error 6000 "Missing specification of field-of-view values"))
  | some fovElement => parsePlanarProjectionFrom ext x element fovElement.1

/-- The part of `parseProjectionPlane` after the three children have been found. -/
def parseProjectionPlaneFrom (x : XmlExt) (c1 c2 c3 : XMLElement) : XRes ProjectionPlane :=
  match parseValueVec3 x c1, parseValueVec3 x c2, parseValueVec3 x c3 with
  | some p1, some p2, some p3 =>
    .ok { lowerLeft := p1, upperLeft := p2, upperRight := p3 }
  | _, _, _ =>
    .error (.thrown (.Error 6011 "Failed parsing ProjectionPlane coordinates. Type error"))

/-- The reader of a projection plane.  The first child `elem` is used without a check, so
`elem->NextSiblingElement()` dereferences a null pointer when there is no child. -/
def parseProjectionPlane (x : XmlExt) (element : XMLElement) : XRes ProjectionPlane :=
  match element.FirstChildElement with
  | none => .error .nullDereference
  | some c1 =>
    match NextSiblingElement c1 with
    | none =>
      .error (.thrown (.Error 6010 "Failed parsing coordinates. Missing XML children"))
    | some c2 =>
      match NextSiblingElement c2 with
      | none =>
        .error (.thrown (.Error 6010 "Failed parsing coordinates. Missing XML children"))
      | some c3 => parseProjectionPlaneFrom x c1.1 c2.1 c3.1

end xmlconfig

/-- A sample of the XML library functions: the numbers are the texts listed in `table`,
and `rotate` leaves the quaternion as it is. -/
def XmlExt.ofTable (table : List (String × ℚ)) : XmlExt where
  ToFloat := fun text => table.lookup text
  rotate := fun q _ _ => q

/-- The texts "1", "2", "3" and "4.5" as numbers. -/
def sampleNumbers : List (String × ℚ) := [("1", 1), ("2", 2), ("3", 3), ("4.5", 9 / 2)]

/-- An XML coordinate element `<Pos x=".." y=".." z=".."/>`. -/
def xmlPos (x y z : String) : XMLElement := .mk "Pos" [("x", x), ("y", y), ("z", z)] []

/-- The element `<Projectionplane/>` without children. -/
def xmlPlaneEmpty : XMLElement := .mk "Projectionplane" [] []

/-- A projection plane element with three coordinate children. -/
def xmlPlaneComplete : XMLElement :=
  .mk "Projectionplane" [] [xmlPos "1" "2" "3", xmlPos "1" "3" "3", xmlPos "2" "3" "3"]

/-- The element `<PlanarProjection><FOV down="1" left="2" right="3" up="4.5"/>
</PlanarProjection>`. -/
def xmlPlanarFour : XMLElement :=
  .mk "PlanarProjection" []
    [.mk "FOV" [("down", "1"), ("left", "2"), ("right", "3"), ("up", "4.5")] []]

/-- The JSON field of view with the same four values. -/
def fovFour : Json :=
  .obj [("down", .float 1), ("left", .float 2), ("right", .float 3), ("up", .float (9 / 2))]

/-! ## The resolution of a window (`window.cpp`) -/

/-- The members of `sgct::Window` that the resolution functions read and write; `V` is the
type of a viewport. -/
structure WindowState (V : Type) where
  mWindowRes : ivec2
  mWindowResOld : ivec2
  mAspectRatio : ℚ
  mHasPendingWindowRes : Bool
  mPendingWindowRes : ivec2
  mFramebufferRes : ivec2
  mHasPendingFramebufferRes : Bool
  mPendingFramebufferRes : ivec2
  mUseFixResolution : Bool
  mViewports : List V

def WindowState.setWindowResolution {V : Type} (w : WindowState V) (resolution : ivec2) :
    WindowState V :=
  { w with mHasPendingWindowRes := true, mPendingWindowRes := resolution }

def WindowState.setFramebufferResolution {V : Type} (w : WindowState V)
    (resolution : ivec2) : WindowState V :=
  if !w.mUseFixResolution then
    { w with mHasPendingFramebufferRes := true, mPendingFramebufferRes := resolution }
  else
    w

/-- The first block of `Window::updateResolutions`: the pending window resolution.
`updateFov old new` is `Viewport::updateFovToMatchAspectRatio(old, new)`; resizing the
window of the operating system and the log messages are left out. -/
def WindowState.applyPendingWindowRes {V : Type} (updateFov : ℚ → ℚ → V → V)
    (w : WindowState V) : WindowState V :=
  if w.mHasPendingWindowRes then
    let newAspectRatio : ℚ := (w.mPendingWindowRes.x : ℚ) / (w.mPendingWindowRes.y : ℚ)
    { w with
      mWindowRes := w.mPendingWindowRes
      mViewports := w.mViewports.map (updateFov w.mAspectRatio newAspectRatio)
      mAspectRatio := newAspectRatio
      mHasPendingWindowRes := false }
  else
    w

/-- The second block of `Window::updateResolutions`: the pending framebuffer resolution. -/
def WindowState.applyPendingFramebufferRes {V : Type} (w : WindowState V) : WindowState V :=
  if w.mHasPendingFramebufferRes then
    { w with mFramebufferRes := w.mPendingFramebufferRes, mHasPendingFramebufferRes := false }
  else
    w

def WindowState.updateResolutions {V : Type} (updateFov : ℚ → ℚ → V → V)
    (w : WindowState V) : WindowState V :=
  (w.applyPendingWindowRes updateFov).applyPendingFramebufferRes

def WindowState.getResolution {V : Type} (w : WindowState V) : ivec2 := w.mWindowRes

def WindowState.getAspectRatio {V : Type} (w : WindowState V) : ℚ := w.mAspectRatio

def WindowState.isWindowResized {V : Type} (w : WindowState V) : Bool :=
  w.mWindowRes.x ≠ w.mWindowResOld.x || w.mWindowRes.y ≠ w.mWindowResOld.y

/-- A window of 640 x 480 without viewports and without anything pending. -/
def windowVga : WindowState Unit where
  mWindowRes := { x := 640, y := 480 }
  mWindowResOld := { x := 640, y := 480 }
  mAspectRatio := 4 / 3
  mHasPendingWindowRes := false
  mPendingWindowRes := { x := 0, y := 0 }
  mFramebufferRes := { x := 640, y := 480 }
  mHasPendingFramebufferRes := false
  mPendingFramebufferRes := { x := 0, y := 0 }
  mUseFixResolution := false
  mViewports := []

/-! ## The example applications: shared data and callbacks -/

/-- The type of a field of the shared data. -/
inductive FieldType where
  | double
  | bool
  | object
  deriving DecidableEq, Repr

/-- Modelled from the spec: one typed field of the shared-state payload, "an ordered
sequence of typed fields".  A `double` is a rational and the value of a shared object is an
integer (the applications share an enumeration). -/
inductive Field where
  | double (x : ℚ)
  | bool (b : Bool)
  | object (v : Int)
  deriving DecidableEq, Repr

/-- The type of a field. -/
def Field.type : Field → FieldType
  | .double _ => .double
  | .bool _ => .bool
  | .object _ => .object

/-- Modelled from the spec: the class `sgct::SharedData` (its source is not among the
sources).  The payload is positional: a write appends one field to `buffer`, a read takes
the first field of `buffer`, which must have the type that is read, and `readLog` lists the
types of the reads made so far, oldest first. -/
structure SharedData where
  buffer : List Field
  readLog : List FieldType
  deriving DecidableEq, Repr

/-- The shared data before anything is written or read. -/
def SharedData.empty : SharedData := { buffer := [], readLog := [] }

def SharedData.writeDouble (d : SharedData) (x : ℚ) : SharedData :=
  { d with buffer := d.buffer ++ [.double x] }

def SharedData.writeBool (d : SharedData) (b : Bool) : SharedData :=
  { d with buffer := d.buffer ++ [.bool b] }

def SharedData.writeObj (d : SharedData) (v : Int) : SharedData :=
  { d with buffer := d.buffer ++ [.object v] }

def SharedData.readDouble (d : SharedData) : Option (ℚ × SharedData) :=
  match d.buffer with
  | .double x :: rest => some (x, { buffer := rest, readLog := d.readLog ++ [.double] })
  | _ => none

def SharedData.readBool (d : SharedData) : Option (Bool × SharedData) :=
  match d.buffer with
  | .bool b :: rest => some (b, { buffer := rest, readLog := d.readLog ++ [.bool] })
  | _ => none

def SharedData.readObj (d : SharedData) : Option (Int × SharedData) :=
  match d.buffer with
  | .object v :: rest => some (v, { buffer := rest, readLog := d.readLog ++ [.object] })
  | _ => none

/-- What the callbacks ask the engine: `isMaster()`, `getTime()` and `avgDt()`. -/
structure Engine where
  isMaster : Bool
  getTime : ℚ
  avgDt : ℚ

namespace MRTExample

/-- The shared variables of the application. -/
structure State where
  currentTime : ℚ
  takeScreenshot : Bool
  deriving DecidableEq, Repr

def preSyncFun (gEngine : Engine) (s : State) : State :=
  if gEngine.isMaster then { s with currentTime := gEngine.getTime } else s

def encodeFun (s : State) (d : SharedData) : SharedData :=
  (d.writeDouble s.currentTime).writeBool s.takeScreenshot

def decodeFun (s : State) (d : SharedData) : Option (State × SharedData) := do
  let (currentTime, d) ← d.readDouble
  let (takeScreenshot, d) ← d.readBool
  pure ({ s with currentTime := currentTime, takeScreenshot := takeScreenshot }, d)

end MRTExample

namespace OmniStereoTest

/-- The shared variables of the application. -/
structure State where
  currentTime : ℚ
  takeScreenshot : Bool
  deriving DecidableEq, Repr

def preSyncFun (gEngine : Engine) (s : State) : State :=
  if gEngine.isMaster then { s with currentTime := gEngine.getTime } else s

def encodeFun (s : State) (d : SharedData) : SharedData :=
  (d.writeDouble s.currentTime).writeBool s.takeScreenshot

def decodeFun (s : State) (d : SharedData) : Option (State × SharedData) := do
  let (currentTime, d) ← d.readDouble
  let (takeScreenshot, d) ← d.readBool
  pure ({ s with currentTime := currentTime, takeScreenshot := takeScreenshot }, d)

end OmniStereoTest

namespace example1_opengl3

/-- The shared variable of the application. -/
structure State where
  currentTime : ℚ
  deriving DecidableEq, Repr

def preSyncFun (gEngine : Engine) (s : State) : State :=
  if gEngine.isMaster then { s with currentTime := gEngine.getTime } else s

def encodeFun (s : State) (d : SharedData) : SharedData :=
  d.writeDouble s.currentTime

def decodeFun (s : State) (d : SharedData) : Option (State × SharedData) := do
  let (currentTime, d) ← d.readDouble
  pure ({ s with currentTime := currentTime }, d)

end example1_opengl3

namespace textureExample

/-- The variable that the application shares across the cluster. -/
structure State where
  curr_time : ℚ
  deriving DecidableEq, Repr

def myPreSyncFun (gEngine : Engine) (s : State) : State :=
  if gEngine.isMaster then { s with curr_time := gEngine.getTime } else s

def myEncodeFun (s : State) (d : SharedData) : SharedData :=
  d.writeDouble s.curr_time

def myDecodeFun (s : State) (d : SharedData) : Option (State × SharedData) := do
  let (curr_time, d) ← d.readDouble
  pure ({ s with curr_time := curr_time }, d)

end textureExample

namespace heightmapping

/-- The variable `mPause`, which is local to a node, and the shared variables of the
application. -/
structure State where
  mPause : Bool
  currentTime : ℚ
  stats : Bool
  takeScreenshot : Bool
  useTracking : Bool
  stereoMode : Int
  deriving DecidableEq, Repr

def preSyncFun (engine : Engine) (s : State) : State :=
  if engine.isMaster && !s.mPause then
    { s with currentTime := s.currentTime + engine.avgDt }
  else
    s

def encodeFun (s : State) (d : SharedData) : SharedData :=
  ((((d.writeDouble s.currentTime).writeBool s.stats).writeBool s.takeScreenshot).writeBool
    s.useTracking).writeObj s.stereoMode

def decodeFun (s : State) (d : SharedData) : Option (State × SharedData) := do
  let (currentTime, d) ← d.readDouble
  let (stats, d) ← d.readBool
  let (takeScreenshot, d) ← d.readBool
  let (useTracking, d) ← d.readBool
  let (stereoMode, d) ← d.readObj
  pure ({ s with currentTime := currentTime, stats := stats,
                 takeScreenshot := takeScreenshot, useTracking := useTracking,
                 stereoMode := stereoMode }, d)

end heightmapping

namespace calibrator

/-- The shared variables of the application. -/
structure State where
  showId : Bool
  showStats : Bool
  takeScreenshot : Bool
  captureBackbuffer : Bool
  deriving DecidableEq, Repr

def encode (s : State) (d : SharedData) : SharedData :=
  (((d.writeBool s.showId).writeBool s.showStats).writeBool s.takeScreenshot).writeBool
    s.captureBackbuffer

def decode (s : State) (d : SharedData) : Option (State × SharedData) := do
  let (showId, d) ← d.readBool
  let (showStats, d) ← d.readBool
  let (takeScreenshot, d) ← d.readBool
  let (captureBackbuffer, d) ← d.readBool
  pure ({ s with showId := showId, showStats := showStats,
                 takeScreenshot := takeScreenshot,
                 captureBackbuffer := captureBackbuffer }, d)

end calibrator

/-- The types of the fields a callback has written. -/
def SharedData.written (d : SharedData) : List FieldType := d.buffer.map Field.type

/-- An engine on a node that is not the master. -/
def engineOfRenderNode : Engine := { isMaster := false, getTime := 12, avgDt := 1 / 60 }

/-! ## The wire codec and the frame barrier of the specification

The sources of the network layer are not among the sources, so these parts follow the
specification. -/

namespace wire

/-- Modelled from the spec: the type of a payload field, "bool/int/float/double/string/
fixed-size struct/variable-length array".  A struct type carries its size in bytes, which
both ends know. -/
inductive FieldType where
  | bool
  | int
  | float
  | double
  | string
  | struct (size : Nat)
  | array
  deriving DecidableEq, Repr

/-- Modelled from the spec: a payload field.  An `int` is a 32-bit signed integer; a `float`
and a `double` are kept as their 32 and 64 bit patterns; a string, a struct and an array
are kept as their bytes. -/
inductive Value where
  | bool (b : Bool)
  | int (i : Int)
  | float (bits : Nat)
  | double (bits : Nat)
  | string (bytes : List Nat)
  | struct (bytes : List Nat)
  | array (bytes : List Nat)
  deriving DecidableEq, Repr

/-- The type of a field. -/
def Value.type : Value → FieldType
  | .bool _ => .bool
  | .int _ => .int
  | .float _ => .float
  | .double _ => .double
  | .string _ => .string
  | .struct bytes => .struct bytes.length
  | .array _ => .array

/-- Modelled from the spec: a field is valid when its number fits its width, its bytes are
bytes and its length fits the `uint32` that is written in front of it. -/
def Value.valid : Value → Bool
  | .bool _ => true
  | .int i => decide (-2147483648 ≤ i) && decide (i < 2147483648)
  | .float bits => decide (bits < 4294967296)
  | .double bits => decide (bits < 18446744073709551616)
  | .string bytes => decide (bytes.length < 4294967296) && bytes.all (fun b => decide (b < 256))
  | .struct bytes => bytes.all (fun b => decide (b < 256))
  | .array bytes => decide (bytes.length < 4294967296) && bytes.all (fun b => decide (b < 256))

/-- Modelled from the spec: "numeric fields use a fixed byte order (little-endian)": the
`width` low bytes of `n`, lowest first. -/
def toLE : Nat → Nat → List Nat
  | 0, _ => []
  | width + 1, n => n % 256 :: toLE width (n / 256)

/-- The number whose little-endian bytes are given. -/
def fromLE : List Nat → Nat
  | [] => 0
  | b :: bs => b + 256 * fromLE bs

/-- The signed value of a 32-bit pattern. -/
def toSigned32 (n : Nat) : Int := if n < 2147483648 then n else (n : Int) - 4294967296

/-- Modelled from the spec: the bytes of one field, "a flat concatenation of fixed-width
fields and length-prefixed variable fields"; "strings/arrays are prefixed with a uint32
length". -/
def encodeValue : Value → List Nat
  | .bool b => [if b then 1 else 0]
  | .int i => toLE 4 (i % 4294967296).toNat
  | .float bits => toLE 4 bits
  | .double bits => toLE 8 bits
  | .string bytes => toLE 4 bytes.length ++ bytes
  | .struct bytes => bytes
  | .array bytes => toLE 4 bytes.length ++ bytes

/-- The first `n` bytes and the bytes after them, when there are at least `n` bytes. -/
def splitBytes (n : Nat) (bytes : List Nat) : Option (List Nat × List Nat) :=
  if bytes.length < n then none else some (bytes.take n, bytes.drop n)

/-- Modelled from the spec: reading one field of the given type from the front of the
payload; `none` when the payload ends inside the field. -/
def decodeValue (type : FieldType) (bytes : List Nat) : Option (Value × List Nat) :=
  match type with
  | .bool => (splitBytes 1 bytes).map (fun p => (.bool (fromLE p.1 != 0), p.2))
  | .int => (splitBytes 4 bytes).map (fun p => (.int (toSigned32 (fromLE p.1)), p.2))
  | .float => (splitBytes 4 bytes).map (fun p => (.float (fromLE p.1), p.2))
  | .double => (splitBytes 8 bytes).map (fun p => (.double (fromLE p.1), p.2))
  | .string =>
    (splitBytes 4 bytes).bind (fun p =>
      (splitBytes (fromLE p.1) p.2).map (fun q => (.string q.1, q.2)))
  | .struct size => (splitBytes size bytes).map (fun p => (.struct p.1, p.2))
  | .array =>
    (splitBytes 4 bytes).bind (fun p =>
      (splitBytes (fromLE p.1) p.2).map (fun q => (.array q.1, q.2)))

/-- The bytes of the fields of a payload, in order. -/
def encodePayload : List Value → List Nat
  | [] => []
  | v :: vs => encodeValue v ++ encodePayload vs

/-- Reading the fields of the registered types, in order; the bytes that are left over are
returned with them. -/
def decodePayload : List FieldType → List Nat → Option (List Value × List Nat)
  | [], bytes => some ([], bytes)
  | t :: ts, bytes =>
    (decodeValue t bytes).bind (fun p =>
      (decodePayload ts p.2).map (fun q => (p.1 :: q.1, q.2)))

/-- Modelled from the spec: the class of a frame state, "frameNumber: unsigned 32/64-bit
counter, payload: ordered sequence of typed fields". -/
structure FrameState where
  frameNumber : Nat
  payload : List Value
  deriving DecidableEq, Repr

/-- The types of the fields of a frame state, in the order the application registered. -/
def FrameState.schema (s : FrameState) : List FieldType := s.payload.map Value.type

/-- Modelled from the spec: a frame state is valid when its frame number fits a `uint32`,
its fields are valid and the size of its message fits a `uint32`. -/
def FrameState.valid (s : FrameState) : Bool :=
  decide (s.frameNumber < 4294967296) && s.payload.all Value.valid
    && decide (5 + (encodePayload s.payload).length < 4294967296)

/-- The message type `Data(0)`. -/
def messageTypeData : Nat := 0

/-- Modelled from the spec: `encode(FrameState) -> bytes` with the envelope of the external
interface, `uint32 size | uint32 frameNumber | uint8 messageType | payload bytes`,
little-endian, where "`size` counts bytes following itself". -/
def encode (s : FrameState) : List Nat :=
  toLE 4 (5 + (encodePayload s.payload).length)
    ++ (toLE 4 s.frameNumber ++ (messageTypeData :: encodePayload s.payload))

/-- What `decode` reports: a frame state, the request for more bytes (the result the
specification calls Partial), or corruption. -/
inductive DecodeResult where
  | frame (s : FrameState)
  | needMoreBytes
  | corrupt
  deriving DecidableEq, Repr

/-- The size that the envelope at the front of `bytes` declares. -/
def declaredSize (bytes : List Nat) : Nat := fromLE (bytes.take 4)

/-- The part of `decode` that reads a complete message: frame number, message type and the
fields, which must fill the message exactly. -/
def decodeMessage (schema : List FieldType) (message : List Nat) : DecodeResult :=
  if message.length < 5 then .corrupt
  else if fromLE ((message.drop 4).take 1) ≠ messageTypeData then .corrupt
  else
    match decodePayload schema (message.drop 5) with
    | some (values, []) => .frame { frameNumber := fromLE (message.take 4), payload := values }
    | _ => .corrupt

/-- Modelled from the spec: `decode(bytes) -> FrameState` for the field types that the
application registered.  "Decode must reject size fields inconsistent with bytes actually
available, signalling a Partial error that tells the caller to keep buffering rather than
treat it as corruption." -/
def decode (schema : List FieldType) (bytes : List Nat) : DecodeResult :=
  if bytes.length < 4 then .needMoreBytes
  else if (bytes.drop 4).length < declaredSize bytes then .needMoreBytes
  else decodeMessage schema ((bytes.drop 4).take (declaredSize bytes))

/-- The frame state of the scenario of the specification: frame 1 with a bool and a double
(here the bit pattern of 3.14). -/
def frameScenario : FrameState :=
  { frameNumber := 1, payload := [.bool true, .double 4614253070214989087] }

end wire

namespace barrier

/-- Modelled from the spec: the states of the frame barrier, "{Idle} -> enter() ->
{Waiting} -> ... -> {Released}". -/
inductive Phase where
  | Idle
  | Waiting
  | Released
  deriving DecidableEq, Repr

/-- Modelled from the spec: the frame barrier of one node with its token for the current
frame: the nodes whose signal is required, the nodes that have signalled, and the nodes
that were logged as late when a timeout released the barrier. -/
structure FrameBarrier where
  phase : Phase
  frame : Nat
  required : List Nat
  ready : List Nat
  late : List Nat
  deriving DecidableEq, Repr

/-- What can happen to a barrier: the local call of `enter()`, the signal of a node, the
timeout, the global shutdown signal, and the start of the next frame. -/
inductive Event where
  | enter
  | peerReady (node : Nat)
  | timeout
  | shutdown
  | beginFrame
  deriving DecidableEq, Repr

/-- Have all required nodes signalled? -/
def FrameBarrier.allReady (b : FrameBarrier) : Bool :=
  b.required.all (fun n => decide (n ∈ b.ready))

/-- Modelled from the spec: one transition of the barrier.  `enter()` takes an idle barrier
to Waiting, or straight to Released when the required nodes have signalled already; a
waiting barrier is released when the required set has signalled, when the timeout elapses
(the late nodes are logged) and on shutdown; the signal of a node is recorded in every
state; the token of the next frame starts idle with no signals. -/
def FrameBarrier.step (b : FrameBarrier) : Event → FrameBarrier
  | .enter =>
    match b.phase with
    | .Idle => if b.allReady then { b with phase := .Released } else { b with phase := .Waiting }
    | .Waiting => b
    | .Released => b
  | .peerReady node =>
    match b.phase with
    | .Waiting =>
      if ({ b with ready := node :: b.ready } : FrameBarrier).allReady then
        { b with ready := node :: b.ready, phase := .Released }
      else
        { b with ready := node :: b.ready }
    | _ => { b with ready := node :: b.ready }
  | .timeout =>
    match b.phase with
    | .Waiting =>
      { b with phase := .Released,
               late := b.required.filter (fun n => decide (n ∉ b.ready)) }
    | _ => b
  | .shutdown =>
    match b.phase with
    | .Waiting => { b with phase := .Released }
    | _ => b
  | .beginFrame =>
    { phase := .Idle, frame := b.frame + 1, required := b.required, ready := [], late := [] }

/-- The barrier after a sequence of events. -/
def FrameBarrier.run (b : FrameBarrier) : List Event → FrameBarrier
  | [] => b
  | e :: es => (b.step e).run es

/-- Modelled from the spec: `enter()` "blocks the calling thread until Released", so a call
returns immediately exactly when the barrier is released right after the call is made. -/
def FrameBarrier.enterReturnsImmediately (b : FrameBarrier) : Bool :=
  decide ((b.step .enter).phase = .Released)

/-- An idle barrier of frame 7 that requires the nodes 1 and 2. -/
def barrierIdle : FrameBarrier :=
  { phase := .Idle, frame := 7, required := [1, 2], ready := [], late := [] }

/-- The barrier of frame 7 after the local `enter()`, the signal of node 1 and a timeout:
released, with node 2 logged as late. -/
def barrierReleased : FrameBarrier :=
  barrierIdle.run [.enter, .peerReady 1, .timeout]

end barrier

/-! ## The dome of the calibrator (`apps/calibrator/main.cpp`, `initGL`) -/

namespace calibrator

/-- The constant `RestartIndex` of `initGL`, `std::numeric_limits<uint16_t>::max()`. -/
def RestartIndex : Nat := 65535

/-- The constant `ElevationSteps` of `initGL`. -/
def ElevationSteps : Nat := 40

/-- The constant `AzimuthSteps` of `initGL`. -/
def AzimuthSteps : Nat := 160

/-- The conversion `static_cast<uint16_t>(n)` of a number that is not negative, which is also
what `push_back` does to an `int` on a `std::vector<uint16_t>`. -/
def toUint16 (n : Nat) : Nat := n % 65536

/-- The struct `Vertex` of the calibrator. -/
structure Vertex where
  elevation : ℚ
  azimuth : ℚ
  deriving DecidableEq, Repr

/-- The vertex that the body of the vertex loop of `initGL` pushes for the elevation step
`e` and the azimuth step `a`; `radians` is `glm::radians`. -/
def vertexAt (radians : ℚ → ℚ) (e a : Nat) : Vertex :=
  { elevation := radians ((e : ℚ) / (((ElevationSteps : Int) - 1 : Int) : ℚ) * 90),
    azimuth := radians ((a : ℚ) / (((AzimuthSteps : Int) - 1 : Int) : ℚ) * 360) }

/-- The vector `vertices` of `initGL` after the two nested loops
`for (e = 0; e <= ElevationSteps; ++e) for (a = 0; a < AzimuthSteps; ++a)`. -/
def vertices (radians : ℚ → ℚ) : List Vertex :=
  (List.range (ElevationSteps + 1)).flatMap (fun e =>
    (List.range AzimuthSteps).map (fun a => vertexAt radians e a))

/-- The vector `t` of one horizontal ring `e`: `std::iota` over `AzimuthSteps` entries from
`static_cast<uint16_t>(e * AzimuthSteps)`, the first index again to close the ring, and the
restart index. -/
def ringIndices (e : Nat) : List Nat :=
  (List.range AzimuthSteps).map (fun k => toUint16 (toUint16 (e * AzimuthSteps) + k))
    ++ [toUint16 (e * AzimuthSteps), RestartIndex]

/-- The indices of one vertical line `a`, followed by the restart index. -/
def verticalIndices (a : Nat) : List Nat :=
  (List.range ElevationSteps).map (fun e => toUint16 (a + e * AzimuthSteps))
    ++ [RestartIndex]

/-- The vector `indices` of the line representation in `initGL`. -/
def lineIndices : List Nat :=
  (List.range ElevationSteps).flatMap ringIndices ++ [RestartIndex]
    ++ (List.range AzimuthSteps).flatMap verticalIndices

/-- The six indices that the body of the triangle loop of `initGL` pushes for `e` and `a`. -/
def quadIndices (e a : Nat) : List Nat :=
  [toUint16 (e * AzimuthSteps + a),
   toUint16 (toUint16 (e * AzimuthSteps + a) + 1),
   toUint16 (toUint16 (e * AzimuthSteps + a) + AzimuthSteps),
   toUint16 (toUint16 (e * AzimuthSteps + a) + 1),
   toUint16 (toUint16 (e * AzimuthSteps + a) + AzimuthSteps + 1),
   toUint16 (toUint16 (e * AzimuthSteps + a) + AzimuthSteps)]

/-- The vector `indices` of the triangle representation in `initGL`. -/
def triangleIndices : List Nat :=
  (List.range ElevationSteps).flatMap (fun e =>
    (List.range AzimuthSteps).flatMap (fun a => quadIndices e a))

end calibrator

/-! ## Writing JSON: `to_json` and `serializeConfig` -/

/-- Insertion into the `std::map` of a JSON object, whose keys are kept in order: the value
of an existing key is replaced, a new key is put at its place. -/
def setKey (key : String) (v : Json) : List (String × Json) → List (String × Json)
  | [] => [(key, v)]
  | (k, x) :: rest =>
    if key = k then (key, v) :: rest
    else if key < k then (key, v) :: (k, x) :: rest
    else (k, x) :: setKey key v rest

/-- The assignment `j[key] = v`.  On `null` the library first makes `j` an empty object.
The writers assign to `null` and to objects only; on the other kinds of value, where the
library throws type error 305, the model starts from the empty object as well. -/
def Json.set (j : Json) (key : String) (v : Json) : Json :=
  match j with
  | .obj kvs => .obj (setKey key v kvs)
  | _ => .obj [(key, v)]

/-- The statement `if (x.has_value()) { j[key] = *x; }`, with `v` the JSON value of `*x`. -/
def Json.setOpt (j : Json) (key : String) (v : Option Json) : Json :=
  match v with
  | some x => j.set key x
  | none => j

/-- The function `std::to_string(int)`: the decimal digits with a minus sign for a negative
number. -/
def to_string (i : Int) : String := toString i

def to_json_vec3 (v : vec3) : Json :=
  (((Json.obj []).set "x" (.float v.x)).set "y" (.float v.y)).set "z" (.float v.z)

def to_json_quat (q : quat) : Json :=
  ((((Json.obj []).set "x" (.float q.x)).set "y" (.float q.y)).set "z" (.float q.z)).set
    "w" (.float q.w)

def to_json_FOV (f : PlanarProjection.FOV) : Json :=
  let j : Json := .obj []
  let j : Json :=
    if f.left = f.right then j.set "hfov" (.float (-f.left + f.right))
    else (j.set "left" (.float (-f.left))).set "right" (.float f.right)
  if f.down = f.up then j.set "vfov" (.float (-f.down + f.up))
  else (j.set "down" (.float (-f.down))).set "up" (.float f.up)

def to_json_PlanarProjection (p : PlanarProjection) : Json :=
  ((((Json.obj []).set "fov" (to_json_FOV p.fov)).setOpt
    "distance" (p.fov.distance.map .float)).setOpt
    "orientation" (p.orientation.map to_json_quat)).setOpt
    "offset" (p.offset.map to_json_vec3)

/-- The block of `to_json(SpoutFlatProjection)` that builds the object `background`. -/
def to_json_background (v : vec4) : Json :=
  ((((Json.obj []).set "r" (.float v.x)).set "g" (.float v.y)).set "b" (.float v.z)).set
    "a" (.float v.w)

def to_json_SpoutFlatProjection (p : SpoutFlatProjection) : Json :=
  ((((((Json.obj []).setOpt "width" (p.width.map (fun w => .str (to_string w)))).setOpt
    "height" (p.height.map (fun h => .str (to_string h)))).set
    "mappingspoutname" (.str p.mappingSpoutName)).setOpt
    "background" (p.background.map to_json_background)).setOpt
    "drawMain" (p.drawMain.map .bool)).set
    "PlanarProjection" (to_json_PlanarProjection p.proj)

namespace config

end config

mutual
/-- Is the value one that the JSON library can hold: are the keys of every object in it in
strictly increasing order, as the `std::map` of an object keeps them? -/
def Json.canonical : Json → Bool
  | .arr xs => canonicalItems xs
  | .obj kvs => decide ((kvs.map Prod.fst).Pairwise (fun a b => a < b)) && canonicalFields kvs
  | _ => true
/-- Are all items of an array canonical? -/
def canonicalItems : List Json → Bool
  | [] => true
  | x :: xs => x.canonical && canonicalItems xs
/-- Are all values of an object canonical? -/
def canonicalFields : List (String × Json) → Bool
  | [] => true
  | (_, v) :: rest => v.canonical && canonicalFields rest
end

/-- Does the number have a value of the C++ type `int`? -/
def fitsInt (i : Int) : Bool := decide (-2147483648 ≤ i) && decide (i < 2147483648)

namespace textSample

/-- The characters of a natural number: that many strokes and a full stop. -/
def encNat : Nat → List Char
  | 0 => ['.']
  | n + 1 => '1' :: encNat n

/-- The characters of an integer: its sign and its absolute value. -/
def encInt (i : Int) : List Char :=
  if i < 0 then '-' :: encNat (-i).toNat else '+' :: encNat i.toNat

/-- The characters of a string: its length and its characters. -/
def encStr (s : String) : List Char := encNat s.length ++ s.data

mutual
/-- The characters of a JSON value: a letter for its kind, then its content; the items of
an array and the members of an object each follow a comma, and a bracket closes them. -/
def enc : Json → List Char
  | .null => ['n']
  | .bool b => [if b then 't' else 'f']
  | .int i => 'i' :: encInt i
  | .float q => 'q' :: (encInt q.num ++ encNat q.den)
  | .str s => 's' :: encStr s
  | .arr xs => 'a' :: encList xs
  | .obj kvs => 'o' :: encFields kvs
/-- The characters of the items of an array. -/
def encList : List Json → List Char
  | [] => [']']
  | x :: xs => ',' :: (enc x ++ encList xs)
/-- The characters of the members of an object. -/
def encFields : List (String × Json) → List Char
  | [] => ['}']
  | (k, v) :: rest => ',' :: (encStr k ++ (enc v ++ encFields rest))
end

/-- Reading a natural number from the front of the characters. -/
def decNat : List Char → Option (Nat × List Char)
  | [] => none
  | c :: r =>
    if c = '.' then some (0, r)
    else if c = '1' then (decNat r).map (fun p => (p.1 + 1, p.2))
    else none

/-- Reading an integer from the front of the characters. -/
def decInt : List Char → Option (Int × List Char)
  | [] => none
  | c :: r =>
    if c = '-' then (decNat r).map (fun p => (-(p.1 : Int), p.2))
    else if c = '+' then (decNat r).map (fun p => ((p.1 : Int), p.2))
    else none

/-- Reading a string from the front of the characters. -/
def decStr (cs : List Char) : Option (String × List Char) :=
  (decNat cs).bind (fun p =>
    if p.2.length < p.1 then none else some (String.mk (p.2.take p.1), p.2.drop p.1))

mutual
/-- Reading a JSON value from the front of the characters; the first argument bounds the
number of nested calls. -/
def dec : Nat → List Char → Option (Json × List Char)
  | 0, _ => none
  | _ + 1, [] => none
  | n + 1, c :: r =>
    if c = 'n' then some (.null, r)
    else if c = 't' then some (.bool true, r)
    else if c = 'f' then some (.bool false, r)
    else if c = 'i' then (decInt r).map (fun p => (.int p.1, p.2))
    else if c = 'q' then
      (decInt r).bind (fun p => (decNat p.2).map (fun d => (.float (mkRat p.1 d.1), d.2)))
    else if c = 's' then (decStr r).map (fun p => (.str p.1, p.2))
    else if c = 'a' then (decList n r).map (fun p => (.arr p.1, p.2))
    else if c = 'o' then (decFields n r).map (fun p => (.obj p.1, p.2))
    else none
/-- Reading the items of an array up to the closing bracket. -/
def decList : Nat → List Char → Option (List Json × List Char)
  | 0, _ => none
  | _ + 1, [] => none
  | n + 1, c :: r =>
    if c = ']' then some ([], r)
    else if c = ',' then
      (dec n r).bind (fun x => (decList n x.2).map (fun xs => (x.1 :: xs.1, xs.2)))
    else none
/-- Reading the members of an object up to the closing bracket. -/
def decFields : Nat → List Char → Option (List (String × Json) × List Char)
  | 0, _ => none
  | _ + 1, [] => none
  | n + 1, c :: r =>
    if c = '}' then some ([], r)
    else if c = ',' then
      (decStr r).bind (fun k => (dec n k.2).bind (fun v =>
        (decFields n v.2).map (fun rest => ((k.1, v.1) :: rest.1, rest.2))))
    else none
end

end textSample

/-- A field of view whose stored `left` and `right` are equal and not zero. -/
def fovEqualSides : PlanarProjection.FOV :=
  { down := -1, left := 5, right := 5, up := 1, distance := none }

/-- A field of view as the reader stores it for `left = 40`, `right = 40`, `down = 25`,
`up = 30`. -/
def fovUsual : PlanarProjection.FOV :=
  { down := -25, left := -40, right := 40, up := 30, distance := none }

/-- A flat spout projection with all of its values. -/
def spoutFlatSample : SpoutFlatProjection :=
  { width := some 1280, height := some 720, mappingSpoutName := "SPOUT",
    background := some { x := 0, y := 0, z := 0, w := 1 }, drawMain := some true,
    proj := { fov := fovUsual, orientation := none, offset := none } }

/-- A flat spout projection without width and height. -/
def spoutFlatUnsized : SpoutFlatProjection :=
  { spoutFlatSample with width := none, height := none }

/-- Three window objects: one with the id 5, one with the id -128 and one without an id. -/
def windowDocs : List Json :=
  [.obj [("id", .int 5), ("size", .obj [("x", .int 640), ("y", .int 480)])],
   .obj [("id", .int (-128)), ("size", .obj [("x", .int 640), ("y", .int 480)])],
   .obj [("size", .obj [("x", .int 640), ("y", .int 480)])]]

/-- A node with the three windows `windowDocs`. -/
def nodeWindowIds : Json :=
  .obj [("address", .str "localhost"), ("port", .int 20401), ("windows", .arr windowDocs)]

/-! ## General facts about results -/

theorem Res.succeeds_iff {α : Type} (r : Res α) : r.succeeds = true ↔ ∃ a, r = .ok a := by
  cases r <;> simp [Res.succeeds]

theorem Res.bind_ok {α β : Type} (a : α) (f : α → Res β) :
    ((Except.ok a : Res α) >>= f) = f a := rfl

theorem Res.bind_error {α β : Type} (e : Exn) (f : α → Res β) :
    ((Except.error e : Res α) >>= f) = .error e := rfl

theorem Res.exists_ok_of_succeeds {α : Type} {r : Res α} (h : r.succeeds = true) :
    ∃ a, r = .ok a := (Res.succeeds_iff r).mp h

/-- In an array whose items before `x` convert, a failure on `x` is the failure of the
whole array. -/
theorem get_items_error_at {α : Type} (get : Json → Res α) (pre : List Json) (x : Json)
    (post : List Json) (e : Exn) (hpre : ∀ n ∈ pre, (get n).succeeds = true)
    (hx : get x = .error e) : get_items get (pre ++ x :: post) = .error e := by
  induction pre with
  | nil => simp [get_items, hx, Res.bind_error]
  | cons n pre ih =>
    obtain ⟨a, ha⟩ := Res.exists_ok_of_succeeds (hpre n (List.mem_cons_self n pre))
    have ih' := ih (fun m hm => hpre m (List.mem_cons_of_mem n hm))
    simp [get_items, ha, ih', Res.bind_ok, Res.bind_error]

/-- An exception of `from_json(Cluster)` escapes `readJsonConfig` unchanged. -/
theorem readJsonConfig_error_of_cluster (ext : Ext) (s : String) (j : Json) (e : Exn)
    (hparse : ext.parse s = .ok j) (hversion : (j.find "version").isSome = true)
    (h : from_json_Cluster ext j = .error e) : readJsonConfig ext s = .error e := by
  obtain ⟨v, hv⟩ := Option.isSome_iff_exists.mp hversion
  simp only [readJsonConfig, hparse, hv, h, Res.bind_ok, Res.bind_error,
    Option.isNone_some, Bool.false_eq_true, if_false]

/-- An exception of a node that the reader reaches is the exception of the cluster. -/
theorem from_json_Cluster_error_of_node (ext : Ext) (j : Json) (pre : List Json)
    (node : Json) (post : List Json) (e : Exn) (hreach : reachesNode ext j pre node post)
    (h : from_json_Node ext node = .error e) : from_json_Cluster ext j = .error e := by
  obtain ⟨hhead, hnodes, hpre⟩ := hreach
  simp only [clusterHeadParses, Bool.and_eq_true] at hhead
  obtain ⟨⟨⟨⟨⟨⟨⟨⟨⟨h1, h2⟩, h3⟩, h4⟩, h5⟩, h6⟩, h7⟩, h8⟩, h9⟩, h10⟩ := hhead
  obtain ⟨a1, e1⟩ := Res.exists_ok_of_succeeds h1
  obtain ⟨a2, e2⟩ := Res.exists_ok_of_succeeds h2
  obtain ⟨a3, e3⟩ := Res.exists_ok_of_succeeds h3
  obtain ⟨a4, e4⟩ := Res.exists_ok_of_succeeds h4
  obtain ⟨a5, e5⟩ := Res.exists_ok_of_succeeds h5
  obtain ⟨a6, e6⟩ := Res.exists_ok_of_succeeds h6
  obtain ⟨a7, e7⟩ := Res.exists_ok_of_succeeds h7
  obtain ⟨a8, e8⟩ := Res.exists_ok_of_succeeds h8
  obtain ⟨a9, e9⟩ := Res.exists_ok_of_succeeds h9
  obtain ⟨a10, e10⟩ := Res.exists_ok_of_succeeds h10
  have hn : parseValueVec (from_json_Node ext) j "nodes" = .error e := by
    simp only [parseValueVec, hnodes, get_vector]
    exact get_items_error_at _ pre node post e hpre h
  simp only [from_json_Cluster, e1, e2, e3, e4, e5, e6, e7, e8, e9, e10, hn, Res.bind_ok,
    Res.bind_error]

/-- A statement that returns normally hands over to the rest of the body. -/
theorem Res.bind_eq_error_of {α β : Type} (r : Res α) (f : α → Res β) (e : Exn)
    (hr : r.succeeds = true) (hf : ∀ a, f a = .error e) : (r >>= f) = .error e := by
  obtain ⟨a, ha⟩ := Res.exists_ok_of_succeeds hr
  rw [ha, Res.bind_ok]
  exact hf a

/-- A body whose remaining statements succeed or fail independently of the value just read
returns normally exactly when its first statement and the rest do. -/
theorem Res.succeeds_bind {α β : Type} (r : Res α) (f : α → Res β) (b : Bool)
    (hf : ∀ a, (f a).succeeds = b) : (r >>= f).succeeds = (r.succeeds && b) := by
  cases r with
  | error e => rfl
  | ok a => simpa [Res.bind_ok, Res.succeeds] using hf a

/-- An exception of a window that the reader reaches is the exception of the node. -/
theorem from_json_Node_error_of_window (ext : Ext) (node : Json) (wpre : List Json)
    (w : Json) (wpost : List Json) (e : Exn) (hreach : reachesWindow ext node wpre w wpost)
    (h : from_json_Window ext w = .error e) : from_json_Node ext node = .error e := by
  obtain ⟨hhead, hwindows, hpre⟩ := hreach
  simp only [nodeHeadParses, Bool.and_eq_true] at hhead
  have hw : parseValueVec (from_json_Window ext) node "windows" = .error e := by
    simp only [parseValueVec, hwindows, get_vector]
    exact get_items_error_at _ wpre w wpost e hpre h
  unfold from_json_Node
  refine Res.bind_eq_error_of _ _ _ hhead.1.1.1 (fun _ => ?_)
  refine Res.bind_eq_error_of _ _ _ hhead.1.1.2 (fun _ => ?_)
  refine Res.bind_eq_error_of _ _ _ hhead.1.2 (fun _ => ?_)
  refine Res.bind_eq_error_of _ _ _ hhead.2 (fun _ => ?_)
  rw [hw, Res.bind_error]

/-- A window without `size` whose earlier keys are well-formed fails on `size`. -/
theorem from_json_Window_missing_size (ext : Ext) (w : Json)
    (hkeys : windowHeadParses ext w = true) (hsize : w.find "size" = none) :
    from_json_Window ext w
      = .error (.runtime_error "Could not find required key 'size'") := by
  simp only [windowHeadParses, Bool.and_eq_true] at hkeys
  unfold from_json_Window
  repeat (refine Res.bind_eq_error_of _ _ _ (by simp only [hkeys]) (fun _ => ?_))
  simp only [parseValue, hsize, Res.bind_error]
  rfl

/-- The reader of a window returns normally exactly when each of its statements does. -/
theorem from_json_Window_succeeds (ext : Ext) (w : Json) :
    (from_json_Window ext w).succeeds
      = (windowHeadParses ext w
          && ((parseValue from_json_ivec2 w "size").succeeds
          && ((parseValueOpt from_json_ivec2 w "res").succeeds
          && ((parseValueVec (from_json_Viewport ext) w "viewports").succeeds
          && true)))) := by
  unfold from_json_Window windowHeadParses
  simp only [Bool.and_assoc]
  repeat (refine Res.succeeds_bind _ _ _ (fun _ => ?_))
  rfl

theorem parseValueOpt_succeeds_of_omit {α : Type} (get : Json → Res α) (j₁ j₂ : Json)
    (key : String) (hk : j₂.find key = j₁.find key ∨ j₂.find key = none)
    (h : (parseValueOpt get j₁ key).succeeds = true) :
    (parseValueOpt get j₂ key).succeeds = true := by
  rcases hk with hk | hk
  · simpa only [parseValueOpt, hk] using h
  · simp only [parseValueOpt, hk]
    rfl

theorem parseValueVec_succeeds_of_omit {α : Type} (get : Json → Res α) (j₁ j₂ : Json)
    (key : String) (hk : j₂.find key = j₁.find key ∨ j₂.find key = none)
    (h : (parseValueVec get j₁ key).succeeds = true) :
    (parseValueVec get j₂ key).succeeds = true := by
  rcases hk with hk | hk
  · simpa only [parseValueVec, hk] using h
  · simp only [parseValueVec, hk]
    rfl

theorem ifFound_succeeds_of_omit {α : Type} (f : Json → Res α) (j₁ j₂ : Json)
    (key : String) (hk : j₂.find key = j₁.find key ∨ j₂.find key = none)
    (h : (ifFound j₁ key f).succeeds = true) : (ifFound j₂ key f).succeeds = true := by
  rcases hk with hk | hk
  · simpa only [ifFound, hk] using h
  · simp only [ifFound, hk]
    rfl

/-- Leaving out keys other than `size` from a window that parses gives a window that
parses. -/
theorem from_json_Window_succeeds_of_omit (ext : Ext) (w₁ w₂ : Json)
    (h : (from_json_Window ext w₁).succeeds = true)
    (hk : ∀ key, w₂.find key = w₁.find key ∨ (key ≠ "size" ∧ w₂.find key = none)) :
    (from_json_Window ext w₂).succeeds = true := by
  have hk' : ∀ key, w₂.find key = w₁.find key ∨ w₂.find key = none := fun key =>
    (hk key).imp id And.right
  have hsize : w₂.find "size" = w₁.find "size" := by
    rcases hk "size" with h1 | h1
    · exact h1
    · exact absurd rfl h1.1
  rw [from_json_Window_succeeds] at h ⊢
  simp only [windowHeadParses, Bool.and_eq_true, Bool.and_true, parsePath] at h ⊢
  have hsize' : (parseValue from_json_ivec2 w₂ "size").succeeds = true := by
    simpa only [parseValue, hsize] using h.2.1
  and_intros
  all_goals first
    | exact hsize'
    | exact parseValueOpt_succeeds_of_omit _ _ _ _ (hk' _) (by simp only [h])
    | exact parseValueVec_succeeds_of_omit _ _ _ _ (hk' _) (by simp only [h])
    | exact ifFound_succeeds_of_omit _ _ _ _ (hk' _) (by simp only [h])

/-! ## Statements that can only raise exceptions of the JSON library -/

theorem Res.onlyJson_ok {α : Type} (a : α) : Res.onlyJson (Except.ok a : Res α) := by
  intro e h
  cases h

theorem Res.onlyJson_pure {α : Type} (a : α) : Res.onlyJson (pure a : Res α) := by
  intro e h
  cases h

theorem Res.onlyJson_error (id : Nat) {α : Type} :
    Res.onlyJson (Except.error (.json_exception id) : Res α) := by
  intro e h
  cases h
  exact ⟨id, rfl⟩

theorem Res.onlyJson_bind {α β : Type} (r : Res α) (f : α → Res β) (hr : r.onlyJson)
    (hf : ∀ a, (f a).onlyJson) : Res.onlyJson (r >>= f) := by
  cases r with
  | error e =>
    intro e' h
    rw [Res.bind_error] at h
    cases h
    exact hr e rfl
  | ok a => exact hf a

theorem get_float_onlyJson (j : Json) : (get_float j).onlyJson := by
  cases j <;> first | exact Res.onlyJson_ok _ | exact Res.onlyJson_error _

theorem get_double_onlyJson (j : Json) : (get_double j).onlyJson := by
  cases j <;> first | exact Res.onlyJson_ok _ | exact Res.onlyJson_error _

theorem atKey_onlyJson (j : Json) (key : String) : (j.atKey key).onlyJson := by
  unfold Json.atKey
  split
  · split
    · exact Res.onlyJson_ok _
    · exact Res.onlyJson_error _
  · exact Res.onlyJson_error _

theorem parseValueOpt_onlyJson {α : Type} (get : Json → Res α) (j : Json) (key : String)
    (hget : ∀ v, (get v).onlyJson) : (parseValueOpt get j key).onlyJson := by
  unfold parseValueOpt
  split
  · exact Res.onlyJson_bind _ _ (hget _) (fun _ => Res.onlyJson_pure _)
  · exact Res.onlyJson_ok _

theorem overrideFloat_onlyJson (it : Option Json) (x : ℚ) : (overrideFloat it x).onlyJson := by
  unfold overrideFloat
  split
  · exact get_float_onlyJson _
  · exact Res.onlyJson_ok _

theorem halfFov_onlyJson (it : Option Json) (cur : ℚ × ℚ) : (halfFov it cur).onlyJson := by
  unfold halfFov
  split
  · exact Res.onlyJson_bind _ _ (get_float_onlyJson _) (fun _ => Res.onlyJson_pure _)
  · exact Res.onlyJson_ok _

theorem from_json_vec3_onlyJson (j : Json) : (from_json_vec3 j).onlyJson := by
  unfold from_json_vec3
  repeat' first
    | exact Res.onlyJson_pure _
    | exact atKey_onlyJson _ _
    | exact get_float_onlyJson _
    | refine Res.onlyJson_bind _ _ ?_ (fun _ => ?_)

theorem assignFour_onlyJson (itX itY itZ itW : Option Json) (cur : ℚ × ℚ × ℚ × ℚ) :
    (assignFour itX itY itZ itW cur).onlyJson := by
  unfold assignFour
  split
  · repeat' first
      | exact Res.onlyJson_pure _
      | exact get_float_onlyJson _
      | refine Res.onlyJson_bind _ _ ?_ (fun _ => ?_)
  · exact Res.onlyJson_ok _

theorem from_json_quat_onlyJson (ext : Ext) (j : Json) (q : quat) :
    (from_json_quat ext j q).onlyJson := by
  unfold from_json_quat
  refine Res.onlyJson_bind _ _ ?_ (fun _ => ?_)
  · unfold from_json_quat_euler
    split
    · repeat' first
        | exact Res.onlyJson_pure _
        | exact get_double_onlyJson _
        | refine Res.onlyJson_bind _ _ ?_ (fun _ => ?_)
    · exact Res.onlyJson_ok _
  · exact Res.onlyJson_bind _ _ (assignFour_onlyJson _ _ _ _ _) (fun _ => Res.onlyJson_pure _)

/-- Once both checks of the field of view pass, its reader raises only JSON exceptions. -/
theorem from_json_FOV_onlyJson (j : Json) (f : PlanarProjection.FOV)
    (hh : hasHorizontal j = true) (hv : hasVertical j = true) :
    (from_json_FOV j f).onlyJson := by
  unfold from_json_FOV
  simp only [hh, hv, Bool.not_true, Bool.or_self, Bool.false_eq_true, if_false]
  repeat' first
    | exact Res.onlyJson_pure _
    | exact halfFov_onlyJson _ _
    | exact overrideFloat_onlyJson _ _
    | exact parseValueOpt_onlyJson _ _ _ get_float_onlyJson
    | refine Res.onlyJson_bind _ _ ?_ (fun _ => ?_)

theorem hasHorizontal_eq_false (j : Json) :
    hasHorizontal j = false
      ↔ j.find "hfov" = none ∧ (j.find "left" = none ∨ j.find "right" = none) := by
  unfold hasHorizontal
  cases j.find "hfov" <;> cases j.find "left" <;> cases j.find "right" <;> simp

theorem hasVertical_eq_false (j : Json) :
    hasVertical j = false
      ↔ j.find "vfov" = none ∧ (j.find "down" = none ∨ j.find "up" = none) := by
  unfold hasVertical
  cases j.find "vfov" <;> cases j.find "down" <;> cases j.find "up" <;> simp

/-- The reader of a planar projection raises error 6000 exactly when `fov` is missing or one
of the two checks of the field of view fails. -/
theorem from_json_PlanarProjection_6000_iff (ext : Ext) (j : Json) (p : PlanarProjection) :
    from_json_PlanarProjection ext j p
        = .error (.Error 6000 "Missing specification of field-of-view values")
      ↔ (j.find "fov" = none
          ∨ ∃ fov, j.find "fov" = some fov
              ∧ (hasHorizontal fov = false ∨ hasVertical fov = false)) := by
  cases hfov : j.find "fov" with
  | none => simp [from_json_PlanarProjection, hfov]
  | some fov =>
    cases hh : hasHorizontal fov with
    | false => simp [from_json_PlanarProjection, hfov, parseValue, from_json_FOV, hh,
        Res.bind_error]
    | true =>
      cases hv : hasVertical fov with
      | false => simp [from_json_PlanarProjection, hfov, parseValue, from_json_FOV, hh, hv,
          Res.bind_error]
      | true =>
        have honly : (from_json_PlanarProjection ext j p).onlyJson := by
          unfold from_json_PlanarProjection
          simp only [hfov, Option.isNone_some, Bool.false_eq_true, if_false, parseValue]
          repeat' first
            | exact Res.onlyJson_pure _
            | exact from_json_FOV_onlyJson _ _ hh hv
            | exact parseValueOpt_onlyJson _ _ _ get_float_onlyJson
            | exact parseValueOpt_onlyJson _ _ _ (fun v => from_json_quat_onlyJson ext v _)
            | exact parseValueOpt_onlyJson _ _ _ from_json_vec3_onlyJson
            | refine Res.onlyJson_bind _ _ ?_ (fun _ => ?_)
        constructor
        · intro h
          obtain ⟨id, hid⟩ := honly _ h
          cases hid
        · intro h
          rcases h with h | ⟨fov', hfov', h⟩
          · cases h
          · cases hfov'
            rw [hh, hv] at h
            simp at h

theorem atKey_of_find {j v : Json} {key : String} (h : j.find key = some v) :
    j.atKey key = .ok v := by
  cases j <;> simp only [Json.find] at h <;> first | cases h | simp only [Json.atKey, h]

theorem cropValue_of_find {it v : Json} {key : String} (dflt : ℚ)
    (h : it.find key = some v) : cropValue it key dflt = get_float v := by
  cases it <;> simp only [Json.find] at h <;>
    first | cases h | simp only [cropValue, Json.find, Json.value, h, Option.isNone_some,
      Bool.false_eq_true, if_false]

theorem cropValue_of_missing {it : Json} {key : String} (dflt : ℚ)
    (h : it.find key = none) :
    cropValue it key dflt
      = .error (.runtime_error ("Missing key '" ++ key ++ "' in FisheyeProjection/Crop")) := by
  simp only [cropValue, h, Option.isNone_none, if_true]

/-- The reader of a fisheye projection whose statements before `crop` return normally
fails with the exception of the crop block when that block fails. -/
theorem from_json_FisheyeProjection_error_of_crop (ext : Ext) (j crop : Json) (e : Exn)
    (hhead : fisheyeHeadParses j = true) (hcrop : j.find "crop" = some crop)
    (h : from_json_FisheyeProjection_crop ext crop = .error e) :
    from_json_FisheyeProjection ext j = .error e := by
  simp only [fisheyeHeadParses, Bool.and_eq_true] at hhead
  unfold from_json_FisheyeProjection
  repeat (refine Res.bind_eq_error_of _ _ _ (by simp only [hhead]) (fun _ => ?_))
  simp only [ifFound, hcrop, h, Res.bind_error]

/-- An exception of a viewport that the reader reaches is the exception of the window. -/
theorem from_json_Window_error_of_viewport (ext : Ext) (w : Json) (vpre : List Json)
    (v : Json) (vpost : List Json) (e : Exn) (hreach : reachesViewport ext w vpre v vpost)
    (h : from_json_Viewport ext v = .error e) : from_json_Window ext w = .error e := by
  obtain ⟨hhead, hsize, hres, hviewports, hpre⟩ := hreach
  simp only [windowHeadParses, Bool.and_eq_true] at hhead
  have hv : parseValueVec (from_json_Viewport ext) w "viewports" = .error e := by
    simp only [parseValueVec, hviewports, get_vector]
    exact get_items_error_at _ vpre v vpost e hpre h
  unfold from_json_Window
  repeat (refine Res.bind_eq_error_of _ _ _ (by simp only [hhead]) (fun _ => ?_))
  refine Res.bind_eq_error_of _ _ _ hsize (fun _ => ?_)
  refine Res.bind_eq_error_of _ _ _ hres (fun _ => ?_)
  rw [hv, Res.bind_error]

/-- An exception of the projection block is the exception of the viewport when the
statements before it return normally. -/
theorem from_json_Viewport_error_of_projection (ext : Ext) (v proj : Json) (e : Exn)
    (hhead : viewportHeadParses ext v = true) (hproj : v.find "projection" = some proj)
    (h : from_json_Viewport_projection ext proj = .error e) :
    from_json_Viewport ext v = .error e := by
  simp only [viewportHeadParses, Bool.and_eq_true] at hhead
  unfold from_json_Viewport
  repeat (refine Res.bind_eq_error_of _ _ _ (by simp only [hhead]) (fun _ => ?_))
  simp only [ifFound, hproj, h, Res.bind_error]

/-- An exception of a projection that the reader reaches escapes `readJsonConfig`. -/
theorem readJsonConfig_error_of_projection (ext : Ext) (s : String) (j proj : Json)
    (e : Exn) (hparse : ext.parse s = .ok j) (hversion : (j.find "version").isSome = true)
    (hreach : reachesProjection ext j proj)
    (h : from_json_Viewport_projection ext proj = .error e) :
    readJsonConfig ext s = .error e := by
  obtain ⟨pre, node, post, wpre, w, wpost, vpre, v, vpost, hn, hw, hv, hhead, hproj⟩ := hreach
  apply readJsonConfig_error_of_cluster ext s j _ hparse hversion
  apply from_json_Cluster_error_of_node ext j pre node post _ hn
  apply from_json_Node_error_of_window ext node wpre w wpost _ hw
  apply from_json_Window_error_of_viewport ext w vpre v vpost _ hv
  exact from_json_Viewport_error_of_projection ext v proj _ hhead hproj h

/-- A projection whose `type` is "SphericalMirrorProjection" is read by
`from_json(SphericalMirrorProjection)`. -/
theorem from_json_Viewport_projection_spherical (ext : Ext) (proj : Json)
    (htype : proj.find "type" = some (.str "SphericalMirrorProjection")) :
    from_json_Viewport_projection ext proj
      = Projection.SphericalMirror <$> from_json_SphericalMirrorProjection proj := by
  have hnull : proj.is_null = false := by
    cases proj <;> simp only [Json.find] at htype <;> first | cases htype | rfl
  simp only [from_json_Viewport_projection, hnull, atKey_of_find htype, get_string,
    Res.bind_ok, Bool.false_eq_true, if_false]
  rfl

/-- The document `docWithProjection proj` reaches its projection. -/
theorem docWithProjection_reaches (ext : Ext) (proj : Json) :
    reachesProjection ext (docWithProjection proj) proj :=
  ⟨[], .obj [("address", .str "localhost"), ("port", .int 123),
      ("windows", .arr [.obj [("size", .obj [("x", .int 1), ("y", .int 2)]),
        ("viewports", .arr [.obj [("projection", proj)]])]])], [],
    [], .obj [("size", .obj [("x", .int 1), ("y", .int 2)]),
        ("viewports", .arr [.obj [("projection", proj)]])], [],
    [], .obj [("projection", proj)], [],
    ⟨rfl, rfl, by simp⟩, ⟨rfl, rfl, by simp⟩, ⟨rfl, rfl, rfl, rfl, by simp⟩, rfl, rfl⟩

theorem Res.bind_eq_ok {α β : Type} {r : Res α} {f : α → Res β} {b : β}
    (h : (r >>= f) = .ok b) : ∃ a, r = .ok a ∧ f a = .ok b := by
  cases r with
  | error e => cases h
  | ok a => exact ⟨a, rfl, h⟩

/-- What a successful run of the reader of a field of view has computed, statement by
statement. -/
theorem from_json_FOV_ok {j : Json} {f0 f : PlanarProjection.FOV}
    (h : from_json_FOV j f0 = .ok f) :
    ∃ horizontal vertical down left right up,
      halfFov (j.find "hfov") (f0.left, f0.right) = .ok horizontal
        ∧ halfFov (j.find "vfov") (f0.down, f0.up) = .ok vertical
        ∧ overrideFloat (j.find "down") vertical.1 = .ok down
        ∧ overrideFloat (j.find "left") horizontal.1 = .ok left
        ∧ overrideFloat (j.find "right") horizontal.2 = .ok right
        ∧ overrideFloat (j.find "up") vertical.2 = .ok up
        ∧ f.down = down * (-1) ∧ f.left = left * (-1) ∧ f.right = right ∧ f.up = up
        ∧ parseValueOpt get_float j "distance" = .ok f.distance := by
  unfold from_json_FOV at h
  split at h
  · cases h
  · obtain ⟨horizontal, h1, h⟩ := Res.bind_eq_ok h
    obtain ⟨vertical, h2, h⟩ := Res.bind_eq_ok h
    obtain ⟨down, h3, h⟩ := Res.bind_eq_ok h
    obtain ⟨left, h4, h⟩ := Res.bind_eq_ok h
    obtain ⟨right, h5, h⟩ := Res.bind_eq_ok h
    obtain ⟨up, h6, h⟩ := Res.bind_eq_ok h
    obtain ⟨distance, h7, h⟩ := Res.bind_eq_ok h
    cases h
    exact ⟨horizontal, vertical, down, left, right, up, h1, h2, h3, h4, h5, h6, rfl, rfl,
      rfl, rfl, h7⟩

theorem halfFov_of_found {v : Json} {x : ℚ} (cur : ℚ × ℚ) (h : get_float v = .ok x) :
    halfFov (some v) cur = .ok (x / 2, x / 2) := by
  simp only [halfFov, h, Res.bind_ok]
  rfl

theorem overrideFloat_of_found {v : Json} {x : ℚ} (cur : ℚ) (h : get_float v = .ok x) :
    overrideFloat (some v) cur = .ok x := by
  simp only [overrideFloat, h]

/-! ## C1 and C2: the keys `version` and `masteraddress` -/

/-- C1: when the configuration text parses to a JSON object that has no `version` key,
`readJsonConfig` throws `std::runtime_error("Missing 'version' information")`, whatever
else the object holds, and returns no cluster. -/
theorem readJsonConfig_missing_version (ext : Ext) (configuration : String)
    (kvs : List (String × Json))
    (hparse : ext.parse configuration = .ok (.obj kvs))
    (hversion : (Json.obj kvs).find "version" = none) :
    readJsonConfig ext configuration
        = .error (.runtime_error "Missing 'version' information")
      ∧ (Exn.runtime_error "Missing 'version' information").what
        = "Missing 'version' information"
      ∧ ∀ cluster, readJsonConfig ext configuration ≠ .ok cluster := by
  have h : readJsonConfig ext configuration
      = .error (.runtime_error "Missing 'version' information") := by
    simp only [readJsonConfig, hparse, hversion, Res.bind_ok, Option.isNone_none, if_true]
  refine ⟨h, rfl, ?_⟩
  intro cluster hc
  rw [h] at hc
  cases hc

theorem readJsonConfig_missing_version_witness :
    (Ext.ofDocs [("{}", docEmpty)]).parse "{}" = .ok (.obj [])
      ∧ (Json.obj []).find "version" = none
      ∧ readJsonConfig (Ext.ofDocs [("{}", docEmpty)]) "{}"
        = .error (.runtime_error "Missing 'version' information") :=
  ⟨rfl, rfl, (readJsonConfig_missing_version (Ext.ofDocs [("{}", docEmpty)]) "{}" []
    rfl rfl).1⟩

/-- C2: when the configuration text parses to a JSON object with a `version` key and
without a `masteraddress` key, `readJsonConfig` throws the ReadConfig error 6084 whose
message is "[ReadConfig] (6084): Cannot find master address", whatever else the object
holds. -/
theorem readJsonConfig_missing_masteraddress (ext : Ext) (configuration : String)
    (kvs : List (String × Json))
    (hparse : ext.parse configuration = .ok (.obj kvs))
    (hversion : ((Json.obj kvs).find "version").isSome = true)
    (hmaster : (Json.obj kvs).find "masteraddress" = none) :
    readJsonConfig ext configuration = .error (.Error 6084 "Cannot find master address")
      ∧ (Exn.Error 6084 "Cannot find master address").what
        = "[ReadConfig] (6084): Cannot find master address" := by
  refine ⟨?_, by decide⟩
  obtain ⟨v, hv⟩ := Option.isSome_iff_exists.mp hversion
  simp only [readJsonConfig, hparse, hv, from_json_Cluster, parseMasterAddress, hmaster,
    Res.bind_ok, Res.bind_error, Option.isNone_some, Bool.false_eq_true, if_false]

theorem readJsonConfig_missing_masteraddress_witness :
    (Ext.ofDocs [("v1", docVersionOnly)]).parse "v1" = .ok (.obj [("version", .int 1)])
      ∧ ((Json.obj [("version", .int 1)]).find "version").isSome = true
      ∧ (Json.obj [("version", .int 1)]).find "masteraddress" = none
      ∧ readJsonConfig (Ext.ofDocs [("v1", docVersionOnly)]) "v1"
        = .error (.Error 6084 "Cannot find master address") :=
  ⟨rfl, rfl, rfl, (readJsonConfig_missing_masteraddress (Ext.ofDocs [("v1", docVersionOnly)])
    "v1" [("version", .int 1)] rfl rfl rfl).1⟩

/-! ## C3: the keys `address` and `port` of a node -/

/-- C3, counterexample: a node that has an `address` and no `port` need not fail with error
6041.  In `docNodeAddressNumber` the only node is `{"address": 5}`; the sections before
`nodes` parse and no node comes before it, yet `readJsonConfig` throws the type error 302
of `get_to` on the address and never looks for `port`. -/
theorem readJsonConfig_node_address_number :
    (Ext.ofDocs [("doc", docNodeAddressNumber)]).parse "doc" = .ok docNodeAddressNumber
      ∧ (docNodeAddressNumber.find "version").isSome = true
      ∧ reachesNode (Ext.ofDocs [("doc", docNodeAddressNumber)]) docNodeAddressNumber []
          (.obj [("address", .int 5)]) []
      ∧ ((Json.obj [("address", .int 5)]).find "address").isSome = true
      ∧ (Json.obj [("address", .int 5)]).find "port" = none
      ∧ readJsonConfig (Ext.ofDocs [("doc", docNodeAddressNumber)]) "doc"
          = .error (.json_exception 302)
      ∧ readJsonConfig (Ext.ofDocs [("doc", docNodeAddressNumber)]) "doc"
          ≠ .error (.Error 6041 "Missing field port in node") := by
  refine ⟨rfl, rfl, ⟨rfl, rfl, by simp⟩, rfl, rfl, rfl, ?_⟩
  intro h
  have h302 : readJsonConfig (Ext.ofDocs [("doc", docNodeAddressNumber)]) "doc"
      = .error (.json_exception 302) := rfl
  rw [h302] at h
  cases h

/-- C3, amended: in a configuration with `version` whose sections before `nodes` parse
(so `masteraddress` is a string) and whose earlier nodes are valid, a node without an
`address` key makes `readJsonConfig` fail with error 6040 "Missing field address in node",
whether or not it has a `port`; a node whose `address` is a string and which has no `port`
key makes it fail with error 6041 "Missing field port in node". -/
theorem readJsonConfig_node_address_port (ext : Ext) (s : String) (j : Json)
    (pre : List Json) (node : Json) (post : List Json)
    (hparse : ext.parse s = .ok j) (hversion : (j.find "version").isSome = true)
    (hreach : reachesNode ext j pre node post) :
    (node.find "address" = none →
        readJsonConfig ext s = .error (.Error 6040 "Missing field address in node"))
      ∧ (∀ a, node.find "address" = some (.str a) → node.find "port" = none →
        readJsonConfig ext s = .error (.Error 6041 "Missing field port in node")) := by
  constructor
  · intro haddr
    apply readJsonConfig_error_of_cluster ext s j _ hparse hversion
    apply from_json_Cluster_error_of_node ext j pre node post _ hreach
    simp only [from_json_Node, parseNodeAddress, haddr, Res.bind_error]
  · intro a haddr hport
    apply readJsonConfig_error_of_cluster ext s j _ hparse hversion
    apply from_json_Cluster_error_of_node ext j pre node post _ hreach
    simp only [from_json_Node, parseNodeAddress, parseNodePort, haddr, hport, get_string,
      Res.bind_ok, Res.bind_error]

theorem readJsonConfig_node_address_port_witness :
    ((Ext.ofDocs [("doc", docNodeWithoutPort)]).parse "doc" = .ok docNodeWithoutPort
      ∧ (docNodeWithoutPort.find "version").isSome = true
      ∧ reachesNode (Ext.ofDocs [("doc", docNodeWithoutPort)]) docNodeWithoutPort []
          (.obj [("address", .str "localhost")]) []
      ∧ readJsonConfig (Ext.ofDocs [("doc", docNodeWithoutPort)]) "doc"
          = .error (.Error 6041 "Missing field port in node"))
      ∧ ((Ext.ofDocs [("doc", docNodeWithoutAddress)]).parse "doc"
          = .ok docNodeWithoutAddress
        ∧ (docNodeWithoutAddress.find "version").isSome = true
        ∧ reachesNode (Ext.ofDocs [("doc", docNodeWithoutAddress)]) docNodeWithoutAddress []
            (.obj [("port", .int 1)]) []
        ∧ readJsonConfig (Ext.ofDocs [("doc", docNodeWithoutAddress)]) "doc"
            = .error (.Error 6040 "Missing field address in node")) :=
  ⟨⟨rfl, rfl, ⟨rfl, rfl, by simp⟩,
    (readJsonConfig_node_address_port (Ext.ofDocs [("doc", docNodeWithoutPort)]) "doc"
      docNodeWithoutPort [] (.obj [("address", .str "localhost")]) [] rfl rfl
      ⟨rfl, rfl, by simp⟩).2 "localhost" rfl rfl⟩,
   ⟨rfl, rfl, ⟨rfl, rfl, by simp⟩,
    (readJsonConfig_node_address_port (Ext.ofDocs [("doc", docNodeWithoutAddress)]) "doc"
      docNodeWithoutAddress [] (.obj [("port", .int 1)]) [] rfl rfl
      ⟨rfl, rfl, by simp⟩).1 rfl⟩⟩

/-! ## C4: the key `size` of a window -/

/-- C4: in a configuration whose parsing reaches the window `w` of the node `node`
(everything read before it being valid), if `w` has no `size` key and the keys it has are
well-formed, `readJsonConfig` throws `std::runtime_error` with the message
"Could not find required key 'size'".  Every other key of a window may be left out:
leaving out any keys except `size` from a window that parses gives a window that parses. -/
theorem readJsonConfig_window_size (ext : Ext) (s : String) (j : Json) (pre : List Json)
    (node : Json) (post wpre : List Json) (w : Json) (wpost : List Json)
    (hparse : ext.parse s = .ok j) (hversion : (j.find "version").isSome = true)
    (hnode : reachesNode ext j pre node post)
    (hwindow : reachesWindow ext node wpre w wpost)
    (hkeys : windowHeadParses ext w = true) (hsize : w.find "size" = none) :
    readJsonConfig ext s = .error (.runtime_error "Could not find required key 'size'")
      ∧ ∀ w₁ w₂ : Json, (from_json_Window ext w₁).succeeds = true →
          (∀ key, w₂.find key = w₁.find key ∨ (key ≠ "size" ∧ w₂.find key = none)) →
          (from_json_Window ext w₂).succeeds = true := by
  refine ⟨?_, fun w₁ w₂ h hk => from_json_Window_succeeds_of_omit ext w₁ w₂ h hk⟩
  apply readJsonConfig_error_of_cluster ext s j _ hparse hversion
  apply from_json_Cluster_error_of_node ext j pre node post _ hnode
  apply from_json_Node_error_of_window ext node wpre w wpost _ hwindow
  exact from_json_Window_missing_size ext w hkeys hsize

theorem readJsonConfig_window_size_witness :
    (Ext.ofDocs [("doc", docWindowWithoutSize)]).parse "doc" = .ok docWindowWithoutSize
      ∧ (docWindowWithoutSize.find "version").isSome = true
      ∧ reachesNode (Ext.ofDocs [("doc", docWindowWithoutSize)]) docWindowWithoutSize []
          (.obj [("address", .str "localhost"), ("port", .int 123),
                 ("windows", .arr [.obj []])]) []
      ∧ reachesWindow (Ext.ofDocs [("doc", docWindowWithoutSize)])
          (.obj [("address", .str "localhost"), ("port", .int 123),
                 ("windows", .arr [.obj []])]) [] (.obj []) []
      ∧ windowHeadParses (Ext.ofDocs [("doc", docWindowWithoutSize)]) (.obj []) = true
      ∧ (Json.obj []).find "size" = none
      ∧ readJsonConfig (Ext.ofDocs [("doc", docWindowWithoutSize)]) "doc"
          = .error (.runtime_error "Could not find required key 'size'") :=
  ⟨rfl, rfl, ⟨rfl, rfl, by simp⟩, ⟨rfl, rfl, by simp⟩, rfl, rfl,
    (readJsonConfig_window_size (Ext.ofDocs [("doc", docWindowWithoutSize)]) "doc"
      docWindowWithoutSize []
      (.obj [("address", .str "localhost"), ("port", .int 123),
             ("windows", .arr [.obj []])]) [] [] (.obj []) []
      rfl rfl ⟨rfl, rfl, by simp⟩ ⟨rfl, rfl, by simp⟩ rfl rfl).1⟩

/-! ## C5: the field of view of a planar projection -/

/-- C5: parsing a JSON PlanarProjection raises error 6000 "Missing specification of
field-of-view values" exactly when the projection has no `fov` key, or its `fov` lacks a
horizontal specification (`hfov`, or both `left` and `right`), or it lacks a vertical
specification (`vfov`, or both `down` and `up`).  In particular a `fov` without `hfov` and
`vfov` that misses one of down, left, right, up is rejected with 6000. -/
theorem from_json_PlanarProjection_fov_required (ext : Ext) (j : Json)
    (p : PlanarProjection) :
    (from_json_PlanarProjection ext j p
        = .error (.Error 6000 "Missing specification of field-of-view values")
      ↔ (j.find "fov" = none
          ∨ ∃ fov, j.find "fov" = some fov
              ∧ ((fov.find "hfov" = none
                    ∧ (fov.find "left" = none ∨ fov.find "right" = none))
                ∨ (fov.find "vfov" = none
                    ∧ (fov.find "down" = none ∨ fov.find "up" = none)))))
      ∧ (∀ fov, j.find "fov" = some fov → fov.find "hfov" = none →
          fov.find "vfov" = none →
          (fov.find "down" = none ∨ fov.find "left" = none ∨ fov.find "right" = none
            ∨ fov.find "up" = none) →
          from_json_PlanarProjection ext j p
            = .error (.Error 6000 "Missing specification of field-of-view values"))
      ∧ (Exn.Error 6000 "Missing specification of field-of-view values").what
          = "[ReadConfig] (6000): Missing specification of field-of-view values" := by
  have hiff := from_json_PlanarProjection_6000_iff ext j p
  simp only [hasHorizontal_eq_false, hasVertical_eq_false] at hiff
  refine ⟨hiff, ?_, by decide⟩
  intro fov hfov hh hv hmiss
  refine hiff.mpr (Or.inr ⟨fov, hfov, ?_⟩)
  rcases hmiss with h | h | h | h
  · exact Or.inr ⟨hv, Or.inl h⟩
  · exact Or.inl ⟨hh, Or.inl h⟩
  · exact Or.inl ⟨hh, Or.inr h⟩
  · exact Or.inr ⟨hv, Or.inr h⟩

theorem from_json_PlanarProjection_fov_required_witness :
    from_json_PlanarProjection (Ext.ofDocs []) projPlanarWithoutDown (Ext.ofDocs []).proj0
      = .error (.Error 6000 "Missing specification of field-of-view values") :=
  (from_json_PlanarProjection_fov_required (Ext.ofDocs []) projPlanarWithoutDown
    (Ext.ofDocs []).proj0).2.1
    (.obj [("left", .float 1), ("right", .float 1), ("up", .float 1)]) rfl rfl rfl
    (Or.inl rfl)

/-! ## C6: the corners of a projection plane -/

/-- C6: parsing a JSON ProjectionPlane raises error 6010 "Failed parsing coordinates.
Missing elements" exactly when one of the keys `lowerleft`, `upperleft`, `upperright` is
absent; when the three are present and each is a well-formed vector, the result holds the
three vectors as they are given. -/
theorem from_json_ProjectionPlane_corners (j : Json) :
    (from_json_ProjectionPlane j
        = .error (.Error 6010 "Failed parsing coordinates. Missing elements")
      ↔ (j.find "lowerleft" = none ∨ j.find "upperleft" = none
          ∨ j.find "upperright" = none))
      ∧ (∀ a b c ll ul ur, j.find "lowerleft" = some a → j.find "upperleft" = some b →
          j.find "upperright" = some c → from_json_vec3 a = .ok ll →
          from_json_vec3 b = .ok ul → from_json_vec3 c = .ok ur →
          from_json_ProjectionPlane j
            = .ok { lowerLeft := ll, upperLeft := ul, upperRight := ur })
      ∧ (Exn.Error 6010 "Failed parsing coordinates. Missing elements").what
          = "[ReadConfig] (6010): Failed parsing coordinates. Missing elements" := by
  refine ⟨?_, ?_, by decide⟩
  · cases hll : j.find "lowerleft" with
    | none => simp [from_json_ProjectionPlane, hll]
    | some a =>
      cases hul : j.find "upperleft" with
      | none => simp [from_json_ProjectionPlane, hll, hul]
      | some b =>
        cases hur : j.find "upperright" with
        | none => simp [from_json_ProjectionPlane, hll, hul, hur]
        | some c =>
          have honly : (from_json_ProjectionPlane j).onlyJson := by
            unfold from_json_ProjectionPlane
            simp only [hll, hul, hur, Option.isNone_some, Bool.or_self, Bool.false_eq_true,
              if_false]
            repeat' first
              | exact Res.onlyJson_pure _
              | exact atKey_onlyJson _ _
              | exact from_json_vec3_onlyJson _
              | refine Res.onlyJson_bind _ _ ?_ (fun _ => ?_)
          constructor
          · intro h
            obtain ⟨id, hid⟩ := honly _ h
            cases hid
          · intro h
            simp at h
  · intro a b c ll ul ur hll hul hur ha hb hc
    simp only [from_json_ProjectionPlane, hll, hul, hur, Option.isNone_some, Bool.or_self,
      Bool.false_eq_true, if_false, atKey_of_find hll, atKey_of_find hul, atKey_of_find hur,
      Res.bind_ok, ha, hb, hc]
    rfl

theorem from_json_ProjectionPlane_corners_witness :
    from_json_ProjectionPlane projPlaneComplete
      = .ok { lowerLeft := { x := 0, y := 0, z := 1 }, upperLeft := { x := 0, y := 2, z := 1 },
              upperRight := { x := 3, y := 2, z := 1 } } :=
  (from_json_ProjectionPlane_corners projPlaneComplete).2.1
    (.obj [("x", .float 0), ("y", .float 0), ("z", .float 1)])
    (.obj [("x", .float 0), ("y", .float 2), ("z", .float 1)])
    (.obj [("x", .float 3), ("y", .float 2), ("z", .float 1)])
    { x := 0, y := 0, z := 1 } { x := 0, y := 2, z := 1 } { x := 3, y := 2, z := 1 }
    rfl rfl rfl rfl rfl rfl

/-! ## C7: the crop of a fisheye projection -/

/-- C7, counterexample: a `crop` that lacks keys need not fail with "Missing key ...", and a
`crop` with all four keys need not be accepted.
* `{"crop": {"left": "abc"}}` lacks right, bottom and top, but `value("left", ...)` throws
  the type error 302 before `right` is looked for;
* `{"fov": "wide", "crop": {}}` fails with the type error 302 of `fov`, which is read before
  `crop`;
* a crop with four numbers is rejected with the type error 302 when `keepaspectratio`, read
  after `crop`, is a number. -/
theorem from_json_FisheyeProjection_crop_counterexample :
    (projFisheyeCropLeftString.find "crop" = some (.obj [("left", .str "abc")])
      ∧ (Json.obj [("left", .str "abc")]).find "right" = none
      ∧ from_json_FisheyeProjection (Ext.ofDocs []) projFisheyeCropLeftString
          = .error (.json_exception 302))
      ∧ (projFisheyeFovString.find "crop" = some (.obj [])
        ∧ (Json.obj []).find "left" = none
        ∧ from_json_FisheyeProjection (Ext.ofDocs []) projFisheyeFovString
            = .error (.json_exception 302))
      ∧ (projFisheyeKeepAspectNumber.find "crop"
            = some (.obj [("left", .float 1), ("right", .float 2), ("bottom", .float 3),
                          ("top", .float 4)])
        ∧ from_json_FisheyeProjection (Ext.ofDocs []) projFisheyeKeepAspectNumber
            = .error (.json_exception 302)) :=
  ⟨⟨rfl, rfl, rfl⟩, ⟨rfl, rfl, rfl⟩, ⟨rfl, rfl⟩⟩

/-- C7, amended: for every JSON FisheyeProjection whose keys read before `crop` (fov,
quality, interpolation, diameter, tilt) are missing or well-formed and that has a `crop`:
if the crop lacks one of left, right, bottom, top and the keys in front of the first missing
one are numbers, parsing fails with `std::runtime_error` "Missing key '<k>' in
FisheyeProjection/Crop" for the first missing key `<k>` in the order left, right, bottom,
top; if the crop has the four keys with numbers and the keys read after `crop`
(keepaspectratio, offset, background) are missing or well-formed, the projection is
accepted and its crop stores the four given values. -/
theorem from_json_FisheyeProjection_crop_keys (ext : Ext) (j crop : Json)
    (hhead : fisheyeHeadParses j = true) (hcrop : j.find "crop" = some crop) :
    (crop.find "left" = none →
        from_json_FisheyeProjection ext j
          = .error (.runtime_error "Missing key 'left' in FisheyeProjection/Crop"))
      ∧ (∀ vl l, crop.find "left" = some vl → get_float vl = .ok l →
          crop.find "right" = none →
          from_json_FisheyeProjection ext j
            = .error (.runtime_error "Missing key 'right' in FisheyeProjection/Crop"))
      ∧ (∀ vl l vr r, crop.find "left" = some vl → get_float vl = .ok l →
          crop.find "right" = some vr → get_float vr = .ok r →
          crop.find "bottom" = none →
          from_json_FisheyeProjection ext j
            = .error (.runtime_error "Missing key 'bottom' in FisheyeProjection/Crop"))
      ∧ (∀ vl l vr r vb b, crop.find "left" = some vl → get_float vl = .ok l →
          crop.find "right" = some vr → get_float vr = .ok r →
          crop.find "bottom" = some vb → get_float vb = .ok b →
          crop.find "top" = none →
          from_json_FisheyeProjection ext j
            = .error (.runtime_error "Missing key 'top' in FisheyeProjection/Crop"))
      ∧ (∀ vl l vr r vb b vt t, crop.find "left" = some vl → get_float vl = .ok l →
          crop.find "right" = some vr → get_float vr = .ok r →
          crop.find "bottom" = some vb → get_float vb = .ok b →
          crop.find "top" = some vt → get_float vt = .ok t →
          fisheyeTailParses ext j = true →
          ∃ p, from_json_FisheyeProjection ext j = .ok p
            ∧ p.crop = some { left := l, right := r, bottom := b, top := t }) := by
  refine ⟨?_, ?_, ?_, ?_, ?_⟩
  · intro hl
    apply from_json_FisheyeProjection_error_of_crop ext j crop _ hhead hcrop
    simp only [from_json_FisheyeProjection_crop, cropValue_of_missing _ hl, Res.bind_error]
    rfl
  · intro vl l hl gl hr
    apply from_json_FisheyeProjection_error_of_crop ext j crop _ hhead hcrop
    simp only [from_json_FisheyeProjection_crop, cropValue_of_find _ hl, gl,
      cropValue_of_missing _ hr, Res.bind_ok, Res.bind_error]
    rfl
  · intro vl l vr r hl gl hr gr hb
    apply from_json_FisheyeProjection_error_of_crop ext j crop _ hhead hcrop
    simp only [from_json_FisheyeProjection_crop, cropValue_of_find _ hl, gl,
      cropValue_of_find _ hr, gr, cropValue_of_missing _ hb, Res.bind_ok, Res.bind_error]
    rfl
  · intro vl l vr r vb b hl gl hr gr hb gb ht
    apply from_json_FisheyeProjection_error_of_crop ext j crop _ hhead hcrop
    simp only [from_json_FisheyeProjection_crop, cropValue_of_find _ hl, gl,
      cropValue_of_find _ hr, gr, cropValue_of_find _ hb, gb, cropValue_of_missing _ ht,
      Res.bind_ok, Res.bind_error]
    rfl
  · intro vl l vr r vb b vt t hl gl hr gr hb gb ht gt htail
    simp only [fisheyeHeadParses, fisheyeTailParses, Bool.and_eq_true] at hhead htail
    obtain ⟨h1, h2, h3, h4, h5⟩ := hhead
    obtain ⟨h6, h7, h8⟩ := htail
    obtain ⟨a1, e1⟩ := Res.exists_ok_of_succeeds h1
    obtain ⟨a2, e2⟩ := Res.exists_ok_of_succeeds h2
    obtain ⟨a3, e3⟩ := Res.exists_ok_of_succeeds h3
    obtain ⟨a4, e4⟩ := Res.exists_ok_of_succeeds h4
    obtain ⟨a5, e5⟩ := Res.exists_ok_of_succeeds h5
    obtain ⟨a6, e6⟩ := Res.exists_ok_of_succeeds h6
    obtain ⟨a7, e7⟩ := Res.exists_ok_of_succeeds h7
    obtain ⟨a8, e8⟩ := Res.exists_ok_of_succeeds h8
    have hc : ifFound j "crop" (from_json_FisheyeProjection_crop ext)
        = .ok (some { left := l, right := r, bottom := b, top := t }) := by
      simp only [ifFound, hcrop, from_json_FisheyeProjection_crop, cropValue_of_find _ hl, gl,
        cropValue_of_find _ hr, gr, cropValue_of_find _ hb, gb, cropValue_of_find _ ht, gt,
        Res.bind_ok]
      rfl
    simp only [from_json_FisheyeProjection, e1, e2, e3, e4, e5, e6, e7, e8, hc, Res.bind_ok]
    exact ⟨_, rfl, rfl⟩

theorem from_json_FisheyeProjection_crop_keys_witness :
    fisheyeHeadParses projFisheyeCropWithoutRight = true
      ∧ projFisheyeCropWithoutRight.find "crop"
          = some (.obj [("left", .float 1), ("bottom", .float 1), ("top", .float 1)])
      ∧ from_json_FisheyeProjection (Ext.ofDocs []) projFisheyeCropWithoutRight
          = .error (.runtime_error "Missing key 'right' in FisheyeProjection/Crop") :=
  ⟨rfl, rfl,
    (from_json_FisheyeProjection_crop_keys (Ext.ofDocs []) projFisheyeCropWithoutRight
      (.obj [("left", .float 1), ("bottom", .float 1), ("top", .float 1)]) rfl rfl).2.1
      (.float 1) 1 rfl rfl rfl⟩

/-! ## C8: the geometry of a spherical mirror projection -/

/-- C8, counterexample: a spherical mirror projection that does not supply its four paths
need not fail with error 6100.
* With `"geometry": {"left", "right", "top"}` (no `bottom`) `readJsonConfig` throws the
  out-of-range exception 403 of `it->at("bottom")`, which is not error 6100 and not even a
  `std::runtime_error`;
* without `geometry` and with `"quality": "bogus"` it throws error 6087 of the quality,
  which is read before the geometry. -/
theorem readJsonConfig_spherical_mirror_counterexample :
    (projSphericalGeometryWithoutBottom.find "geometry"
        = some (.obj [("left", .str "abc"), ("right", .str "abc"), ("top", .str "abc")])
      ∧ (Json.obj [("left", .str "abc"), ("right", .str "abc"),
          ("top", .str "abc")]).find "bottom" = none
      ∧ readJsonConfig
          (Ext.ofDocs [("doc", docWithProjection projSphericalGeometryWithoutBottom)]) "doc"
          = .error (.json_exception 403)
      ∧ (Exn.json_exception 403).isRuntimeError = false)
      ∧ (projSphericalBadQuality.find "geometry" = none
        ∧ readJsonConfig (Ext.ofDocs [("doc", docWithProjection projSphericalBadQuality)])
            "doc"
            = .error (.Error 6087 "Unknown resolution bogus for cube map")) :=
  ⟨⟨rfl, rfl, rfl, rfl⟩, ⟨rfl, rfl⟩⟩

/-- C8, amended: in a configuration whose parsing reaches a projection of type
SphericalMirrorProjection (everything read before it being valid), if the projection has no
`geometry` key and its `quality`, `tilt` and `background` are missing or well-formed,
`readJsonConfig` fails with the ReadConfig error 6100, message "[ReadConfig] (6100):
Missing geometry paths". -/
theorem readJsonConfig_spherical_mirror_geometry (ext : Ext) (s : String) (j proj : Json)
    (hparse : ext.parse s = .ok j) (hversion : (j.find "version").isSome = true)
    (hreach : reachesProjection ext j proj)
    (htype : proj.find "type" = some (.str "SphericalMirrorProjection"))
    (hhead : sphericalMirrorHeadParses proj = true)
    (hgeometry : proj.find "geometry" = none) :
    readJsonConfig ext s = .error (.Error 6100 "Missing geometry paths")
      ∧ (Exn.Error 6100 "Missing geometry paths").what
          = "[ReadConfig] (6100): Missing geometry paths" := by
  refine ⟨?_, by decide⟩
  apply readJsonConfig_error_of_projection ext s j proj _ hparse hversion hreach
  rw [from_json_Viewport_projection_spherical ext proj htype]
  have h : from_json_SphericalMirrorProjection proj
      = .error (.Error 6100 "Missing geometry paths") := by
    simp only [sphericalMirrorHeadParses, Bool.and_eq_true] at hhead
    unfold from_json_SphericalMirrorProjection
    repeat (refine Res.bind_eq_error_of _ _ _ (by simp only [hhead]) (fun _ => ?_))
    simp only [parseGeometry, hgeometry, Res.bind_error]
  rw [h]
  rfl

theorem readJsonConfig_spherical_mirror_geometry_witness :
    (Ext.ofDocs [("doc", docWithProjection projSphericalWithoutGeometry)]).parse "doc"
        = .ok (docWithProjection projSphericalWithoutGeometry)
      ∧ sphericalMirrorHeadParses projSphericalWithoutGeometry = true
      ∧ projSphericalWithoutGeometry.find "geometry" = none
      ∧ readJsonConfig (Ext.ofDocs [("doc", docWithProjection projSphericalWithoutGeometry)])
          "doc" = .error (.Error 6100 "Missing geometry paths") :=
  ⟨rfl, rfl, rfl,
    (readJsonConfig_spherical_mirror_geometry
      (Ext.ofDocs [("doc", docWithProjection projSphericalWithoutGeometry)]) "doc"
      (docWithProjection projSphericalWithoutGeometry) projSphericalWithoutGeometry
      rfl rfl (docWithProjection_reaches _ _) rfl rfl rfl).1⟩

/-! ## C9: the key `mappingspoutname` of a spout output projection -/

/-- C9, counterexample: the projection `{"type": "SpoutOutputProjection", "drawMain": 1}` has
no `mappingspoutname`, no `quality` and no `mapping`, yet parsing it does not fail on
`mappingspoutname`: `drawMain` is read first and `get<bool>` throws the type error 302. -/
theorem from_json_SpoutOutputProjection_drawMain_number :
    projSpoutOutputDrawMainNumber.find "mappingspoutname" = none
      ∧ projSpoutOutputDrawMainNumber.find "quality" = none
      ∧ projSpoutOutputDrawMainNumber.find "mapping" = none
      ∧ from_json_SpoutOutputProjection projSpoutOutputDrawMainNumber
          = .error (.json_exception 302) :=
  ⟨rfl, rfl, rfl, rfl⟩

/-- C9, amended: for every JSON SpoutOutputProjection without a `mappingspoutname` key whose
`quality`, `drawMain` and `mapping` are missing or valid, parsing fails with
`std::runtime_error` "Could not find required key 'mappingspoutname'". -/
theorem from_json_SpoutOutputProjection_name_required (j : Json)
    (hhead : spoutOutputHeadParses j = true)
    (hname : j.find "mappingspoutname" = none) :
    from_json_SpoutOutputProjection j
      = .error (.runtime_error "Could not find required key 'mappingspoutname'") := by
  simp only [spoutOutputHeadParses, Bool.and_eq_true] at hhead
  unfold from_json_SpoutOutputProjection
  repeat (refine Res.bind_eq_error_of _ _ _ (by simp only [hhead]) (fun _ => ?_))
  simp only [parseValue, hname, Res.bind_error]
  rfl

theorem from_json_SpoutOutputProjection_name_required_witness :
    spoutOutputHeadParses projSpoutOutputWithoutName = true
      ∧ projSpoutOutputWithoutName.find "mappingspoutname" = none
      ∧ from_json_SpoutOutputProjection projSpoutOutputWithoutName
          = .error (.runtime_error "Could not find required key 'mappingspoutname'") :=
  ⟨rfl, rfl, from_json_SpoutOutputProjection_name_required projSpoutOutputWithoutName rfl rfl⟩

/-! ## C10: the tracking of a user -/

/-- C10, counterexample: the user `{"name": 5, "tracking": {}}` has a `tracking` object
without `tracker`, yet parsing it does not fail with "Missing key 'tracker' in User": `name`
is read first and `get<std::string>` throws the type error 302. -/
theorem from_json_User_name_number :
    userNameNumber.find "tracking" = some (.obj [])
      ∧ (Json.obj []).find "tracker" = none
      ∧ from_json_User (Ext.ofDocs []) userNameNumber = .error (.json_exception 302) :=
  ⟨rfl, rfl, rfl⟩

/-- C10, amended: for every JSON user object whose `name`, `eyeseparation`, `pos`, `matrix`
and `orientation` are missing or well-formed and that has a `tracking` object, parsing fails
with `std::runtime_error` "Missing key 'tracker' in User" when `tracking` has no `tracker`
key (whether or not `device` is present), and with "Missing key 'device' in User" when it
has `tracker` but no `device`; when both are present and are strings the user's tracking
holds exactly the two given strings. -/
theorem from_json_User_tracking_keys (ext : Ext) (j tracking : Json)
    (hhead : userHeadParses ext j = true) (htracking : j.find "tracking" = some tracking) :
    (tracking.find "tracker" = none →
        from_json_User ext j = .error (.runtime_error "Missing key 'tracker' in User"))
      ∧ (∀ t, tracking.find "tracker" = some t → tracking.find "device" = none →
          from_json_User ext j = .error (.runtime_error "Missing key 'device' in User"))
      ∧ (∀ t d, tracking.find "tracker" = some (.str t) →
          tracking.find "device" = some (.str d) →
          ∃ u, from_json_User ext j = .ok u
            ∧ u.tracking = some { tracker := t, device := d }) := by
  have herr : ∀ e, from_json_User_tracking tracking = .error e →
      from_json_User ext j = .error e := by
    intro e h
    simp only [userHeadParses, Bool.and_eq_true] at hhead
    unfold from_json_User
    repeat (refine Res.bind_eq_error_of _ _ _ (by simp only [hhead]) (fun _ => ?_))
    simp only [ifFound, htracking, h, Res.bind_error]
  refine ⟨?_, ?_, ?_⟩
  · intro ht
    apply herr
    simp only [from_json_User_tracking, ht]
  · intro t ht hd
    apply herr
    simp only [from_json_User_tracking, ht, hd]
  · intro t d ht hd
    simp only [userHeadParses, Bool.and_eq_true] at hhead
    obtain ⟨h1, h2, h3, h4, h5⟩ := hhead
    obtain ⟨a1, e1⟩ := Res.exists_ok_of_succeeds h1
    obtain ⟨a2, e2⟩ := Res.exists_ok_of_succeeds h2
    obtain ⟨a3, e3⟩ := Res.exists_ok_of_succeeds h3
    obtain ⟨a4, e4⟩ := Res.exists_ok_of_succeeds h4
    obtain ⟨a5, e5⟩ := Res.exists_ok_of_succeeds h5
    have ht' : ifFound j "tracking" from_json_User_tracking
        = .ok (some { tracker := t, device := d }) := by
      simp only [ifFound, htracking, from_json_User_tracking, ht, hd, get_string, Res.bind_ok]
      rfl
    simp only [from_json_User, e1, e2, e3, e4, e5, ht', Res.bind_ok]
    exact ⟨_, rfl, rfl⟩

theorem from_json_User_tracking_keys_witness :
    userHeadParses (Ext.ofDocs []) userTrackingComplete = true
      ∧ userTrackingComplete.find "tracking"
          = some (.obj [("tracker", .str "head"), ("device", .str "glasses")])
      ∧ ∃ u, from_json_User (Ext.ofDocs []) userTrackingComplete = .ok u
          ∧ u.tracking = some { tracker := "head", device := "glasses" } :=
  ⟨rfl, rfl,
    (from_json_User_tracking_keys (Ext.ofDocs []) userTrackingComplete
      (.obj [("tracker", .str "head"), ("device", .str "glasses")]) rfl rfl).2.2
      "head" "glasses" rfl rfl⟩

/-! ## C11: the key `name` of a tracker -/

/-- C11: for every JSON tracker without a `name` key, parsing fails with the ReadConfig error
6070, message "[ReadConfig] (6070): Tracker is missing 'name'", whatever the other keys of
the tracker are. -/
theorem from_json_Tracker_name_required (ext : Ext) (j : Json)
    (hname : j.find "name" = none) :
    from_json_Tracker ext j = .error (.Error 6070 "Tracker is missing 'name'")
      ∧ (Exn.Error 6070 "Tracker is missing 'name'").what
          = "[ReadConfig] (6070): Tracker is missing 'name'" := by
  refine ⟨?_, by decide⟩
  simp only [from_json_Tracker, parseTrackerName, hname, Res.bind_error]

theorem from_json_Tracker_name_required_witness :
    trackerMalformedWithoutName.find "name" = none
      ∧ from_json_Tracker (Ext.ofDocs []) trackerMalformedWithoutName
          = .error (.Error 6070 "Tracker is missing 'name'")
      ∧ readJsonConfig (Ext.ofDocs [("doc", docTrackerWithoutName)]) "doc"
          = .error (.Error 6070 "Tracker is missing 'name'") :=
  ⟨rfl, (from_json_Tracker_name_required (Ext.ofDocs []) trackerMalformedWithoutName rfl).1,
    rfl⟩

/-! ## C17: half angles of a field of view -/

/-- C17: let the JSON `fov` object `j` parse to the field of view `f`.  If `j` gives
`hfov = h`, then `f.right = h/2` unless `right` is given and `f.left = -(h/2)` unless `left`
is given; likewise `vfov = v` gives `f.up = v/2` and `f.down = -(v/2)`.  A specific key
takes precedence over `hfov`/`vfov` for its side: `right = r` gives `f.right = r`,
`up = u` gives `f.up = u`, `left = l` gives `f.left = -l` and `down = d` gives
`f.down = -d` (down and left are stored negated). -/
theorem from_json_FOV_half_angles (j : Json) (f0 f : PlanarProjection.FOV)
    (hparse : from_json_FOV j f0 = .ok f) :
    (∀ vh h, j.find "hfov" = some vh → get_float vh = .ok h →
        (j.find "right" = none → f.right = h / 2)
          ∧ (j.find "left" = none → f.left = -(h / 2)))
      ∧ (∀ vv v, j.find "vfov" = some vv → get_float vv = .ok v →
        (j.find "up" = none → f.up = v / 2) ∧ (j.find "down" = none → f.down = -(v / 2)))
      ∧ (∀ vl l, j.find "left" = some vl → get_float vl = .ok l → f.left = -l)
      ∧ (∀ vr r, j.find "right" = some vr → get_float vr = .ok r → f.right = r)
      ∧ (∀ vu u, j.find "up" = some vu → get_float vu = .ok u → f.up = u)
      ∧ (∀ vd d, j.find "down" = some vd → get_float vd = .ok d → f.down = -d) := by
  obtain ⟨horizontal, vertical, down, left, right, up, h1, h2, h3, h4, h5, h6, hd, hl, hr,
    hu, _⟩ := from_json_FOV_ok hparse
  refine ⟨?_, ?_, ?_, ?_, ?_, ?_⟩
  · intro vh h hfind hget
    rw [hfind, halfFov_of_found _ hget] at h1
    cases h1
    constructor
    · intro hnone
      rw [hnone] at h5
      cases h5
      exact hr
    · intro hnone
      rw [hnone] at h4
      cases h4
      rw [hl]
      ring
  · intro vv v hfind hget
    rw [hfind, halfFov_of_found _ hget] at h2
    cases h2
    constructor
    · intro hnone
      rw [hnone] at h6
      cases h6
      exact hu
    · intro hnone
      rw [hnone] at h3
      cases h3
      rw [hd]
      ring
  · intro vl l hfind hget
    rw [hfind, overrideFloat_of_found _ hget] at h4
    cases h4
    rw [hl]
    ring
  · intro vr r hfind hget
    rw [hfind, overrideFloat_of_found _ hget] at h5
    cases h5
    exact hr
  · intro vu u hfind hget
    rw [hfind, overrideFloat_of_found _ hget] at h6
    cases h6
    exact hu
  · intro vd d hfind hget
    rw [hfind, overrideFloat_of_found _ hget] at h3
    cases h3
    rw [hd]
    ring

theorem from_json_FOV_half_angles_witness :
    from_json_FOV fovHalfAngles (Ext.ofDocs []).proj0.fov
        = .ok { down := 60 / 2 * (-1), left := 90 / 2 * (-1), right := 90 / 2, up := 60 / 2,
                distance := none }
      ∧ ((90 : ℚ) / 2 * (-1) = -(90 / 2))
      ∧ from_json_FOV fovHalfAnglesOverridden (Ext.ofDocs []).proj0.fov
        = .ok { down := 60 / 2 * (-1), left := 10 * (-1), right := 90 / 2, up := 20,
                distance := none }
      ∧ ((10 : ℚ) * (-1) = -10) :=
  ⟨rfl,
    ((from_json_FOV_half_angles fovHalfAngles (Ext.ofDocs []).proj0.fov
      { down := 60 / 2 * (-1), left := 90 / 2 * (-1), right := 90 / 2, up := 60 / 2,
        distance := none } rfl).1 (.float 90) 90 rfl rfl).2 rfl,
    rfl,
    (from_json_FOV_half_angles fovHalfAnglesOverridden (Ext.ofDocs []).proj0.fov
      { down := 60 / 2 * (-1), left := 10 * (-1), right := 90 / 2, up := 20,
        distance := none } rfl).2.2.1 (.float 10) 10 rfl rfl⟩

/-! ## C18: the sign convention of the XML and the JSON field of view -/

/-- C18: let the `FOV` element of an XML planar projection give the numbers `d`, `l`, `r`,
`u` for down, left, right, up, and let a JSON `fov` object give the same four numbers and
neither `hfov` nor `vfov`; let both give the same `distance` or none.  Then
`xmlconfig::parsePlanarProjection` and the JSON `from_json(PlanarProjection::FOV)` both
store down and left negated and right and up unchanged, and the two fields of view are
equal. -/
theorem parsePlanarProjection_fov_eq_from_json_FOV (ext : Ext) (x : XmlExt)
    (element fovElement : XMLElement) (rest : List XMLElement) (j vd vl vr vu : Json)
    (f0 : PlanarProjection.FOV) (d l r u : ℚ) (distance : Option ℚ)
    (hfov : element.FirstChildElementNamed "FOV" = some (fovElement, rest))
    (hxd : xmlconfig.parseValueFloat x fovElement "down" = some d)
    (hxl : xmlconfig.parseValueFloat x fovElement "left" = some l)
    (hxr : xmlconfig.parseValueFloat x fovElement "right" = some r)
    (hxu : xmlconfig.parseValueFloat x fovElement "up" = some u)
    (hxdist : xmlconfig.parseValueFloat x fovElement "distance" = distance)
    (hh : j.find "hfov" = none) (hv : j.find "vfov" = none)
    (hjd : j.find "down" = some vd) (hgd : get_float vd = .ok d)
    (hjl : j.find "left" = some vl) (hgl : get_float vl = .ok l)
    (hjr : j.find "right" = some vr) (hgr : get_float vr = .ok r)
    (hju : j.find "up" = some vu) (hgu : get_float vu = .ok u)
    (hjdist : parseValueOpt get_float j "distance" = .ok distance) :
    ∃ p f, xmlconfig.parsePlanarProjection ext x element = .ok p
      ∧ from_json_FOV j f0 = .ok f
      ∧ p.fov = { down := -d, left := -l, right := r, up := u, distance := distance }
      ∧ f = { down := -d, left := -l, right := r, up := u, distance := distance }
      ∧ p.fov = f := by
  have hx : xmlconfig.parsePlanarProjection ext x element
      = .ok { fov := { down := -d, left := -l, right := r, up := u, distance := distance },
              orientation :=
                match element.FirstChildElementNamed "Orientation" with
                | some e => some (xmlconfig.parseOrientationNode x e.1)
                | none => ext.proj0.orientation
              offset :=
                match element.FirstChildElementNamed "Offset" with
                | some e => xmlconfig.parseValueVec3 x e.1
                | none => ext.proj0.offset } := by
    simp only [xmlconfig.parsePlanarProjection, hfov, xmlconfig.parsePlanarProjectionFrom,
      hxd, hxl, hxr, hxu, hxdist]
  have hj : from_json_FOV j f0
      = .ok { down := -d, left := -l, right := r, up := u, distance := distance } := by
    have hflags : (!hasHorizontal j || !hasVertical j) = false := by
      simp [hasHorizontal, hasVertical, hh, hv, hjd, hjl, hjr, hju]
    simp only [from_json_FOV, hflags, Bool.false_eq_true, if_false, hh, hv, halfFov, hjd, hjl,
      hjr, hju, overrideFloat, hgd, hgl, hgr, hgu, hjdist, Res.bind_ok]
    simp only [pure, Except.pure, mul_neg, mul_one]
  exact ⟨_, _, hx, hj, rfl, rfl, rfl⟩

theorem parsePlanarProjection_fov_eq_from_json_FOV_witness :
    ∃ p f, xmlconfig.parsePlanarProjection (Ext.ofDocs []) (XmlExt.ofTable sampleNumbers)
          xmlPlanarFour = .ok p
      ∧ from_json_FOV fovFour (Ext.ofDocs []).proj0.fov = .ok f
      ∧ p.fov = { down := -1, left := -2, right := 3, up := 9 / 2, distance := none }
      ∧ f = { down := -1, left := -2, right := 3, up := 9 / 2, distance := none }
      ∧ p.fov = f :=
  parsePlanarProjection_fov_eq_from_json_FOV (Ext.ofDocs []) (XmlExt.ofTable sampleNumbers)
    xmlPlanarFour (.mk "FOV" [("down", "1"), ("left", "2"), ("right", "3"), ("up", "4.5")] [])
    [] fovFour (.float 1) (.float 2) (.float 3) (.float (9 / 2)) (Ext.ofDocs []).proj0.fov
    1 2 3 (9 / 2) none rfl rfl rfl rfl rfl rfl rfl rfl rfl rfl rfl rfl rfl rfl rfl rfl rfl

/-! ## C20: the children of an XML projection plane -/

/-- C20: what `xmlconfig::parseProjectionPlane` does on an element, by the number of its
child elements.  Without any child the reader dereferences the null pointer returned by
`FirstChildElement()` and raises no error 6010; with one or two children it fails with
error 6010 "Failed parsing coordinates. Missing XML children"; with three or more it fails
with error 6011 when one of the first three lacks a float x, y or z attribute and otherwise
returns the first three children as lowerLeft, upperLeft, upperRight, in that order. -/
theorem parseProjectionPlane_by_children (x : XmlExt) (name : String)
    (attributes : List (String × String)) :
    xmlconfig.parseProjectionPlane x (.mk name attributes []) = .error .nullDereference
      ∧ (∀ c1, xmlconfig.parseProjectionPlane x (.mk name attributes [c1])
          = .error (.thrown
              (.Error 6010 "Failed parsing coordinates. Missing XML children")))
      ∧ (∀ c1 c2, xmlconfig.parseProjectionPlane x (.mk name attributes [c1, c2])
          = .error (.thrown
              (.Error 6010 "Failed parsing coordinates. Missing XML children")))
      ∧ (∀ c1 c2 c3 more,
          (xmlconfig.parseValueVec3 x c1 = none ∨ xmlconfig.parseValueVec3 x c2 = none
            ∨ xmlconfig.parseValueVec3 x c3 = none) →
          xmlconfig.parseProjectionPlane x (.mk name attributes (c1 :: c2 :: c3 :: more))
            = .error (.thrown
                (.Error 6011 "Failed parsing ProjectionPlane coordinates. Type error")))
      ∧ (∀ c1 c2 c3 more p1 p2 p3, xmlconfig.parseValueVec3 x c1 = some p1 →
          xmlconfig.parseValueVec3 x c2 = some p2 →
          xmlconfig.parseValueVec3 x c3 = some p3 →
          xmlconfig.parseProjectionPlane x (.mk name attributes (c1 :: c2 :: c3 :: more))
            = .ok { lowerLeft := p1, upperLeft := p2, upperRight := p3 }) := by
  refine ⟨rfl, fun _ => rfl, fun _ _ => rfl, ?_, ?_⟩
  · intro c1 c2 c3 more h
    show xmlconfig.parseProjectionPlaneFrom x c1 c2 c3 = _
    unfold xmlconfig.parseProjectionPlaneFrom
    rcases h with h | h | h
    · rw [h]
    · rw [h]
      cases xmlconfig.parseValueVec3 x c1 <;> rfl
    · rw [h]
      cases xmlconfig.parseValueVec3 x c1 <;> cases xmlconfig.parseValueVec3 x c2 <;> rfl
  · intro c1 c2 c3 more p1 p2 p3 h1 h2 h3
    show xmlconfig.parseProjectionPlaneFrom x c1 c2 c3 = _
    simp only [xmlconfig.parseProjectionPlaneFrom, h1, h2, h3]

/-- The element `<Projectionplane/>` ends in a null pointer dereference, and a complete
element gives its three corners. -/
theorem parseProjectionPlane_samples :
    xmlconfig.parseProjectionPlane (XmlExt.ofTable sampleNumbers) xmlPlaneEmpty
        = .error .nullDereference
      ∧ xmlconfig.parseProjectionPlane (XmlExt.ofTable sampleNumbers) xmlPlaneComplete
        = .ok { lowerLeft := { x := 1, y := 2, z := 3 }, upperLeft := { x := 1, y := 3, z := 3 },
                upperRight := { x := 2, y := 3, z := 3 } } :=
  ⟨(parseProjectionPlane_by_children (XmlExt.ofTable sampleNumbers) "Projectionplane" []).1,
    (parseProjectionPlane_by_children (XmlExt.ofTable sampleNumbers) "Projectionplane"
      []).2.2.2.2 (xmlPos "1" "2" "3") (xmlPos "1" "3" "3") (xmlPos "2" "3" "3") []
      { x := 1, y := 2, z := 3 } { x := 1, y := 3, z := 3 } { x := 2, y := 3, z := 3 }
      rfl rfl rfl⟩

/-! ## C19: a window resolution is pending until `updateResolutions` -/

/-- C19: `Window::setWindowResolution(r)` only records `r` as pending: `getResolution()`,
`getAspectRatio()` and `isWindowResized()` are the same after the call as before it.  The
next `updateResolutions()` makes `getResolution()` equal to the most recently set `r` and
clears the pending flag, and a further `updateResolutions()` without a new set changes
nothing. -/
theorem setWindowResolution_is_pending {V : Type} (updateFov : ℚ → ℚ → V → V)
    (w : WindowState V) (r : ivec2) :
    ((w.setWindowResolution r).getResolution = w.getResolution
        ∧ (w.setWindowResolution r).getAspectRatio = w.getAspectRatio
        ∧ (w.setWindowResolution r).isWindowResized = w.isWindowResized)
      ∧ (((w.setWindowResolution r).updateResolutions updateFov).getResolution = r
        ∧ ((w.setWindowResolution r).updateResolutions updateFov).mHasPendingWindowRes
            = false)
      ∧ (∀ r', (((w.setWindowResolution r').setWindowResolution r).updateResolutions
            updateFov).getResolution = r)
      ∧ ((w.updateResolutions updateFov).updateResolutions updateFov
          = w.updateResolutions updateFov) := by
  refine ⟨⟨rfl, rfl, rfl⟩, ⟨?_, ?_⟩, ?_, ?_⟩
  · simp only [WindowState.updateResolutions, WindowState.applyPendingFramebufferRes,
      WindowState.applyPendingWindowRes, WindowState.setWindowResolution,
      WindowState.getResolution, if_true]
    split <;> rfl
  · simp only [WindowState.updateResolutions, WindowState.applyPendingFramebufferRes,
      WindowState.applyPendingWindowRes, WindowState.setWindowResolution, if_true]
    split <;> rfl
  · intro r'
    simp only [WindowState.updateResolutions, WindowState.applyPendingFramebufferRes,
      WindowState.applyPendingWindowRes, WindowState.setWindowResolution,
      WindowState.getResolution, if_true]
    split <;> rfl
  · simp only [WindowState.updateResolutions, WindowState.applyPendingFramebufferRes,
      WindowState.applyPendingWindowRes]
    cases hw : w.mHasPendingWindowRes <;> cases hf : w.mHasPendingFramebufferRes <;>
      simp [hw, hf]

theorem setWindowResolution_is_pending_witness :
    (windowVga.setWindowResolution { x := 800, y := 600 }).getResolution
        = { x := 640, y := 480 }
      ∧ ((windowVga.setWindowResolution { x := 800, y := 600 }).updateResolutions
          (fun _ _ v => v)).getResolution = { x := 800, y := 600 } :=
  ⟨(setWindowResolution_is_pending (fun _ _ v => v) windowVga { x := 800, y := 600 }).1.1,
    (setWindowResolution_is_pending (fun _ _ v => v) windowVga { x := 800, y := 600 }).2.1.1⟩

/-! ## C12: decode reads what encode writes -/

theorem readDouble_eq_some {d d' : SharedData} {x : ℚ} (h : d.readDouble = some (x, d')) :
    d.buffer = .double x :: d'.buffer ∧ d'.readLog = d.readLog ++ [.double] := by
  unfold SharedData.readDouble at h
  split at h
  · cases h
    exact ⟨by assumption, rfl⟩
  · cases h

theorem readBool_eq_some {d d' : SharedData} {b : Bool} (h : d.readBool = some (b, d')) :
    d.buffer = .bool b :: d'.buffer ∧ d'.readLog = d.readLog ++ [.bool] := by
  unfold SharedData.readBool at h
  split at h
  · cases h
    exact ⟨by assumption, rfl⟩
  · cases h

theorem readObj_eq_some {d d' : SharedData} {v : Int} (h : d.readObj = some (v, d')) :
    d.buffer = .object v :: d'.buffer ∧ d'.readLog = d.readLog ++ [.object] := by
  unfold SharedData.readObj at h
  split at h
  · cases h
    exact ⟨by assumption, rfl⟩
  · cases h

/-- Whenever the decode callback of heightmapping returns, it has read a double, three
bools and an object, in this order, from the front of the payload. -/
theorem heightmapping_decode_reads (s0 s' : heightmapping.State) (d d' : SharedData)
    (h : heightmapping.decodeFun s0 d = some (s', d')) :
    d'.readLog = d.readLog ++ [.double, .bool, .bool, .bool, .object]
      ∧ d.written = [.double, .bool, .bool, .bool, .object] ++ d'.written := by
  unfold heightmapping.decodeFun at h
  simp only [bind, Option.bind_eq_some, Prod.exists] at h
  obtain ⟨x1, d1, h1, x2, d2, h2, x3, d3, h3, x4, d4, h4, x5, d5, h5, h⟩ := h
  cases h
  obtain ⟨b1, l1⟩ := readDouble_eq_some h1
  obtain ⟨b2, l2⟩ := readBool_eq_some h2
  obtain ⟨b3, l3⟩ := readBool_eq_some h3
  obtain ⟨b4, l4⟩ := readBool_eq_some h4
  obtain ⟨b5, l5⟩ := readObj_eq_some h5
  constructor
  · simp [l5, l4, l3, l2, l1]
  · simp [SharedData.written, b1, b2, b3, b4, b5, Field.type]

/-- Whenever the decode callback of calibrator returns, it has read four bools from the
front of the payload. -/
theorem calibrator_decode_reads (s0 s' : calibrator.State) (d d' : SharedData)
    (h : calibrator.decode s0 d = some (s', d')) :
    d'.readLog = d.readLog ++ [.bool, .bool, .bool, .bool]
      ∧ d.written = [.bool, .bool, .bool, .bool] ++ d'.written := by
  unfold calibrator.decode at h
  simp only [bind, Option.bind_eq_some, Prod.exists] at h
  obtain ⟨x1, d1, h1, x2, d2, h2, x3, d3, h3, x4, d4, h4, h⟩ := h
  cases h
  obtain ⟨b1, l1⟩ := readBool_eq_some h1
  obtain ⟨b2, l2⟩ := readBool_eq_some h2
  obtain ⟨b3, l3⟩ := readBool_eq_some h3
  obtain ⟨b4, l4⟩ := readBool_eq_some h4
  constructor
  · simp [l4, l3, l2, l1]
  · simp [SharedData.written, b1, b2, b3, b4, Field.type]

/-- Whenever the decode callback of MRTExample returns, it has read a double and a bool
from the front of the payload. -/
theorem MRTExample_decode_reads (s0 s' : MRTExample.State) (d d' : SharedData)
    (h : MRTExample.decodeFun s0 d = some (s', d')) :
    d'.readLog = d.readLog ++ [.double, .bool]
      ∧ d.written = [.double, .bool] ++ d'.written := by
  unfold MRTExample.decodeFun at h
  simp only [bind, Option.bind_eq_some, Prod.exists] at h
  obtain ⟨x1, d1, h1, x2, d2, h2, h⟩ := h
  cases h
  obtain ⟨b1, l1⟩ := readDouble_eq_some h1
  obtain ⟨b2, l2⟩ := readBool_eq_some h2
  constructor
  · simp [l2, l1]
  · simp [SharedData.written, b1, b2, Field.type]

/-- Whenever the decode callback of OmniStereoTest returns, it has read a double and a bool
from the front of the payload. -/
theorem OmniStereoTest_decode_reads (s0 s' : OmniStereoTest.State) (d d' : SharedData)
    (h : OmniStereoTest.decodeFun s0 d = some (s', d')) :
    d'.readLog = d.readLog ++ [.double, .bool]
      ∧ d.written = [.double, .bool] ++ d'.written := by
  unfold OmniStereoTest.decodeFun at h
  simp only [bind, Option.bind_eq_some, Prod.exists] at h
  obtain ⟨x1, d1, h1, x2, d2, h2, h⟩ := h
  cases h
  obtain ⟨b1, l1⟩ := readDouble_eq_some h1
  obtain ⟨b2, l2⟩ := readBool_eq_some h2
  constructor
  · simp [l2, l1]
  · simp [SharedData.written, b1, b2, Field.type]

/-- Whenever the decode callback of example1_opengl3 returns, it has read one double from
the front of the payload. -/
theorem example1_decode_reads (s0 s' : example1_opengl3.State) (d d' : SharedData)
    (h : example1_opengl3.decodeFun s0 d = some (s', d')) :
    d'.readLog = d.readLog ++ [.double] ∧ d.written = [.double] ++ d'.written := by
  unfold example1_opengl3.decodeFun at h
  simp only [bind, Option.bind_eq_some, Prod.exists] at h
  obtain ⟨x1, d1, h1, h⟩ := h
  cases h
  obtain ⟨b1, l1⟩ := readDouble_eq_some h1
  exact ⟨l1, by simp [SharedData.written, b1, Field.type]⟩

/-- Whenever the decode callback of textureExample returns, it has read one double from
the front of the payload. -/
theorem textureExample_decode_reads (s0 s' : textureExample.State) (d d' : SharedData)
    (h : textureExample.myDecodeFun s0 d = some (s', d')) :
    d'.readLog = d.readLog ++ [.double] ∧ d.written = [.double] ++ d'.written := by
  unfold textureExample.myDecodeFun at h
  simp only [bind, Option.bind_eq_some, Prod.exists] at h
  obtain ⟨x1, d1, h1, h⟩ := h
  cases h
  obtain ⟨b1, l1⟩ := readDouble_eq_some h1
  exact ⟨l1, by simp [SharedData.written, b1, Field.type]⟩

/-- C12: in every example application the decode callback reads the same sequence of
shared fields, with the same types and in the same order, as the encode callback writes:
heightmapping double, bool, bool, bool, object; calibrator four bools; MRTExample and
OmniStereoTest double, bool; example1_opengl3 and textureExample one double.  For each
application: encode writes this sequence; decode, whenever it returns, has read this
sequence from the front of the payload; and decoding what a node with the variables `s`
has encoded consumes the payload completely and gives every shared variable the value it
has in `s`. -/
theorem decode_reads_what_encode_writes :
    (∀ s s0 : heightmapping.State,
        (heightmapping.encodeFun s .empty).written
            = [.double, .bool, .bool, .bool, .object]
          ∧ (∀ d s' d', heightmapping.decodeFun s0 d = some (s', d') →
              d'.readLog = d.readLog ++ [.double, .bool, .bool, .bool, .object])
          ∧ heightmapping.decodeFun s0 (heightmapping.encodeFun s .empty)
            = some ({ s with mPause := s0.mPause },
                { buffer := [], readLog := [.double, .bool, .bool, .bool, .object] }))
      ∧ (∀ s s0 : calibrator.State,
        (calibrator.encode s .empty).written = [.bool, .bool, .bool, .bool]
          ∧ (∀ d s' d', calibrator.decode s0 d = some (s', d') →
              d'.readLog = d.readLog ++ [.bool, .bool, .bool, .bool])
          ∧ calibrator.decode s0 (calibrator.encode s .empty)
            = some (s, { buffer := [], readLog := [.bool, .bool, .bool, .bool] }))
      ∧ (∀ s s0 : MRTExample.State,
        (MRTExample.encodeFun s .empty).written = [.double, .bool]
          ∧ (∀ d s' d', MRTExample.decodeFun s0 d = some (s', d') →
              d'.readLog = d.readLog ++ [.double, .bool])
          ∧ MRTExample.decodeFun s0 (MRTExample.encodeFun s .empty)
            = some (s, { buffer := [], readLog := [.double, .bool] }))
      ∧ (∀ s s0 : OmniStereoTest.State,
        (OmniStereoTest.encodeFun s .empty).written = [.double, .bool]
          ∧ (∀ d s' d', OmniStereoTest.decodeFun s0 d = some (s', d') →
              d'.readLog = d.readLog ++ [.double, .bool])
          ∧ OmniStereoTest.decodeFun s0 (OmniStereoTest.encodeFun s .empty)
            = some (s, { buffer := [], readLog := [.double, .bool] }))
      ∧ (∀ s s0 : example1_opengl3.State,
        (example1_opengl3.encodeFun s .empty).written = [.double]
          ∧ (∀ d s' d', example1_opengl3.decodeFun s0 d = some (s', d') →
              d'.readLog = d.readLog ++ [.double])
          ∧ example1_opengl3.decodeFun s0 (example1_opengl3.encodeFun s .empty)
            = some (s, { buffer := [], readLog := [.double] }))
      ∧ (∀ s s0 : textureExample.State,
        (textureExample.myEncodeFun s .empty).written = [.double]
          ∧ (∀ d s' d', textureExample.myDecodeFun s0 d = some (s', d') →
              d'.readLog = d.readLog ++ [.double])
          ∧ textureExample.myDecodeFun s0 (textureExample.myEncodeFun s .empty)
            = some (s, { buffer := [], readLog := [.double] })) := by
  refine ⟨?_, ?_, ?_, ?_, ?_, ?_⟩ <;> intro s s0
  · exact ⟨rfl, fun d s' d' h => (heightmapping_decode_reads s0 s' d d' h).1, rfl⟩
  · exact ⟨rfl, fun d s' d' h => (calibrator_decode_reads s0 s' d d' h).1, rfl⟩
  · exact ⟨rfl, fun d s' d' h => (MRTExample_decode_reads s0 s' d d' h).1, rfl⟩
  · exact ⟨rfl, fun d s' d' h => (OmniStereoTest_decode_reads s0 s' d d' h).1, rfl⟩
  · exact ⟨rfl, fun d s' d' h => (example1_decode_reads s0 s' d d' h).1, rfl⟩
  · exact ⟨rfl, fun d s' d' h => (textureExample_decode_reads s0 s' d d' h).1, rfl⟩

/-! ## C13: the pre-sync callback writes on the master only -/

/-- C13: when the engine reports that the node is not the master, the pre-sync callback of
every example application that has one (example1_opengl3, heightmapping, MRTExample,
OmniStereoTest, textureExample) leaves all variables of the application, so every shared
variable, unchanged. -/
theorem preSync_unchanged_off_master (engine : Engine) (hmaster : engine.isMaster = false) :
    (∀ s, example1_opengl3.preSyncFun engine s = s)
      ∧ (∀ s, heightmapping.preSyncFun engine s = s)
      ∧ (∀ s, MRTExample.preSyncFun engine s = s)
      ∧ (∀ s, OmniStereoTest.preSyncFun engine s = s)
      ∧ (∀ s, textureExample.myPreSyncFun engine s = s) := by
  refine ⟨?_, ?_, ?_, ?_, ?_⟩ <;> intro s
  · simp [example1_opengl3.preSyncFun, hmaster]
  · simp [heightmapping.preSyncFun, hmaster]
  · simp [MRTExample.preSyncFun, hmaster]
  · simp [OmniStereoTest.preSyncFun, hmaster]
  · simp [textureExample.myPreSyncFun, hmaster]

theorem preSync_unchanged_off_master_witness :
    engineOfRenderNode.isMaster = false
      ∧ heightmapping.preSyncFun engineOfRenderNode
          { mPause := false, currentTime := 3, stats := true, takeScreenshot := false,
            useTracking := false, stereoMode := 2 }
        = { mPause := false, currentTime := 3, stats := true, takeScreenshot := false,
            useTracking := false, stereoMode := 2 } :=
  ⟨rfl, (preSync_unchanged_off_master engineOfRenderNode rfl).2.1 _⟩


/-! ## C14 and C15: the wire codec of the specification -/

namespace wire

theorem toLE_length (w n : Nat) : (toLE w n).length = w := by
  induction w generalizing n with
  | zero => rfl
  | succ w ih => simp [toLE, ih]

theorem fromLE_toLE (w n : Nat) : fromLE (toLE w n) = n % 256 ^ w := by
  induction w generalizing n with
  | zero => simp [toLE, fromLE, Nat.mod_one]
  | succ w ih =>
    simp only [toLE, fromLE, ih]
    rw [pow_succ, mul_comm (256 ^ w) 256, Nat.mod_mul]

theorem fromLE_toLE_four (n : Nat) (h : n < 4294967296) : fromLE (toLE 4 n) = n := by
  rw [fromLE_toLE]; exact Nat.mod_eq_of_lt (by norm_num; exact h)

theorem fromLE_toLE_eight (n : Nat) (h : n < 18446744073709551616) :
    fromLE (toLE 8 n) = n := by
  rw [fromLE_toLE]; exact Nat.mod_eq_of_lt (by norm_num; exact h)

theorem splitBytes_append (front rest : List Nat) :
    splitBytes front.length (front ++ rest) = some (front, rest) := by
  simp [splitBytes]

theorem splitBytes_toLE (w n : Nat) (rest : List Nat) :
    splitBytes w (toLE w n ++ rest) = some (toLE w n, rest) := by
  have h := splitBytes_append (toLE w n) rest
  rwa [toLE_length] at h

theorem toSigned32_of_int (i : Int) (h1 : -2147483648 ≤ i) (h2 : i < 2147483648) :
    toSigned32 (i % 4294967296).toNat = i := by
  unfold toSigned32
  split_ifs with h <;> omega

theorem decodeValue_encodeValue (v : Value) (rest : List Nat) (hv : v.valid = true) :
    decodeValue v.type (encodeValue v ++ rest) = some (v, rest) := by
  cases v with
  | bool b =>
    cases b <;> simp [Value.type, encodeValue, decodeValue, splitBytes, fromLE]
  | int i =>
    simp only [Value.valid, Bool.and_eq_true, decide_eq_true_eq] at hv
    have hlt : (i % 4294967296).toNat < 4294967296 := by omega
    simp only [Value.type, encodeValue, decodeValue, splitBytes_toLE, Option.map_some',
      fromLE_toLE_four _ hlt, toSigned32_of_int i hv.1 hv.2]
  | float bits =>
    simp only [Value.valid, decide_eq_true_eq] at hv
    simp only [Value.type, encodeValue, decodeValue, splitBytes_toLE, Option.map_some',
      fromLE_toLE_four _ hv]
  | double bits =>
    simp only [Value.valid, decide_eq_true_eq] at hv
    simp only [Value.type, encodeValue, decodeValue, splitBytes_toLE, Option.map_some',
      fromLE_toLE_eight _ hv]
  | string bytes =>
    simp only [Value.valid, Bool.and_eq_true, decide_eq_true_eq] at hv
    simp only [Value.type, encodeValue, decodeValue, List.append_assoc, splitBytes_toLE,
      Option.some_bind, fromLE_toLE_four _ hv.1, splitBytes_append, Option.map_some']
  | struct bytes =>
    simp only [Value.type, encodeValue, decodeValue, splitBytes_append, Option.map_some']
  | array bytes =>
    simp only [Value.valid, Bool.and_eq_true, decide_eq_true_eq] at hv
    simp only [Value.type, encodeValue, decodeValue, List.append_assoc, splitBytes_toLE,
      Option.some_bind, fromLE_toLE_four _ hv.1, splitBytes_append, Option.map_some']

theorem decodePayload_encodePayload (vs : List Value) (rest : List Nat)
    (hv : vs.all Value.valid = true) :
    decodePayload (vs.map Value.type) (encodePayload vs ++ rest) = some (vs, rest) := by
  induction vs with
  | nil => rfl
  | cons v vs ih =>
    simp only [List.all_cons, Bool.and_eq_true] at hv
    simp only [List.map_cons, decodePayload, encodePayload, List.append_assoc,
      decodeValue_encodeValue v _ hv.1, Option.some_bind, ih hv.2, Option.map_some']

/-- A complete message of a valid frame state is read back as that frame state. -/
theorem decodeMessage_of_valid (s : FrameState) (hvalid : s.valid = true) :
    decodeMessage s.schema (toLE 4 s.frameNumber ++ (messageTypeData :: encodePayload s.payload))
      = .frame s := by
  simp only [FrameState.valid, Bool.and_eq_true, decide_eq_true_eq] at hvalid
  obtain ⟨⟨hframe, hfields⟩, _⟩ := hvalid
  have hdrop4 : (toLE 4 s.frameNumber ++ (messageTypeData :: encodePayload s.payload)).drop 4
      = messageTypeData :: encodePayload s.payload := by
    have h := List.drop_left (toLE 4 s.frameNumber) (messageTypeData :: encodePayload s.payload)
    rwa [toLE_length] at h
  have hdrop5 : (toLE 4 s.frameNumber ++ (messageTypeData :: encodePayload s.payload)).drop 5
      = encodePayload s.payload := by
    have h : (5 : Nat) = 4 + 1 := rfl
    rw [h, ← List.drop_drop, hdrop4]; rfl
  have htake4 : (toLE 4 s.frameNumber ++ (messageTypeData :: encodePayload s.payload)).take 4
      = toLE 4 s.frameNumber := by
    have h := List.take_left (toLE 4 s.frameNumber) (messageTypeData :: encodePayload s.payload)
    rwa [toLE_length] at h
  have hpayload := decodePayload_encodePayload s.payload [] hfields
  rw [List.append_nil] at hpayload
  have hlen : ¬ (toLE 4 s.frameNumber ++ (messageTypeData :: encodePayload s.payload)).length
      < 5 := by
    simp [toLE_length]; omega
  unfold decodeMessage
  rw [if_neg hlen, hdrop4, hdrop5, htake4, FrameState.schema, hpayload,
    fromLE_toLE_four _ hframe]
  simp [fromLE, messageTypeData]

/-- The size that the envelope of an encoded valid frame state declares is the number of
bytes that follow it. -/
theorem declaredSize_encode (s : FrameState) (hvalid : s.valid = true) (more : List Nat) :
    declaredSize (encode s ++ more) = 5 + (encodePayload s.payload).length := by
  simp only [FrameState.valid, Bool.and_eq_true, decide_eq_true_eq] at hvalid
  unfold declaredSize encode
  have h := List.take_left (toLE 4 (5 + (encodePayload s.payload).length))
    ((toLE 4 s.frameNumber ++ (messageTypeData :: encodePayload s.payload)) ++ more)
  rw [toLE_length] at h
  rw [List.append_assoc, h, fromLE_toLE_four _ hvalid.2]

/-- Claim C14: for every valid frame state `s` (frame number plus ordered payload of typed
fields), decoding the bytes produced by encoding `s`, for the field types of `s`, yields `s`
again; this also holds when bytes of a later message follow. -/
theorem decode_encode_round_trip (s : FrameState) (hvalid : s.valid = true) :
    decode s.schema (encode s) = .frame s
      ∧ ∀ more : List Nat, decode s.schema (encode s ++ more) = .frame s := by
  have key : ∀ more : List Nat, decode s.schema (encode s ++ more) = .frame s := by
    intro more
    have hsize := declaredSize_encode s hvalid more
    have hdrop : (encode s ++ more).drop 4
        = (toLE 4 s.frameNumber ++ (messageTypeData :: encodePayload s.payload)) ++ more := by
      unfold encode
      have h := List.drop_left (toLE 4 (5 + (encodePayload s.payload).length))
        ((toLE 4 s.frameNumber ++ (messageTypeData :: encodePayload s.payload)) ++ more)
      rw [toLE_length] at h
      rw [List.append_assoc, h]
    have hbody : (toLE 4 s.frameNumber ++ (messageTypeData :: encodePayload s.payload)).length
        = 5 + (encodePayload s.payload).length := by
      simp [toLE_length]; omega
    have hlen4 : ¬ (encode s ++ more).length < 4 := by
      simp [encode, toLE_length]
    unfold decode
    rw [if_neg hlen4, hsize, hdrop, ← hbody, List.take_left, if_neg (by simp)]
    exact decodeMessage_of_valid s hvalid
  refine ⟨?_, key⟩
  have h := key []
  rwa [List.append_nil] at h

/-- The scenario of the specification: frame 1 with `bool true` and `double 3.14` is valid
and is read back exactly. -/
theorem decode_encode_round_trip_witness :
    frameScenario.valid = true
      ∧ (decode frameScenario.schema (encode frameScenario) = .frame frameScenario
        ∧ ∀ more : List Nat,
            decode frameScenario.schema (encode frameScenario ++ more) = .frame frameScenario) :=
  ⟨by decide, decode_encode_round_trip frameScenario (by decide)⟩

/-- Claim C15: for every byte sequence that is shorter than the size declared in its
envelope (the four bytes of the size field plus the declared number of bytes after it; this
includes every sequence of fewer than four bytes), `decode` reports that more bytes are
needed, and neither reports corruption nor produces a frame state. -/
theorem decode_short_needs_more_bytes (schema : List FieldType) (bytes : List Nat)
    (hshort : bytes.length < 4 + declaredSize bytes) :
    decode schema bytes = .needMoreBytes
      ∧ decode schema bytes ≠ .corrupt
      ∧ ∀ s : FrameState, decode schema bytes ≠ .frame s := by
  have h : decode schema bytes = .needMoreBytes := by
    unfold decode
    by_cases h4 : bytes.length < 4
    · rw [if_pos h4]
    · rw [if_neg h4, if_pos (by rw [List.length_drop]; omega)]
  rw [h]
  exact ⟨rfl, by simp, by simp⟩

/-- The first ten bytes of the message of the scenario, which declares 14 bytes after its
size field, ask for more bytes. -/
theorem decode_short_needs_more_bytes_witness :
    ((encode frameScenario).take 10).length < 4 + declaredSize ((encode frameScenario).take 10)
      ∧ (decode frameScenario.schema ((encode frameScenario).take 10) = .needMoreBytes
        ∧ decode frameScenario.schema ((encode frameScenario).take 10) ≠ .corrupt
        ∧ ∀ s : FrameState,
            decode frameScenario.schema ((encode frameScenario).take 10) ≠ .frame s) :=
  ⟨by decide, decode_short_needs_more_bytes _ _ (by decide)⟩

end wire

/-! ## C16: the frame barrier of the specification -/

namespace barrier

/-- No event other than the start of the next frame takes a released barrier out of
Released or changes its frame. -/
theorem step_of_released (b : FrameBarrier) (e : Event) (hreleased : b.phase = .Released)
    (he : e ≠ .beginFrame) :
    (b.step e).phase = .Released ∧ (b.step e).frame = b.frame := by
  cases e with
  | enter => simp [FrameBarrier.step, hreleased]
  | peerReady node => simp [FrameBarrier.step, hreleased]
  | timeout => simp [FrameBarrier.step, hreleased]
  | shutdown => simp [FrameBarrier.step, hreleased]
  | beginFrame => exact absurd rfl he

/-- A released barrier stays released in its frame under every sequence of events in which
the next frame does not start. -/
theorem run_of_released (events : List Event) (b : FrameBarrier)
    (hreleased : b.phase = .Released) (hframe : Event.beginFrame ∉ events) :
    (b.run events).phase = .Released ∧ (b.run events).frame = b.frame := by
  induction events generalizing b with
  | nil => exact ⟨hreleased, rfl⟩
  | cons e es ih =>
    simp only [List.mem_cons, not_or] at hframe
    have hstep := step_of_released b e hreleased (fun h => hframe.1 h.symm)
    have hrest := ih (b.step e) hstep.1 hframe.2
    exact ⟨hrest.1, hrest.2.trans hstep.2⟩

/-- Claim C16: once the frame barrier has reached Released for the current frame, a call of
`enter()` returns immediately and leaves the barrier as it is, and after every sequence of
further events of that frame (calls of `enter()`, signals of nodes, timeouts, shutdown) the
barrier is still Released in the same frame, is not Waiting, and `enter()` still returns
immediately. -/
theorem enter_after_release_returns (b : FrameBarrier) (hreleased : b.phase = .Released) :
    b.enterReturnsImmediately = true
      ∧ b.step .enter = b
      ∧ ∀ events : List Event, Event.beginFrame ∉ events →
          (b.run events).phase = .Released
            ∧ (b.run events).phase ≠ .Waiting
            ∧ (b.run events).frame = b.frame
            ∧ (b.run events).enterReturnsImmediately = true
            ∧ (b.run events).step .enter = b.run events := by
  have hself : ∀ c : FrameBarrier, c.phase = .Released →
      c.enterReturnsImmediately = true ∧ c.step .enter = c := by
    intro c hc
    simp [FrameBarrier.enterReturnsImmediately, FrameBarrier.step, hc]
  refine ⟨(hself b hreleased).1, (hself b hreleased).2, ?_⟩
  intro events hframe
  have hrun := run_of_released events b hreleased hframe
  refine ⟨hrun.1, ?_, hrun.2, (hself _ hrun.1).1, (hself _ hrun.1).2⟩
  rw [hrun.1]; simp

/-- The barrier of frame 7 that a timeout released stays released when `enter()` is called
again. -/
theorem enter_after_release_returns_witness :
    barrierReleased.phase = .Released
      ∧ (barrierReleased.enterReturnsImmediately = true
        ∧ barrierReleased.step .enter = barrierReleased
        ∧ ∀ events : List Event, Event.beginFrame ∉ events →
            (barrierReleased.run events).phase = .Released
              ∧ (barrierReleased.run events).phase ≠ .Waiting
              ∧ (barrierReleased.run events).frame = barrierReleased.frame
              ∧ (barrierReleased.run events).enterReturnsImmediately = true
              ∧ (barrierReleased.run events).step .enter = barrierReleased.run events) :=
  ⟨by decide, enter_after_release_returns barrierReleased (by decide)⟩

end barrier


/-! ## C21: the vertices and the index buffers of the calibrator's dome -/

/-- Position `e * n + a` of the concatenation of lists of length `n` is position `a` of the
list with number `e`. -/
theorem getElem?_flatMap_uniform {α β : Type} (g : α → List β) (n : Nat) (l : List α)
    (h : ∀ x ∈ l, (g x).length = n) (e a : Nat) (ha : a < n) :
    (l.flatMap g)[e * n + a]? = (l[e]?).bind (fun x => (g x)[a]?) := by
  induction l generalizing e with
  | nil => simp
  | cons x xs ih =>
    have hx : (g x).length = n := h x (List.mem_cons_self _ _)
    rw [List.flatMap_cons]
    cases e with
    | zero =>
      rw [Nat.zero_mul, Nat.zero_add, List.getElem?_append_left (by omega)]
      simp
    | succ e =>
      have hle : (g x).length ≤ (e + 1) * n + a := by
        rw [hx, Nat.succ_mul]; omega
      rw [List.getElem?_append_right hle]
      have hidx : (e + 1) * n + a - (g x).length = e * n + a := by
        rw [hx, Nat.succ_mul]; omega
      rw [hidx, ih (fun y hy => h y (List.mem_cons_of_mem _ hy))]
      simp

/-- The length of the concatenation of lists of length `n`. -/
theorem length_flatMap_uniform {α β : Type} (g : α → List β) (n : Nat) (l : List α)
    (h : ∀ x ∈ l, (g x).length = n) : (l.flatMap g).length = l.length * n := by
  induction l with
  | nil => simp
  | cons x xs ih =>
    rw [List.flatMap_cons, List.length_append, h x (List.mem_cons_self _ _),
      ih (fun y hy => h y (List.mem_cons_of_mem _ hy)), List.length_cons, Nat.succ_mul]
    omega

namespace calibrator

theorem vertices_length (radians : ℚ → ℚ) : (vertices radians).length = 6560 := by
  unfold vertices
  rw [length_flatMap_uniform _ AzimuthSteps _ (fun _ _ => by simp)]
  simp [ElevationSteps, AzimuthSteps]

theorem vertices_getElem? (radians : ℚ → ℚ) (e a : Nat) (he : e ≤ ElevationSteps)
    (ha : a < AzimuthSteps) :
    (vertices radians)[e * AzimuthSteps + a]? = some (vertexAt radians e a) := by
  unfold vertices
  rw [getElem?_flatMap_uniform _ AzimuthSteps _ (fun _ _ => by simp) e a ha]
  rw [List.getElem?_range (by omega)]
  simp [List.getElem?_range ha]

theorem quadIndices_length (e a : Nat) : (quadIndices e a).length = 6 := rfl

theorem triangleIndices_length : triangleIndices.length = 38400 := by
  unfold triangleIndices
  rw [length_flatMap_uniform _ (AzimuthSteps * 6) _ (fun e _ => by
    rw [length_flatMap_uniform _ 6 _ (fun a _ => quadIndices_length e a)]; simp)]
  simp [ElevationSteps, AzimuthSteps]

theorem triangleIndices_getElem? (e a k : Nat) (he : e < ElevationSteps)
    (ha : a < AzimuthSteps) (hk : k < 6) :
    triangleIndices[(e * AzimuthSteps + a) * 6 + k]? = (quadIndices e a)[k]? := by
  unfold triangleIndices
  have hidx : (e * AzimuthSteps + a) * 6 + k = e * (AzimuthSteps * 6) + (a * 6 + k) := by
    ring
  have hin : a * 6 + k < AzimuthSteps * 6 := by omega
  rw [hidx, getElem?_flatMap_uniform _ (AzimuthSteps * 6) _ (fun e _ => by
    rw [length_flatMap_uniform _ 6 _ (fun a _ => quadIndices_length e a)]; simp) e _ hin]
  rw [List.getElem?_range he]
  simp only [Option.some_bind]
  rw [getElem?_flatMap_uniform _ 6 _ (fun a _ => quadIndices_length e a) a k hk,
    List.getElem?_range ha]
  simp

theorem lineIndices_in_range (i : Nat) (h : i ∈ lineIndices) :
    i = RestartIndex ∨ i < 6400 := by
  simp only [lineIndices, ringIndices, verticalIndices, List.mem_append, List.mem_flatMap,
    List.mem_map, List.mem_range, List.mem_cons, List.mem_singleton, List.not_mem_nil,
    or_false, ElevationSteps, AzimuthSteps, toUint16, RestartIndex] at h ⊢
  rcases h with (⟨e, he, (⟨k, hk, rfl⟩ | rfl | rfl)⟩ | rfl) | ⟨a, ha, (⟨e, he, rfl⟩ | rfl)⟩
  · right
    rw [Nat.mod_eq_of_lt (a := e * 160) (by omega), Nat.mod_eq_of_lt (by omega)]
    omega
  · right
    rw [Nat.mod_eq_of_lt (by omega)]
    omega
  · left; rfl
  · left; rfl
  · right
    rw [Nat.mod_eq_of_lt (by omega)]
    omega
  · left; rfl

theorem triangleIndices_in_range (k i : Nat) (h : triangleIndices[k]? = some i)
    (hk : k ≠ 38398) : i < 6560 := by
  have hlt : k < 38400 := by
    have := (List.getElem?_eq_some.mp h).1
    rwa [triangleIndices_length] at this
  have he : k / 6 / 160 < ElevationSteps := by unfold ElevationSteps; omega
  have ha : k / 6 % 160 < AzimuthSteps := by unfold AzimuthSteps; omega
  have hr : k % 6 < 6 := by omega
  have hidx : k = (k / 6 / 160 * AzimuthSteps + k / 6 % 160) * 6 + k % 6 := by
    unfold AzimuthSteps; omega
  rw [hidx, triangleIndices_getElem? _ _ _ he ha hr] at h
  generalize hq : k / 6 / 160 = e at h he hidx
  generalize hp : k / 6 % 160 = a at h ha hidx
  generalize hs : k % 6 = r at h hr hidx
  unfold ElevationSteps at he
  unfold AzimuthSteps at ha hidx
  interval_cases r <;>
    simp only [quadIndices, List.getElem?_cons_zero, List.getElem?_cons_succ, Option.some.injEq,
      toUint16, AzimuthSteps] at h <;> omega

theorem triangleIndices_last_quad : triangleIndices[38398]? = some 6560 := by
  have h := triangleIndices_getElem? 39 159 4 (by decide) (by decide) (by decide)
  simpa [AzimuthSteps, quadIndices, toUint16] using h

/-- C21: in the calibrator's dome geometry the `(ElevationSteps+1)*AzimuthSteps = 6560`
vertices are stored ring-wise, vertex (elevation `e`, azimuth `a`) at position
`e*AzimuthSteps + a`, and every index of the line buffer is the restart index 65535 or
less than the number of vertices.  The triangle buffer has 38400 indices, of which all but
one are less than the number of vertices: the index at position 38398, written as
`base + AzimuthSteps + 1` for `e = 39` and `a = 159`, is 6560, which is neither the restart
index nor the index of a vertex. -/
theorem dome_index_buffers (radians : ℚ → ℚ) :
    (vertices radians).length = (ElevationSteps + 1) * AzimuthSteps
      ∧ (vertices radians).length = 6560
      ∧ (∀ e a, e ≤ ElevationSteps → a < AzimuthSteps →
          (vertices radians)[e * AzimuthSteps + a]? = some (vertexAt radians e a))
      ∧ (∀ i ∈ lineIndices, i = RestartIndex ∨ i < (vertices radians).length)
      ∧ triangleIndices.length = 38400
      ∧ (∀ k i, triangleIndices[k]? = some i → k ≠ 38398 →
          i < (vertices radians).length)
      ∧ triangleIndices[38398]? = some 6560
      ∧ ¬ (6560 = RestartIndex ∨ 6560 < (vertices radians).length) := by
  have hlen := vertices_length radians
  refine ⟨hlen, hlen, vertices_getElem? radians, ?_, triangleIndices_length, ?_,
    triangleIndices_last_quad, ?_⟩
  · intro i hi
    rcases lineIndices_in_range i hi with h | h
    · exact Or.inl h
    · exact Or.inr (by omega)
  · intro k i h hk
    rw [hlen]
    exact triangleIndices_in_range k i h hk
  · rw [hlen]
    decide

end calibrator

/-! ## Facts about the writers: what `find` sees after `set`, and the parts of a cluster -/

theorem lookup_cons_eq (k a : String) (b : Json) (rest : List (String × Json)) :
    ((a, b) :: rest).lookup k = if k = a then some b else rest.lookup k := by
  by_cases h : k = a
  · subst h
    simp [List.lookup]
  · have hb : (k == a) = false := by simpa using h
    simp [List.lookup, hb, h]

theorem lookup_setKey (key : String) (v : Json) (kvs : List (String × Json)) (k : String) :
    (setKey key v kvs).lookup k = if k = key then some v else kvs.lookup k := by
  induction kvs with
  | nil => simp [setKey, lookup_cons_eq]
  | cons p rest ih =>
    obtain ⟨k0, x⟩ := p
    unfold setKey
    split_ifs with h1 h2 h3 h3 h3 <;> simp only [lookup_cons_eq, ih] <;> split_ifs <;>
      simp_all

theorem Json.find_set (j : Json) (key : String) (v : Json) (k : String) :
    (j.set key v).find k = if k = key then some v else j.find k := by
  cases j <;> simp [Json.set, Json.find, lookup_setKey, lookup_cons_eq]

theorem Json.find_setOpt (j : Json) (key : String) (v : Option Json) (k : String) :
    (j.setOpt key v).find k = if k = key then v.or (j.find k) else j.find k := by
  cases v with
  | none => by_cases h : k = key <;> simp [Json.setOpt, h]
  | some x => simp [Json.setOpt, Json.find_set]

theorem Json.find_empty (k : String) : (Json.obj []).find k = none := rfl

/-- What the reader of a field of view returns on what the writer has written. -/
theorem fov_written_then_read (f f0 : PlanarProjection.FOV) :
    from_json_FOV (to_json_FOV f) f0
      = .ok { down := if f.down = f.up then 0 else f.down,
              left := if f.left = f.right then 0 else f.left,
              right := if f.left = f.right then 0 else f.right,
              up := if f.down = f.up then 0 else f.up,
              distance := none } := by
  unfold to_json_FOV
  by_cases h1 : f.left = f.right <;> by_cases h2 : f.down = f.up <;>
    simp [from_json_FOV, hasHorizontal, hasVertical, Json.find_set, Json.find_empty, halfFov,
      overrideFloat, get_float, parseValueOpt, h1, h2, bind, Except.bind, pure, Except.pure]

theorem from_json_background_to_json_background (v : vec4) :
    from_json_background (to_json_background v) = .ok v := by
  simp [from_json_background, to_json_background, Json.atKey, Json.set, setKey, List.lookup,
    get_float, bind, Except.bind, pure, Except.pure]

/-- What the reader of a flat spout projection returns on what the writer has written. -/
theorem spoutFlat_written_then_read (ext : Ext) (p : SpoutFlatProjection) :
    from_json_SpoutFlatProjection ext (to_json_SpoutFlatProjection p)
      = if p.width.isSome ∨ p.height.isSome then .error (.json_exception 302)
        else .ok { width := none, height := none, mappingSpoutName := "",
                   background := p.background, drawMain := none, proj := ext.proj0 } := by
  obtain ⟨width, height, name, background, drawMain, proj⟩ := p
  cases width <;> cases height <;> cases background <;>
    simp [from_json_SpoutFlatProjection, to_json_SpoutFlatProjection, ifFound,
      parsePlanarOfSpoutFlat, Json.find_set, Json.find_setOpt, Json.find_empty, get_int,
      from_json_background_to_json_background, bind, Except.bind, pure, Except.pure]

theorem toInt32_of_fitsInt (i : Int) (h : fitsInt i = true) : toInt32 i = i := by
  simp only [fitsInt, Bool.and_eq_true, decide_eq_true_eq] at h
  unfold toInt32
  omega

namespace textSample

/-- A natural number is read back from its characters. -/
theorem decNat_encNat (n : Nat) (rest : List Char) :
    decNat (encNat n ++ rest) = some (n, rest) := by
  induction n with
  | zero => simp [encNat, decNat]
  | succ n ih => simp [encNat, decNat, ih]

/-- An integer is read back from its characters. -/
theorem decInt_encInt (i : Int) (rest : List Char) :
    decInt (encInt i ++ rest) = some (i, rest) := by
  unfold encInt
  split_ifs with h
  · simp only [List.cons_append, decInt, decNat_encNat]
    simp
    omega
  · simp only [List.cons_append, decInt, decNat_encNat]
    simp
    omega

/-- A string is read back from its characters. -/
theorem decStr_encStr (s : String) (rest : List Char) :
    decStr (encStr s ++ rest) = some (s, rest) := by
  unfold decStr encStr
  rw [List.append_assoc, decNat_encNat]
  have hlen : s.length = s.data.length := rfl
  simp only [Option.some_bind, hlen]
  rw [if_neg (by simp), List.take_left, List.drop_left]

/-! A JSON value, the items of an array and the members of an object are read back from
their characters, whatever follows them, when the bound is at least their length. -/
mutual
theorem dec_enc : ∀ (j : Json) (n : Nat) (rest : List Char), (enc j).length ≤ n →
    dec n (enc j ++ rest) = some (j, rest)
  | .null, n, rest, h => by
    cases n with
    | zero => simp [enc] at h
    | succ n => simp [enc, dec]
  | .bool b, n, rest, h => by
    cases n with
    | zero => simp [enc] at h
    | succ n => cases b <;> simp [enc, dec]
  | .int i, n, rest, h => by
    cases n with
    | zero => simp [enc] at h
    | succ n => simp [enc, dec, decInt_encInt]
  | .float q, n, rest, h => by
    cases n with
    | zero => simp [enc] at h
    | succ n => simp [enc, dec, decInt_encInt, decNat_encNat, Rat.mkRat_self]
  | .str s, n, rest, h => by
    cases n with
    | zero => simp [enc] at h
    | succ n => simp [enc, dec, decStr_encStr]
  | .arr xs, n, rest, h => by
    cases n with
    | zero => simp [enc] at h
    | succ n =>
      have := decList_encList xs n rest (by simp [enc] at h; omega)
      simp [enc, dec, this]
  | .obj kvs, n, rest, h => by
    cases n with
    | zero => simp [enc] at h
    | succ n =>
      have := decFields_encFields kvs n rest (by simp [enc] at h; omega)
      simp [enc, dec, this]
theorem decList_encList : ∀ (xs : List Json) (n : Nat) (rest : List Char),
    (encList xs).length ≤ n → decList n (encList xs ++ rest) = some (xs, rest)
  | [], n, rest, h => by
    cases n with
    | zero => simp [encList] at h
    | succ n => simp [encList, decList]
  | x :: xs, n, rest, h => by
    cases n with
    | zero => simp [encList] at h
    | succ n =>
      simp only [encList, List.length_cons, List.length_append] at h
      have h1 := dec_enc x n (encList xs ++ rest) (by omega)
      have h2 := decList_encList xs n rest (by omega)
      simp [encList, decList, h1, h2]
theorem decFields_encFields : ∀ (kvs : List (String × Json)) (n : Nat) (rest : List Char),
    (encFields kvs).length ≤ n → decFields n (encFields kvs ++ rest) = some (kvs, rest)
  | [], n, rest, h => by
    cases n with
    | zero => simp [encFields] at h
    | succ n => simp [encFields, decFields]
  | (k, v) :: kvs, n, rest, h => by
    cases n with
    | zero => simp [encFields] at h
    | succ n =>
      simp only [encFields, List.length_cons, List.length_append] at h
      have h1 := dec_enc v n (encFields kvs ++ rest) (by omega)
      have h2 := decFields_encFields kvs n rest (by omega)
      simp [encFields, decFields, decStr_encStr, h1, h2]
end

end textSample

/-! ## The documents of the writers are canonical -/

/-- C23: what `from_json(to_json(f))` returns for a field of view `f`.  The reader always
succeeds.  When the stored `left` and `right` differ they are returned unchanged, and
likewise `down` and `up`.  When the stored `left` and `right` are equal, the writer emits
`hfov = -left + right = 0` and the reader returns `left = right = 0`, whatever their value
was; likewise for `down` and `up` with `vfov`.  The field of view `fovEqualSides` with
`left = right = 5` is read back with `left = right = 0`. -/
theorem from_json_FOV_to_json_FOV (f f0 : PlanarProjection.FOV) :
    from_json_FOV (to_json_FOV f) f0
        = .ok { down := if f.down = f.up then 0 else f.down,
                left := if f.left = f.right then 0 else f.left,
                right := if f.left = f.right then 0 else f.right,
                up := if f.down = f.up then 0 else f.up,
                distance := none }
      ∧ (f.left ≠ f.right → f.down ≠ f.up →
          from_json_FOV (to_json_FOV f) f0 = .ok { f with distance := none })
      ∧ (to_json_FOV fovEqualSides).find "hfov" = some (.float 0)
      ∧ from_json_FOV (to_json_FOV fovEqualSides) f0
          = .ok { down := -1, left := 0, right := 0, up := 1, distance := none } := by
  have h := fov_written_then_read
  refine ⟨h f f0, ?_, ?_, ?_⟩
  · intro h1 h2
    simp only [h f f0, if_neg h1, if_neg h2]
  · norm_num [to_json_FOV, fovEqualSides]
    simp [Json.find_set, Json.find_empty]
  · rw [h fovEqualSides f0]
    norm_num [fovEqualSides]

/-- A usual field of view is read back unchanged, and `fovEqualSides` is not. -/
theorem from_json_FOV_to_json_FOV_samples :
    from_json_FOV (to_json_FOV fovUsual) fovEqualSides = .ok fovUsual
      ∧ from_json_FOV (to_json_FOV fovEqualSides) fovUsual ≠ .ok fovEqualSides := by
  refine ⟨?_, ?_⟩
  · rw [(from_json_FOV_to_json_FOV fovUsual fovEqualSides).1]
    simp [fovUsual]
    norm_num
  · rw [(from_json_FOV_to_json_FOV fovEqualSides fovUsual).2.2.2]
    simp [fovEqualSides]

/-! ## C24: writing a flat spout projection and reading it again -/

/-- C24: what `from_json(to_json(p))` returns for a flat spout projection `p`.  The writer
stores `width` and `height` as strings (`std::to_string`), so when `p` has a width or a
height the reader fails with the type error 302 of the JSON library.  Otherwise the reader
succeeds, but it looks for the keys `mappingSpoutName` and `planarprojection` where the
writer has written `mappingspoutname` and `PlanarProjection`, and it never reads
`drawMain`: only the background is read back, the name is empty, `drawMain` is not set and
the planar projection is the default one. -/
theorem from_json_SpoutFlatProjection_to_json (ext : Ext) (p : SpoutFlatProjection) :
    (p.width.isSome ∨ p.height.isSome →
        from_json_SpoutFlatProjection ext (to_json_SpoutFlatProjection p)
          = .error (.json_exception 302))
      ∧ (p.width = none → p.height = none →
          from_json_SpoutFlatProjection ext (to_json_SpoutFlatProjection p)
            = .ok { width := none, height := none, mappingSpoutName := "",
                    background := p.background, drawMain := none, proj := ext.proj0 })
      ∧ from_json_SpoutFlatProjection ext (to_json_SpoutFlatProjection spoutFlatSample)
          = .error (.json_exception 302)
      ∧ (to_json_SpoutFlatProjection spoutFlatSample).find "width" = some (.str "1280") := by
  have h := spoutFlat_written_then_read ext
  refine ⟨?_, ?_, ?_, ?_⟩
  · intro hp
    rw [h p, if_pos hp]
  · intro hw hh
    rw [h p, if_neg (by simp [hw, hh])]
  · rw [h spoutFlatSample, if_pos (by simp [spoutFlatSample])]
  · simp [to_json_SpoutFlatProjection, spoutFlatSample, Json.find_set, Json.find_setOpt,
      Json.find_empty, to_string]
    decide

/-- A projection without width and height is read, but its name, `drawMain` and planar
projection are lost. -/
theorem from_json_SpoutFlatProjection_to_json_samples :
    from_json_SpoutFlatProjection (Ext.ofDocs []) (to_json_SpoutFlatProjection spoutFlatUnsized)
      = .ok { width := none, height := none, mappingSpoutName := "",
              background := some { x := 0, y := 0, z := 0, w := 1 }, drawMain := none,
              proj := (Ext.ofDocs []).proj0 } :=
  (from_json_SpoutFlatProjection_to_json (Ext.ofDocs []) spoutFlatUnsized).2.1 rfl rfl

/-! ## C25: the ids of the windows of a node -/

/-- The id of a window that has been read is the value of its key `id`, or the marker
`InvalidWindowIndex` when the key is missing. -/
theorem from_json_Window_id (ext : Ext) (j : Json) (w : Window)
    (h : from_json_Window ext j = .ok w) :
    ∃ id, parseValueOpt get_int j "id" = .ok id ∧ w.id = id.getD InvalidWindowIndex := by
  unfold from_json_Window at h
  obtain ⟨id, hid, h⟩ := Res.bind_eq_ok h
  refine ⟨id, hid, ?_⟩
  iterate 26 (obtain ⟨_, _, h⟩ := Res.bind_eq_ok h)
  cases h
  rfl

/-- Items that `get_items` has converted correspond to the items of the array, position by
position. -/
theorem get_items_getElem? {α : Type} (get : Json → Res α) (xs : List Json) (ys : List α)
    (h : get_items get xs = .ok ys) :
    ys.length = xs.length
      ∧ ∀ (i : Nat) (x : Json), xs[i]? = some x → ∃ y, ys[i]? = some y ∧ get x = .ok y := by
  induction xs generalizing ys with
  | nil =>
    cases h
    exact ⟨rfl, fun i x hx => by simp at hx⟩
  | cons x0 xs ih =>
    unfold get_items at h
    obtain ⟨a, ha, h⟩ := Res.bind_eq_ok h
    obtain ⟨as, has, h⟩ := Res.bind_eq_ok h
    cases h
    obtain ⟨hlen, hget⟩ := ih as has
    refine ⟨by simp [hlen], ?_⟩
    intro i x hx
    cases i with
    | zero =>
      simp only [List.getElem?_cons_zero, Option.some.injEq] at hx
      subst hx
      exact ⟨a, by simp, ha⟩
    | succ i =>
      simp only [List.getElem?_cons_succ] at hx ⊢
      exact hget i x hx

/-- The loop at the end of `from_json(Node)`, position by position. -/
theorem assignWindowIds_getElem? (k : Nat) (ws : List Window) (i : Nat) :
    (assignWindowIds k ws)[i]? = (ws[i]?).map (fun w =>
      if w.id = InvalidWindowIndex then { w with id := toInt32 ((k + i : Nat) : Int) }
      else w) := by
  induction ws generalizing k i with
  | nil => simp [assignWindowIds]
  | cons w ws ih =>
    cases i with
    | zero => simp [assignWindowIds]
    | succ i =>
      simp only [assignWindowIds, List.getElem?_cons_succ, ih]
      have : k + 1 + i = k + (i + 1) := by omega
      rw [this]

/-- The loop at the end of `from_json(Node)` keeps the number of windows. -/
theorem assignWindowIds_length (k : Nat) (ws : List Window) :
    (assignWindowIds k ws).length = ws.length := by
  induction ws generalizing k with
  | nil => rfl
  | cons w ws ih => simp [assignWindowIds, ih]

/-- C25: after a node has been parsed from JSON it has one window for each item of its
`windows` array.  A window whose object has an integer `id` that is a value of the type
`int` other than -128 has exactly that id.  A window without an `id` key has its zero-based
position in the array as id, and so has a window whose `id` is -128, the value of the
marker `InvalidWindowIndex`. -/
theorem from_json_Node_window_ids (ext : Ext) (j : Json) (n : Node) (ws : List Json)
    (hwindows : j.find "windows" = some (.arr ws))
    (hparse : from_json_Node ext j = .ok n) :
    n.windows.length = ws.length
      ∧ ∀ (i : Nat) (wj : Json), ws[i]? = some wj → i < 2147483648 →
          ∃ w, n.windows[i]? = some w
            ∧ (∀ v : Int, wj.find "id" = some (.int v) → fitsInt v = true →
                v ≠ InvalidWindowIndex → w.id = v)
            ∧ (wj.find "id" = none → w.id = (i : Int))
            ∧ (wj.find "id" = some (.int InvalidWindowIndex) → w.id = (i : Int)) := by
  unfold from_json_Node at hparse
  obtain ⟨address, _, hparse⟩ := Res.bind_eq_ok hparse
  obtain ⟨port, _, hparse⟩ := Res.bind_eq_ok hparse
  obtain ⟨dataTransferPort, _, hparse⟩ := Res.bind_eq_ok hparse
  obtain ⟨swapLock, _, hparse⟩ := Res.bind_eq_ok hparse
  obtain ⟨windows, hws, hparse⟩ := Res.bind_eq_ok hparse
  cases hparse
  simp only [parseValueVec, hwindows, get_vector] at hws
  obtain ⟨hlen, hget⟩ := get_items_getElem? _ ws windows hws
  refine ⟨by rw [assignWindowIds_length, hlen], ?_⟩
  intro i wj hwj hi
  obtain ⟨w0, hw0, hread⟩ := hget i wj hwj
  obtain ⟨id, hid, hw0id⟩ := from_json_Window_id ext wj w0 hread
  have hpos : toInt32 ((0 + i : Nat) : Int) = (i : Int) := by
    unfold toInt32
    omega
  have hslot := assignWindowIds_getElem? 0 windows i
  rw [hw0, Option.map_some', hpos] at hslot
  refine ⟨_, hslot, ?_, ?_, ?_⟩
  · intro v hv hfit hne
    simp only [parseValueOpt, hv, get_int, toInt32_of_fitsInt v hfit] at hid
    cases hid
    simp only [Option.getD_some] at hw0id
    rw [if_neg (by rw [hw0id]; exact hne), hw0id]
  · intro hnone
    simp only [parseValueOpt, hnone] at hid
    cases hid
    simp only [Option.getD_none] at hw0id
    rw [if_pos hw0id]
  · intro hmarker
    simp only [parseValueOpt, hmarker, get_int] at hid
    cases hid
    have : w0.id = InvalidWindowIndex := by
      rw [hw0id]
      rfl
    rw [if_pos this]

/-- The second window of `nodeWindowIds` has the key `id` with the integer value -128, and
after the node has been parsed its id is 1, its position, and not -128. -/
theorem from_json_Node_window_id_marker :
    (∃ wj, windowDocs[1]? = some wj ∧ wj.find "id" = some (.int (-128)))
      ∧ (from_json_Node (Ext.ofDocs []) nodeWindowIds).map
          (fun n => n.windows.map Window.id) = .ok [5, 1, 2] :=
  ⟨⟨_, rfl, rfl⟩, rfl⟩

/-- The node `nodeWindowIds` is parsed, and its windows get their ids as stated. -/
theorem from_json_Node_window_ids_witness :
    nodeWindowIds.find "windows" = some (.arr windowDocs)
      ∧ ∃ n, from_json_Node (Ext.ofDocs []) nodeWindowIds = .ok n
        ∧ n.windows.length = windowDocs.length
        ∧ ∀ (i : Nat) (wj : Json), windowDocs[i]? = some wj → i < 2147483648 →
            ∃ w, n.windows[i]? = some w
              ∧ (∀ v : Int, wj.find "id" = some (.int v) → fitsInt v = true →
                  v ≠ InvalidWindowIndex → w.id = v)
              ∧ (wj.find "id" = none → w.id = (i : Int))
              ∧ (wj.find "id" = some (.int InvalidWindowIndex) → w.id = (i : Int)) := by
  have hn : ∃ n, from_json_Node (Ext.ofDocs []) nodeWindowIds = .ok n := by
    cases h : from_json_Node (Ext.ofDocs []) nodeWindowIds with
    | ok n => exact ⟨n, rfl⟩
    | error e =>
      have h2 : (from_json_Node (Ext.ofDocs []) nodeWindowIds).map
          (fun n => n.windows.map Window.id) = .ok [5, 1, 2] := rfl
      rw [h] at h2
      cases h2
  obtain ⟨n, hn⟩ := hn
  exact ⟨rfl, n, hn, from_json_Node_window_ids (Ext.ofDocs []) nodeWindowIds n windowDocs rfl hn⟩

end sgct
